import Mathlib

/-!
# GLES2 device lifecycle and capability table, Vulkan sampler teardown, log lines

A model of `cocos/renderer/gfx-gles2/GLES2Device.cpp`,
`cocos/renderer/gfx-vulkan/VKSampler.cpp` and `cocos/base/Log.cpp`.

Member pointers are `Option` values (`none` is `nullptr`), calls into objects whose
code lives elsewhere are recorded as events in a call log, and dereferencing an
empty handle or failing a `CCASSERT` is a `Fault`.
-/

namespace cc

/-! ## Logging (`cocos/base/Log.cpp`)

The 4096-byte buffer of `Log::logMessage` is a map from indices to bytes; the pointer `p`
is its offset from the start of the buffer. A store that does not lie inside the buffer
yields `none`. -/

/-- Modelled from the spec: the `LogLevel` enumeration, declared in a header that is not
part of the sources at hand: FATAL, ERROR, WARN, INFO, DEBUG, in the order of
`LOG_LEVEL_DESCS`. -/
inductive LogLevel where
  | FATAL | ERR | WARN | INFO | DEBUG_
  deriving DecidableEq, Repr

/-- The cast `(int)level`. -/
def LogLevel.toNat : LogLevel → Nat
  | .FATAL => 0
  | .ERR => 1
  | .WARN => 2
  | .INFO => 3
  | .DEBUG_ => 4

/-- Line 58: `LOG_LEVEL_DESCS`. -/
def LOG_LEVEL_DESCS : List String := ["FATAL", "ERROR", "WARN", "INFO", "DEBUG"]

/-- The fields of `struct tm` that `logMessage` prints. -/
structure Tm where
  tm_hour : Int
  tm_min : Int
  tm_sec : Int
  deriving DecidableEq, Repr

/-- What the format string and its arguments expand to: the full text, or a failure of the
conversion, for which `vsnprintf` returns the negative value `-(code + 1)`. -/
inductive Formatted where
  | text (cs : List Char)
  | failure (code : Nat)
  deriving DecidableEq, Repr

namespace Log

/-- The value of `sizeof(buff)`. -/
def buffSize : Nat := 4096

/-- The terminating byte of a C string. -/
def NUL : Char := Char.ofNat 0

/-- The largest `int`. -/
def INT_MAX : Int := 2147483647

/-- The conversion of an `int` to `size_t`. -/
def toSizeT (n : Int) : Nat := (n % 18446744073709551616).toNat

/-- The buffer after bytes `cs` are stored from index `q` on. -/
def blit (buff : Nat → Char) (q : Nat) (cs : List Char) : Nat → Char :=
  fun i => if q ≤ i ∧ i < q + cs.length then cs.getD (i - q) NUL else buff i

/-- Store bytes `cs` from offset `p` on; `none` when a byte would fall outside the buffer. -/
def store (buff : Nat → Char) (p : Int) (cs : List Char) : Option (Nat → Char) :=
  if 0 ≤ p ∧ p + cs.length ≤ buffSize then some (blit buff p.toNat cs) else none

/-- One `%02d` conversion. -/
def format02d (n : Int) : List Char :=
  if 0 ≤ n ∧ n < 10 then '0' :: (toString n).data else (toString n).data

/-- The text of `"%02d:%02d:%02d "` at line 111. -/
def formatTime (t : Tm) : List Char :=
  format02d t.tm_hour ++ [':'] ++ format02d t.tm_min ++ [':'] ++ format02d t.tm_sec ++ [' ']

/-- The text of `"[%s]: "` at line 114. -/
def formatLevel (level : LogLevel) : List Char :=
  ['['] ++ (LOG_LEVEL_DESCS.getD level.toNat "").data ++ [']', ':', ' ']

/-- The call `sprintf(p, ...)` whose conversions yield `out`: it stores `out` and a
terminating NUL and returns the length of `out`. -/
def sprintf (buff : Nat → Char) (p : Int) (out : List Char) : Option ((Nat → Char) × Int) :=
  (store buff p (out ++ [NUL])).map fun b => (b, (out.length : Int))

/-- The value `vsnprintf` returns: the length of the full text, or a negative value when
the conversion fails or the length does not fit an `int`. -/
def returned : Formatted → Int
  | .text cs => if (cs.length : Int) ≤ INT_MAX then (cs.length : Int) else -1
  | .failure code => -((code : Int) + 1)

/-- The call `vsnprintf(p, size, formats, args)`: with a positive `size` it stores at most
`size - 1` bytes of the text and a terminating NUL. -/
def vsnprintf (buff : Nat → Char) (p : Int) (size : Nat) (f : Formatted) :
    Option ((Nat → Char) × Int) :=
  match f with
  | .text cs =>
    if size = 0 then some (buff, returned f)
    else (store buff p (cs.take (size - 1) ++ [NUL])).map fun b => (b, returned f)
  | .failure _ => some (buff, returned f)

/-- What `logMessage` leaves behind: the buffer, the offset of `p` after the prefix, the
value of `count`, the advance of `p` over the message, and the offsets at which the newline
and the final NUL were stored. -/
structure Line where
  buff : Nat → Char
  prefixEnd : Int
  count : Int
  advance : Int
  newlineAt : Int
  nulAt : Int

/-- Lines 103 and 120 to 131 of `Log::logMessage`: the message is formatted at offset `p`,
then the newline and the final NUL are stored. -/
def writeMessage (buff : Nat → Char) (p : Int) (f : Formatted) : Option Line := do
  let last : Int := (buffSize : Int) - 3
  let count : Int := last - p
  let (buff, ret) ← vsnprintf buff p (toSizeT count) f
  let q := if ret ≥ count - 1 then p + (count - 1) else if ret ≥ 0 then p + ret else p
  let buff ← store buff q ['\n']
  let buff ← store buff (q + 1) [NUL]
  pure { buff := buff, prefixEnd := p, count := count, advance := q - p,
         newlineAt := q, nulAt := q + 1 }

/-- Lines 100 to 131 of `Log::logMessage`: `buff0` is the buffer as it is found, `t` the
local time, `f` the expansion of the format with its arguments. -/
def logMessage (buff0 : Nat → Char) (t : Tm) (level : LogLevel) (f : Formatted) :
    Option Line := do
  let p : Int := 0
  let (buff, n) ← sprintf buff0 p (formatTime t)
  let p := p + n
  let (buff, n) ← sprintf buff p (formatLevel level)
  let p := p + n
  writeMessage buff p f

/-- The bytes of the message that stay in the line: the text cut to `count - 1` bytes, or
nothing when `vsnprintf` returns a negative value. -/
def kept (f : Formatted) (count : Int) : List Char :=
  match f with
  | .text cs => if 0 ≤ returned f then cs.take (count - 1).toNat else []
  | .failure _ => []

/-- The C string that starts at index `i`, read with at most `fuel` bytes. -/
def cStringFrom (buff : Nat → Char) : Nat → Nat → List Char
  | _, 0 => []
  | i, fuel + 1 => if buff i = NUL then [] else buff i :: cStringFrom buff (i + 1) fuel

/-- The C string in the buffer, as `fputs(buff, ...)` emits it. -/
def cString (buff : Nat → Char) : List Char :=
  cStringFrom buff 0 buffSize

/-- The first `n` bytes of the buffer. -/
def content (buff : Nat → Char) (n : Nat) : List Char :=
  (List.range n).map buff

end Log

namespace gfx

/-! ## Enumerations used by the device -/

/-- Modelled from the spec: the `Format` enumeration is declared in a header that is
not part of the sources at hand. The constructors are the enumerators that
`GLES2Device::doInit` names, then the eight 32-bit integer enumerators of the header,
which `doInit` names nowhere; `other n` stands for any further enumerator. -/
inductive Format where
  | RGB8 | R5G6B5 | RGBA8 | RGBA4 | RGB5A1
  | R8I | RG8I | RGB8I | RGBA8I
  | R8UI | RG8UI | RGB8UI | RGBA8UI
  | R16I | RG16I | RGB16I | RGBA16I
  | R16UI | RG16UI | RGB16UI | RGBA16UI
  | R32F | RG32F | RGB32F | RGBA32F
  | R16F | RG16F | RGB16F | RGBA16F
  | DEPTH | DEPTH_STENCIL
  | SRGB8 | SRGB8_A8
  | R8 | RG8
  | ETC_RGB8
  | PVRTC_RGB2 | PVRTC_RGBA2 | PVRTC_RGB4 | PVRTC_RGBA4
  | ASTC_RGBA_4X4 | ASTC_RGBA_5X4 | ASTC_RGBA_5X5 | ASTC_RGBA_6X5 | ASTC_RGBA_6X6
  | ASTC_RGBA_8X5 | ASTC_RGBA_8X6 | ASTC_RGBA_8X8 | ASTC_RGBA_10X5 | ASTC_RGBA_10X6
  | ASTC_RGBA_10X8 | ASTC_RGBA_10X10 | ASTC_RGBA_12X10 | ASTC_RGBA_12X12
  | ASTC_SRGBA_4X4 | ASTC_SRGBA_5X4 | ASTC_SRGBA_5X5 | ASTC_SRGBA_6X5 | ASTC_SRGBA_6X6
  | ASTC_SRGBA_8X5 | ASTC_SRGBA_8X6 | ASTC_SRGBA_8X8 | ASTC_SRGBA_10X5 | ASTC_SRGBA_10X6
  | ASTC_SRGBA_10X8 | ASTC_SRGBA_10X10 | ASTC_SRGBA_12X10 | ASTC_SRGBA_12X12
  | R32UI | R32I | RG32UI | RG32I | RGB32UI | RGB32I | RGBA32UI | RGBA32I
  | other (n : Nat)
  deriving Repr

/-- An injective numbering of the formats, used to decide equality of formats. -/
def Format.code : Format → Nat
  | .RGB8 => 0
  | .R5G6B5 => 1
  | .RGBA8 => 2
  | .RGBA4 => 3
  | .RGB5A1 => 4
  | .R8I => 5
  | .RG8I => 6
  | .RGB8I => 7
  | .RGBA8I => 8
  | .R8UI => 9
  | .RG8UI => 10
  | .RGB8UI => 11
  | .RGBA8UI => 12
  | .R16I => 13
  | .RG16I => 14
  | .RGB16I => 15
  | .RGBA16I => 16
  | .R16UI => 17
  | .RG16UI => 18
  | .RGB16UI => 19
  | .RGBA16UI => 20
  | .R32F => 21
  | .RG32F => 22
  | .RGB32F => 23
  | .RGBA32F => 24
  | .R16F => 25
  | .RG16F => 26
  | .RGB16F => 27
  | .RGBA16F => 28
  | .DEPTH => 29
  | .DEPTH_STENCIL => 30
  | .SRGB8 => 31
  | .SRGB8_A8 => 32
  | .R8 => 33
  | .RG8 => 34
  | .ETC_RGB8 => 35
  | .PVRTC_RGB2 => 36
  | .PVRTC_RGBA2 => 37
  | .PVRTC_RGB4 => 38
  | .PVRTC_RGBA4 => 39
  | .ASTC_RGBA_4X4 => 40
  | .ASTC_RGBA_5X4 => 41
  | .ASTC_RGBA_5X5 => 42
  | .ASTC_RGBA_6X5 => 43
  | .ASTC_RGBA_6X6 => 44
  | .ASTC_RGBA_8X5 => 45
  | .ASTC_RGBA_8X6 => 46
  | .ASTC_RGBA_8X8 => 47
  | .ASTC_RGBA_10X5 => 48
  | .ASTC_RGBA_10X6 => 49
  | .ASTC_RGBA_10X8 => 50
  | .ASTC_RGBA_10X10 => 51
  | .ASTC_RGBA_12X10 => 52
  | .ASTC_RGBA_12X12 => 53
  | .ASTC_SRGBA_4X4 => 54
  | .ASTC_SRGBA_5X4 => 55
  | .ASTC_SRGBA_5X5 => 56
  | .ASTC_SRGBA_6X5 => 57
  | .ASTC_SRGBA_6X6 => 58
  | .ASTC_SRGBA_8X5 => 59
  | .ASTC_SRGBA_8X6 => 60
  | .ASTC_SRGBA_8X8 => 61
  | .ASTC_SRGBA_10X5 => 62
  | .ASTC_SRGBA_10X6 => 63
  | .ASTC_SRGBA_10X8 => 64
  | .ASTC_SRGBA_10X10 => 65
  | .ASTC_SRGBA_12X10 => 66
  | .ASTC_SRGBA_12X12 => 67
  | .R32UI => 68
  | .R32I => 69
  | .RG32UI => 70
  | .RG32I => 71
  | .RGB32UI => 72
  | .RGB32I => 73
  | .RGBA32UI => 74
  | .RGBA32I => 75
  | .other n => n + 76

/-- Inverse of `Format.code`. -/
def Format.ofCode : Nat → Format
  | 0 => .RGB8
  | 1 => .R5G6B5
  | 2 => .RGBA8
  | 3 => .RGBA4
  | 4 => .RGB5A1
  | 5 => .R8I
  | 6 => .RG8I
  | 7 => .RGB8I
  | 8 => .RGBA8I
  | 9 => .R8UI
  | 10 => .RG8UI
  | 11 => .RGB8UI
  | 12 => .RGBA8UI
  | 13 => .R16I
  | 14 => .RG16I
  | 15 => .RGB16I
  | 16 => .RGBA16I
  | 17 => .R16UI
  | 18 => .RG16UI
  | 19 => .RGB16UI
  | 20 => .RGBA16UI
  | 21 => .R32F
  | 22 => .RG32F
  | 23 => .RGB32F
  | 24 => .RGBA32F
  | 25 => .R16F
  | 26 => .RG16F
  | 27 => .RGB16F
  | 28 => .RGBA16F
  | 29 => .DEPTH
  | 30 => .DEPTH_STENCIL
  | 31 => .SRGB8
  | 32 => .SRGB8_A8
  | 33 => .R8
  | 34 => .RG8
  | 35 => .ETC_RGB8
  | 36 => .PVRTC_RGB2
  | 37 => .PVRTC_RGBA2
  | 38 => .PVRTC_RGB4
  | 39 => .PVRTC_RGBA4
  | 40 => .ASTC_RGBA_4X4
  | 41 => .ASTC_RGBA_5X4
  | 42 => .ASTC_RGBA_5X5
  | 43 => .ASTC_RGBA_6X5
  | 44 => .ASTC_RGBA_6X6
  | 45 => .ASTC_RGBA_8X5
  | 46 => .ASTC_RGBA_8X6
  | 47 => .ASTC_RGBA_8X8
  | 48 => .ASTC_RGBA_10X5
  | 49 => .ASTC_RGBA_10X6
  | 50 => .ASTC_RGBA_10X8
  | 51 => .ASTC_RGBA_10X10
  | 52 => .ASTC_RGBA_12X10
  | 53 => .ASTC_RGBA_12X12
  | 54 => .ASTC_SRGBA_4X4
  | 55 => .ASTC_SRGBA_5X4
  | 56 => .ASTC_SRGBA_5X5
  | 57 => .ASTC_SRGBA_6X5
  | 58 => .ASTC_SRGBA_6X6
  | 59 => .ASTC_SRGBA_8X5
  | 60 => .ASTC_SRGBA_8X6
  | 61 => .ASTC_SRGBA_8X8
  | 62 => .ASTC_SRGBA_10X5
  | 63 => .ASTC_SRGBA_10X6
  | 64 => .ASTC_SRGBA_10X8
  | 65 => .ASTC_SRGBA_10X10
  | 66 => .ASTC_SRGBA_12X10
  | 67 => .ASTC_SRGBA_12X12
  | 68 => .R32UI
  | 69 => .R32I
  | 70 => .RG32UI
  | 71 => .RG32I
  | 72 => .RGB32UI
  | 73 => .RGB32I
  | 74 => .RGBA32UI
  | 75 => .RGBA32I
  | n + 76 => .other n

instance : DecidableEq Format := fun a b =>
  decidable_of_iff (a.code = b.code)
    ⟨fun h => by
        have ha : Format.ofCode a.code = a := by cases a <;> rfl
        have hb : Format.ofCode b.code = b := by cases b <;> rfl
        rw [← ha, ← hb, h],
      fun h => by rw [h]⟩

/-- Modelled from the spec: the `FormatFeature` bit mask, declared in a header that is
not part of the sources at hand: one bit per feature, masks combined by bitwise OR. -/
abbrev FormatFeature := Nat

namespace FormatFeature

def NONE : FormatFeature := 0
def RENDER_TARGET : FormatFeature := 1
def SAMPLED_TEXTURE : FormatFeature := 2
def LINEAR_FILTER : FormatFeature := 4
def VERTEX_ATTRIBUTE : FormatFeature := 16

/-- Every bit of `a` is also set in `b`. -/
def subset (a b : FormatFeature) : Prop := a &&& b = a

instance (a b : FormatFeature) : Decidable (subset a b) := by
  unfold subset; infer_instance

end FormatFeature

/-- Modelled from the spec: the optional `Feature`s, declared in a header that is not
part of the sources at hand. The constructors are the enumerators `doInit` names. -/
inductive Feature where
  | ELEMENT_INDEX_UINT
  | INSTANCED_ARRAYS
  | MULTIPLE_RENDER_TARGETS
  | BLEND_MINMAX
  | INPUT_ATTACHMENT_BENEFIT
  | other (n : Nat)
  deriving DecidableEq, Repr

inductive FBFSupportLevel where
  | NONE | COHERENT | NON_COHERENT_EXT | NON_COHERENT_QCOM
  deriving DecidableEq, Repr

inductive MSRTSupportLevel where
  | NONE | LEVEL1 | LEVEL2
  deriving DecidableEq, Repr

inductive QueueType where
  | GRAPHICS | COMPUTE | TRANSFER
  deriving DecidableEq, Repr

inductive CommandBufferType where
  | PRIMARY | SECONDARY
  deriving DecidableEq, Repr

/-! ## Sub-objects of the device -/

/-- The nine sub-objects `doInit` constructs, by the member that holds them. -/
inductive SubObject where
  | gpuContext | gpuStateCache | gpuBlitManager | gpuFramebufferHub
  | gpuConstantRegistry | gpuFramebufferCacheMap | queue | queryPool | cmdBuff
  deriving DecidableEq, Repr

structure GLES2GPUContext where
  deriving DecidableEq, Repr

structure GLES2GPUStateCache where
  deriving DecidableEq, Repr

structure GLES2GPUBlitManager where
  deriving DecidableEq, Repr

structure GLES2GPUFramebufferHub where
  deriving DecidableEq, Repr

structure GLES2GPUFramebufferCacheMap where
  deriving DecidableEq, Repr

structure GLES2QueryPool where
  deriving DecidableEq, Repr

/-- The fields of the constant registry that `doInit` writes. -/
structure GLES2GPUConstantRegistry where
  useVAO : Bool := false
  useDrawInstanced : Bool := false
  useInstancedArrays : Bool := false
  useDiscardFramebuffer : Bool := false
  mFBF : FBFSupportLevel := .NONE
  mMSRT : MSRTSupportLevel := .NONE
  deriving DecidableEq, Repr

/-- The default queue with the three counters `present` reads and clears. -/
structure GLES2Queue where
  type : QueueType := .GRAPHICS
  _numDrawCalls : Nat := 0
  _numInstances : Nat := 0
  _numTriangles : Nat := 0
  deriving DecidableEq, Repr

/-- The two classes `createCommandBuffer` instantiates. -/
inductive CommandBuffer where
  | GLES2PrimaryCommandBuffer
  | GLES2CommandBuffer
  deriving DecidableEq, Repr

structure CommandBufferInfo where
  queue : Option GLES2Queue := none
  type : CommandBufferType := .PRIMARY
  deriving DecidableEq, Repr

/-- The limits `doInit` reads with `glGetIntegerv`. -/
structure DeviceCaps where
  maxVertexAttributes : Nat := 0
  maxVertexUniformVectors : Nat := 0
  maxFragmentUniformVectors : Nat := 0
  maxTextureUnits : Nat := 0
  maxVertexTextureUnits : Nat := 0
  maxTextureSize : Nat := 0
  maxCubeMapTextureSize : Nat := 0
  maxColorRenderTargets : Nat := 0
  deriving DecidableEq, Repr

structure MemoryStatus where
  bufferSize : Nat := 0
  textureSize : Nat := 0
  deriving DecidableEq, Repr

/-- A GPU swapchain, identified by its address. -/
abbrev GLES2GPUSwapchain := Nat

/-- A `GLES2Swapchain`; `gpuSwapchain()` returns the GPU swapchain it wraps. -/
structure GLES2Swapchain where
  gpuSwapchain : GLES2GPUSwapchain
  deriving DecidableEq, Repr

/-- Calls the device makes into objects whose code lives elsewhere, in call order. -/
inductive Event where
  | construct (o : SubObject)
  | contextInit
  | destroyCalled
  | blitManagerDestroy
  | destroy (o : SubObject)
  | delete (o : SubObject)
  | glEnableFramebufferFetchNoncoherentQCOM
  | stateCacheInit (maxTextureUnits maxVertexAttributes : Nat)
  | blitManagerInit
  | logInfo (msg : String)
  | contextPresent (swapchain : GLES2GPUSwapchain)
  | onAcquireExecute
  deriving DecidableEq, Repr

inductive Fault where
  | nullDereference
  | assertion (msg : String)
  | outOfBounds
  deriving DecidableEq, Repr

/-! ## The device -/

structure AcquireHook where
  deriving DecidableEq, Repr

inductive API where
  | UNKNOWN | GLES2
  deriving DecidableEq, Repr

/-- The members of `GLES2Device` (its own and those of the `Device` base class) that the
functions below read or write, and `calls`, the log of calls into other objects. -/
structure GLES2Device where
  _api : API
  _deviceName : String
  _gpuContext : Option GLES2GPUContext
  _gpuStateCache : Option GLES2GPUStateCache
  _gpuBlitManager : Option GLES2GPUBlitManager
  _gpuFramebufferHub : Option GLES2GPUFramebufferHub
  _gpuConstantRegistry : Option GLES2GPUConstantRegistry
  _gpuFramebufferCacheMap : Option GLES2GPUFramebufferCacheMap
  _queue : Option GLES2Queue
  _queryPool : Option GLES2QueryPool
  _cmdBuff : Option CommandBuffer
  _textureExclusive : Format → Bool
  _formatFeatures : Format → FormatFeature
  _features : Feature → Bool
  _extensions : List String
  _multithreadedSubmission : Bool
  _caps : DeviceCaps
  _renderer : String
  _vendor : String
  _version : String
  _memoryStatus : MemoryStatus
  _swapchains : List GLES2GPUSwapchain
  _onAcquire : Option AcquireHook
  _numDrawCalls : Nat
  _numInstances : Nat
  _numTriangles : Nat
  calls : List Event

namespace GLES2Device

/-- A freshly constructed device (`GLES2Device::GLES2Device()`): every handle empty,
every format mask empty, every feature false, no statistics. -/
def fresh : GLES2Device where
  _api := .GLES2
  _deviceName := "GLES2"
  _gpuContext := none
  _gpuStateCache := none
  _gpuBlitManager := none
  _gpuFramebufferHub := none
  _gpuConstantRegistry := none
  _gpuFramebufferCacheMap := none
  _queue := none
  _queryPool := none
  _cmdBuff := none
  _textureExclusive := fun _ => true
  _formatFeatures := fun _ => FormatFeature.NONE
  _features := fun _ => false
  _extensions := []
  _multithreadedSubmission := false
  _caps := {}
  _renderer := ""
  _vendor := ""
  _version := ""
  _memoryStatus := {}
  _swapchains := []
  _onAcquire := none
  _numDrawCalls := 0
  _numInstances := 0
  _numTriangles := 0
  calls := []

/-- Append one call to the log. -/
def log (d : GLES2Device) (e : Event) : GLES2Device :=
  { d with calls := d.calls ++ [e] }

end GLES2Device

/-- What the platform, the GL backend and the allocator answer during `doInit`. -/
structure Backend where
  /-- Whether `CC_PLATFORM == CC_PLATFORM_WINDOWS`. -/
  windows : Bool := false
  /-- Result of `_gpuContext->initialize(_gpuStateCache, _gpuConstantRegistry)`. -/
  contextInitOk : Bool := true
  /-- The list `StringUtil::split(glGetString(GL_EXTENSIONS), " ")`. -/
  extensions : List String := []
  renderer : String := ""
  vendor : String := ""
  version : String := ""
  maxDrawBuffers : Nat := 0
  maxVertexAttribs : Nat := 0
  maxVertexUniformVectors : Nat := 0
  maxFragmentUniformVectors : Nat := 0
  maxTextureImageUnits : Nat := 0
  maxVertexTextureImageUnits : Nat := 0
  maxTextureSize : Nat := 0
  maxCubeMapTextureSize : Nat := 0
  /-- Whether `createQueue` hands back an object rather than an empty handle. -/
  queueCreated : Bool := true
  /-- Whether `createQueryPool` hands back an object rather than an empty handle. -/
  queryPoolCreated : Bool := true
  /-- Whether `createCommandBuffer` hands back an object rather than an empty handle. -/
  cmdBuffCreated : Bool := true

/-! ## Extension probes -/

/-- Whether `needle` occurs in `hay` as a contiguous run: `hay.find(needle) != npos`. -/
def containsChars : List Char → List Char → Bool
  | [], needle => needle.isEmpty
  | c :: cs, needle => needle.isPrefixOf (c :: cs) || containsChars cs needle

/-- The test `ext.find(name) != String::npos` of line 243. -/
def hasSubstring (ext name : String) : Bool :=
  containsChars ext.data name.data

/-- Modelled from the spec: `Device::checkExtension` is declared in the base-class header,
which is not part of the sources at hand. A probe for a named capability succeeds when
some string of the extension list contains the name. -/
def checkExtension (extensions : List String) (extension : String) : Bool :=
  extensions.any fun ext => hasSubstring ext extension

/-! ## The statements of the capability section of `doInit` (lines 93 to 321)

Each source statement is one `GStmt`: the statement itself and the conditions of the
`if`s (and `#if`s) that enclose it. -/

inductive Guard where
  /-- Condition `if (checkExtension(name))`. -/
  | ext (name : String)
  /-- Condition `#if CC_PLATFORM != CC_PLATFORM_WINDOWS`. -/
  | notWindows
  deriving DecidableEq, Repr

inductive Stmt where
  /-- Statement `_formatFeatures[toNumber(f)] = m`. -/
  | assignFormatFeature (f : Format) (m : FormatFeature)
  /-- Statement `_formatFeatures[toNumber(f)] |= m`. -/
  | orFormatFeature (f : Format) (m : FormatFeature)
  /-- Statement `setTextureExclusive(f, b)`. -/
  | setTextureExclusive (f : Format) (b : Bool)
  /-- Statement `_features[toNumber(ft)] = b`. -/
  | setFeature (ft : Feature) (b : Bool)
  /-- Statement `glGetIntegerv(GL_MAX_DRAW_BUFFERS_EXT, &_caps.maxColorRenderTargets)`. -/
  | getMaxColorRenderTargets
  /-- Statement `_gpuConstantRegistry->useVAO = checkExtension("vertex_array_object")`. -/
  | probeUseVAO
  /-- Statement `_gpuConstantRegistry->useDrawInstanced = checkExtension("draw_instanced")`. -/
  | probeUseDrawInstanced
  /-- Statement `_gpuConstantRegistry->useInstancedArrays = checkExtension("instanced_arrays")`. -/
  | probeUseInstancedArrays
  /-- Statement
  `_gpuConstantRegistry->useDiscardFramebuffer = checkExtension("discard_framebuffer")`. -/
  | probeUseDiscardFramebuffer
  /-- Statement `_features[INSTANCED_ARRAYS] = _gpuConstantRegistry->useInstancedArrays`. -/
  | copyInstancedArrays
  /-- Lines 240 to 259: the choice of the framebuffer-fetch level. -/
  | selectFBF
  /-- Statement `_features[INPUT_ATTACHMENT_BENEFIT] = _gpuConstantRegistry->mFBF != NONE`. -/
  | setInputAttachmentBenefit
  /-- Lines 266 to 270: the choice of the multisampled-render-to-texture level. -/
  | selectMSRT
  /-- Statement `compressedFmts += s`. -/
  | appendCompressedFmts (s : String)
  deriving DecidableEq, Repr

structure GStmt where
  guards : List Guard
  stmt : Stmt
  deriving DecidableEq, Repr

/-- The device together with the two local strings of `doInit`. -/
structure InitState where
  dev : GLES2Device
  fbfLevelStr : String
  compressedFmts : String

/-- The stringified extension names of lines 247, 250 and 255 (`CC_TOSTR`). -/
def GL_EXT_shader_framebuffer_fetch_non_coherent : String :=
  "GL_EXT_shader_framebuffer_fetch_non_coherent"

def GL_QCOM_shader_framebuffer_fetch_noncoherent : String :=
  "GL_QCOM_shader_framebuffer_fetch_noncoherent"

def GL_EXT_shader_framebuffer_fetch : String :=
  "GL_EXT_shader_framebuffer_fetch"

/-- Whether a condition holds on a platform (`windows` tells whether it is Windows) with
the given extension list. -/
def Guard.holds (windows : Bool) (extensions : List String) : Guard → Bool
  | .ext name => checkExtension extensions name
  | .notWindows => !windows

/-- Whether every condition that encloses the statement holds. -/
def GStmt.enabled (windows : Bool) (extensions : List String) (s : GStmt) : Bool :=
  s.guards.all (Guard.holds windows extensions)

/-- Write through `_gpuConstantRegistry->`; an empty handle is a null dereference. -/
def InitState.withRegistry (st : InitState)
    (k : GLES2GPUConstantRegistry → InitState → InitState) : Except Fault InitState :=
  match st.dev._gpuConstantRegistry with
  | none => .error .nullDereference
  | some r => .ok (k r st)

def InitState.setRegistry (st : InitState) (r : GLES2GPUConstantRegistry) : InitState :=
  { st with dev := { st.dev with _gpuConstantRegistry := some r } }

/-- Lines 240 to 259 on a live registry `r`. -/
def selectFBFLevel (r : GLES2GPUConstantRegistry) (st : InitState) : InitState :=
  match st.dev._extensions.find? (fun ext => hasSubstring ext "framebuffer_fetch_non") with
  | some it =>
    if it = GL_EXT_shader_framebuffer_fetch_non_coherent then
      { st.setRegistry { r with mFBF := .NON_COHERENT_EXT } with
        fbfLevelStr := "NON_COHERENT_EXT" }
    else if it = GL_QCOM_shader_framebuffer_fetch_noncoherent then
      let st1 := { st.setRegistry { r with mFBF := .NON_COHERENT_QCOM } with
                   fbfLevelStr := "NON_COHERENT_QCOM" }
      { st1 with dev := st1.dev.log .glEnableFramebufferFetchNoncoherentQCOM }
    else st
  | none =>
    if checkExtension st.dev._extensions GL_EXT_shader_framebuffer_fetch then
      { st.setRegistry { r with mFBF := .COHERENT } with fbfLevelStr := "COHERENT" }
    else st

/-- Lines 266 to 270 on a live registry `r`. -/
def selectMSRTLevel (r : GLES2GPUConstantRegistry) (st : InitState) : InitState :=
  if checkExtension st.dev._extensions "multisampled_render_to_texture2" then
    st.setRegistry { r with mMSRT := .LEVEL2 }
  else
    st.setRegistry { r with mMSRT := .LEVEL1 }

/-- One statement of the capability section. -/
def Stmt.exec (env : Backend) (s : Stmt) (st : InitState) : Except Fault InitState :=
  match s with
  | .assignFormatFeature f m =>
    .ok { st with dev := { st.dev with
            _formatFeatures := Function.update st.dev._formatFeatures f m } }
  | .orFormatFeature f m =>
    .ok { st with dev := { st.dev with
            _formatFeatures :=
              Function.update st.dev._formatFeatures f (st.dev._formatFeatures f ||| m) } }
  | .setTextureExclusive f b =>
    .ok { st with dev := { st.dev with
            _textureExclusive := Function.update st.dev._textureExclusive f b } }
  | .setFeature ft b =>
    .ok { st with dev := { st.dev with _features := Function.update st.dev._features ft b } }
  | .getMaxColorRenderTargets =>
    .ok { st with dev := { st.dev with
            _caps := { st.dev._caps with maxColorRenderTargets := env.maxDrawBuffers } } }
  | .probeUseVAO =>
    st.withRegistry fun r st =>
      st.setRegistry { r with useVAO := checkExtension st.dev._extensions "vertex_array_object" }
  | .probeUseDrawInstanced =>
    st.withRegistry fun r st =>
      st.setRegistry
        { r with useDrawInstanced := checkExtension st.dev._extensions "draw_instanced" }
  | .probeUseInstancedArrays =>
    st.withRegistry fun r st =>
      st.setRegistry
        { r with useInstancedArrays := checkExtension st.dev._extensions "instanced_arrays" }
  | .probeUseDiscardFramebuffer =>
    st.withRegistry fun r st =>
      st.setRegistry
        { r with
          useDiscardFramebuffer := checkExtension st.dev._extensions "discard_framebuffer" }
  | .copyInstancedArrays =>
    st.withRegistry fun r st =>
      { st with dev := { st.dev with
          _features :=
            Function.update st.dev._features .INSTANCED_ARRAYS r.useInstancedArrays } }
  | .selectFBF => st.withRegistry selectFBFLevel
  | .setInputAttachmentBenefit =>
    st.withRegistry fun r st =>
      { st with dev := { st.dev with
          _features :=
            Function.update st.dev._features .INPUT_ATTACHMENT_BENEFIT
              (decide (r.mFBF ≠ FBFSupportLevel.NONE)) } }
  | .selectMSRT => st.withRegistry selectMSRTLevel
  | .appendCompressedFmts s =>
    .ok { st with compressedFmts := st.compressedFmts ++ s }

/-- One guarded statement: it runs when every enclosing condition holds. -/
def GStmt.exec (env : Backend) (s : GStmt) (st : InitState) : Except Fault InitState :=
  if s.enabled env.windows st.dev._extensions then s.stmt.exec env st else .ok st

/-- A run of statements, in order; a fault ends the run. -/
def run (env : Backend) : List GStmt → InitState → Except Fault InitState
  | [], st => .ok st
  | s :: rest, st =>
    match s.exec env st with
    | .ok st1 => run env rest st1
    | .error e => .error e

/-! ## The capability section of `doInit`, statement by statement -/

/-- Line 93: `completeFeature`. -/
def completeFeature : FormatFeature :=
  FormatFeature.RENDER_TARGET ||| FormatFeature.SAMPLED_TEXTURE ||| FormatFeature.LINEAR_FILTER

/-- A statement outside every `if`. -/
def always (s : Stmt) : GStmt := ⟨[], s⟩

/-- A statement inside `if (checkExtension(n))` for each `n` of `names`, outermost first. -/
def whenExts (names : List String) (s : Stmt) : GStmt := ⟨names.map Guard.ext, s⟩

/-- Lines 96 to 130: the builtin format features. -/
def builtinFormatFeatures : List GStmt :=
  [
    always (.assignFormatFeature .RGB8 completeFeature),
    always (.assignFormatFeature .R5G6B5 completeFeature),
    always (.setTextureExclusive .R5G6B5 false),
    always (.assignFormatFeature .RGBA8 completeFeature),
    always (.assignFormatFeature .RGBA4 completeFeature),
    always (.setTextureExclusive .RGBA4 false),
    always (.assignFormatFeature .RGB5A1 completeFeature),
    always (.setTextureExclusive .RGB5A1 false),
    always (.assignFormatFeature .R8I FormatFeature.VERTEX_ATTRIBUTE),
    always (.assignFormatFeature .RG8I FormatFeature.VERTEX_ATTRIBUTE),
    always (.assignFormatFeature .RGB8I FormatFeature.VERTEX_ATTRIBUTE),
    always (.assignFormatFeature .RGBA8I FormatFeature.VERTEX_ATTRIBUTE),
    always (.assignFormatFeature .R8UI FormatFeature.VERTEX_ATTRIBUTE),
    always (.assignFormatFeature .RG8UI FormatFeature.VERTEX_ATTRIBUTE),
    always (.assignFormatFeature .RGB8UI FormatFeature.VERTEX_ATTRIBUTE),
    always (.assignFormatFeature .RGBA8UI FormatFeature.VERTEX_ATTRIBUTE),
    always (.assignFormatFeature .R16I FormatFeature.VERTEX_ATTRIBUTE),
    always (.assignFormatFeature .RG16I FormatFeature.VERTEX_ATTRIBUTE),
    always (.assignFormatFeature .RGB16I FormatFeature.VERTEX_ATTRIBUTE),
    always (.assignFormatFeature .RGBA16I FormatFeature.VERTEX_ATTRIBUTE),
    always (.assignFormatFeature .R16UI FormatFeature.VERTEX_ATTRIBUTE),
    always (.assignFormatFeature .RG16UI FormatFeature.VERTEX_ATTRIBUTE),
    always (.assignFormatFeature .RGB16UI FormatFeature.VERTEX_ATTRIBUTE),
    always (.assignFormatFeature .RGBA16UI FormatFeature.VERTEX_ATTRIBUTE),
    always (.assignFormatFeature .R32F FormatFeature.VERTEX_ATTRIBUTE),
    always (.assignFormatFeature .RG32F FormatFeature.VERTEX_ATTRIBUTE),
    always (.assignFormatFeature .RGB32F FormatFeature.VERTEX_ATTRIBUTE),
    always (.assignFormatFeature .RGBA32F FormatFeature.VERTEX_ATTRIBUTE) ]

/-- Lines 132 to 137. -/
def blockVertexHalfFloat : List GStmt :=
  [
    whenExts ["OES_vertex_half_float"] (.assignFormatFeature .R16F FormatFeature.VERTEX_ATTRIBUTE),
    whenExts ["OES_vertex_half_float"] (.assignFormatFeature .RG16F FormatFeature.VERTEX_ATTRIBUTE),
    whenExts ["OES_vertex_half_float"]
      (.assignFormatFeature .RGB16F FormatFeature.VERTEX_ATTRIBUTE),
    whenExts ["OES_vertex_half_float"]
      (.assignFormatFeature .RGBA16F FormatFeature.VERTEX_ATTRIBUTE) ]

/-- Lines 139 and 140. -/
def depthExclusive : List GStmt :=
  [
    always (.setTextureExclusive .DEPTH false),
    always (.setTextureExclusive .DEPTH_STENCIL false) ]

/-- Lines 142 to 147. -/
def blockSRGB : List GStmt :=
  [
    whenExts ["EXT_sRGB"] (.assignFormatFeature .SRGB8 completeFeature),
    whenExts ["EXT_sRGB"] (.assignFormatFeature .SRGB8_A8 completeFeature),
    whenExts ["EXT_sRGB"] (.setTextureExclusive .SRGB8_A8 false) ]

/-- Lines 149 to 151. -/
def blockElementIndexUint : List GStmt :=
  [
    whenExts ["element_index_uint"] (.setFeature .ELEMENT_INDEX_UINT true) ]

/-- Lines 153 to 157. -/
def blockTextureRg : List GStmt :=
  [
    whenExts ["texture_rg"] (.orFormatFeature .R8 completeFeature),
    whenExts ["texture_rg"] (.orFormatFeature .RG8 completeFeature) ]

/-- Lines 159 to 167. -/
def blockTextureFloat : List GStmt :=
  [
    whenExts ["texture_float"]
      (.orFormatFeature .RGB32F (FormatFeature.RENDER_TARGET ||| FormatFeature.SAMPLED_TEXTURE)),
    whenExts ["texture_float"]
      (.orFormatFeature .RGBA32F (FormatFeature.RENDER_TARGET ||| FormatFeature.SAMPLED_TEXTURE)),
    whenExts ["texture_float", "texture_rg"]
      (.orFormatFeature .R32F (FormatFeature.RENDER_TARGET ||| FormatFeature.SAMPLED_TEXTURE)),
    whenExts ["texture_float", "texture_rg"]
      (.orFormatFeature .RG32F (FormatFeature.RENDER_TARGET ||| FormatFeature.SAMPLED_TEXTURE)) ]

/-- Lines 169 to 177. -/
def blockTextureHalfFloat : List GStmt :=
  [
    whenExts ["texture_half_float"]
      (.orFormatFeature .RGB16F (FormatFeature.RENDER_TARGET ||| FormatFeature.SAMPLED_TEXTURE)),
    whenExts ["texture_half_float"]
      (.orFormatFeature .RGBA16F (FormatFeature.RENDER_TARGET ||| FormatFeature.SAMPLED_TEXTURE)),
    whenExts ["texture_half_float", "texture_rg"]
      (.orFormatFeature .R16F (FormatFeature.RENDER_TARGET ||| FormatFeature.SAMPLED_TEXTURE)),
    whenExts ["texture_half_float", "texture_rg"]
      (.orFormatFeature .RG16F (FormatFeature.RENDER_TARGET ||| FormatFeature.SAMPLED_TEXTURE)) ]

/-- Lines 179 to 190. -/
def blockColorBufferHalfFloat : List GStmt :=
  [
    whenExts ["color_buffer_half_float"] (.orFormatFeature .RGB16F FormatFeature.RENDER_TARGET),
    whenExts ["color_buffer_half_float"] (.setTextureExclusive .RGB16F false),
    whenExts ["color_buffer_half_float"] (.orFormatFeature .RGBA16F FormatFeature.RENDER_TARGET),
    whenExts ["color_buffer_half_float"] (.setTextureExclusive .RGBA16F false),
    whenExts ["color_buffer_half_float", "texture_rg"]
      (.orFormatFeature .R16F FormatFeature.RENDER_TARGET),
    whenExts ["color_buffer_half_float", "texture_rg"] (.setTextureExclusive .R16F false),
    whenExts ["color_buffer_half_float", "texture_rg"]
      (.orFormatFeature .RG16F FormatFeature.RENDER_TARGET),
    whenExts ["color_buffer_half_float", "texture_rg"] (.setTextureExclusive .RG16F false) ]

/-- Lines 192 to 200. -/
def blockTextureFloatLinear : List GStmt :=
  [
    whenExts ["texture_float_linear"] (.orFormatFeature .RGB32F FormatFeature.LINEAR_FILTER),
    whenExts ["texture_float_linear"] (.orFormatFeature .RGBA32F FormatFeature.LINEAR_FILTER),
    whenExts ["texture_float_linear", "texture_rg"]
      (.orFormatFeature .R32F FormatFeature.LINEAR_FILTER),
    whenExts ["texture_float_linear", "texture_rg"]
      (.orFormatFeature .RG32F FormatFeature.LINEAR_FILTER) ]

/-- Lines 202 to 210. -/
def blockTextureHalfFloatLinear : List GStmt :=
  [
    whenExts ["OES_texture_half_float_linear"]
      (.orFormatFeature .RGB16F FormatFeature.LINEAR_FILTER),
    whenExts ["OES_texture_half_float_linear"]
      (.orFormatFeature .RGBA16F FormatFeature.LINEAR_FILTER),
    whenExts ["OES_texture_half_float_linear", "texture_rg"]
      (.orFormatFeature .R16F FormatFeature.LINEAR_FILTER),
    whenExts ["OES_texture_half_float_linear", "texture_rg"]
      (.orFormatFeature .RG16F FormatFeature.LINEAR_FILTER) ]

/-- Lines 212 to 214. -/
def blockDepthTexture : List GStmt :=
  [
    whenExts ["depth_texture"] (.orFormatFeature .DEPTH completeFeature) ]

/-- Lines 216 to 218. -/
def blockPackedDepthStencil : List GStmt :=
  [
    whenExts ["packed_depth_stencil"] (.orFormatFeature .DEPTH_STENCIL completeFeature) ]

/-- Lines 220 to 223. -/
def blockDrawBuffers : List GStmt :=
  [
    whenExts ["draw_buffers"] (.setFeature .MULTIPLE_RENDER_TARGETS true),
    whenExts ["draw_buffers"] (.getMaxColorRenderTargets) ]

/-- Lines 225 to 227. -/
def blockBlendMinmax : List GStmt :=
  [
    whenExts ["blend_minmax"] (.setFeature .BLEND_MINMAX true) ]

/-- Lines 229 to 234. -/
def registryProbes : List GStmt :=
  [
    always (.probeUseVAO),
    always (.probeUseDrawInstanced),
    always (.probeUseInstancedArrays),
    always (.probeUseDiscardFramebuffer),
    always (.copyInstancedArrays) ]

/-- Lines 238 to 262. -/
def blockFramebufferFetch : List GStmt :=
  [
    ⟨[.notWindows, .ext "framebuffer_fetch"], .selectFBF⟩,
    ⟨[.notWindows, .ext "framebuffer_fetch"], .setInputAttachmentBenefit⟩ ]

/-- Lines 264 to 272; `ALLOW_MULTISAMPLED_RENDER_TO_TEXTURE_ON_DESKTOP` is 0. -/
def blockMSRT : List GStmt :=
  [
    ⟨[.notWindows, .ext "multisampled_render_to_texture"], .selectMSRT⟩ ]

/-- Lines 276 to 279. -/
def blockETC1 : List GStmt :=
  [
    whenExts ["compressed_ETC1"] (.orFormatFeature .ETC_RGB8 completeFeature),
    whenExts ["compressed_ETC1"] (.appendCompressedFmts "etc1 ") ]

/-- Lines 281 to 287. -/
def blockPVRTC : List GStmt :=
  [
    whenExts ["texture_compression_pvrtc"] (.orFormatFeature .PVRTC_RGB2 completeFeature),
    whenExts ["texture_compression_pvrtc"] (.orFormatFeature .PVRTC_RGBA2 completeFeature),
    whenExts ["texture_compression_pvrtc"] (.orFormatFeature .PVRTC_RGB4 completeFeature),
    whenExts ["texture_compression_pvrtc"] (.orFormatFeature .PVRTC_RGBA4 completeFeature),
    whenExts ["texture_compression_pvrtc"] (.appendCompressedFmts "pvrtc ") ]

/-- Lines 289 to 321. -/
def blockASTC : List GStmt :=
  [
    whenExts ["texture_compression_astc"] (.orFormatFeature .ASTC_RGBA_4X4 completeFeature),
    whenExts ["texture_compression_astc"] (.orFormatFeature .ASTC_RGBA_5X4 completeFeature),
    whenExts ["texture_compression_astc"] (.orFormatFeature .ASTC_RGBA_5X5 completeFeature),
    whenExts ["texture_compression_astc"] (.orFormatFeature .ASTC_RGBA_6X5 completeFeature),
    whenExts ["texture_compression_astc"] (.orFormatFeature .ASTC_RGBA_6X6 completeFeature),
    whenExts ["texture_compression_astc"] (.orFormatFeature .ASTC_RGBA_8X5 completeFeature),
    whenExts ["texture_compression_astc"] (.orFormatFeature .ASTC_RGBA_8X6 completeFeature),
    whenExts ["texture_compression_astc"] (.orFormatFeature .ASTC_RGBA_8X8 completeFeature),
    whenExts ["texture_compression_astc"] (.orFormatFeature .ASTC_RGBA_10X5 completeFeature),
    whenExts ["texture_compression_astc"] (.orFormatFeature .ASTC_RGBA_10X6 completeFeature),
    whenExts ["texture_compression_astc"] (.orFormatFeature .ASTC_RGBA_10X8 completeFeature),
    whenExts ["texture_compression_astc"] (.orFormatFeature .ASTC_RGBA_10X10 completeFeature),
    whenExts ["texture_compression_astc"] (.orFormatFeature .ASTC_RGBA_12X10 completeFeature),
    whenExts ["texture_compression_astc"] (.orFormatFeature .ASTC_RGBA_12X12 completeFeature),
    whenExts ["texture_compression_astc", "EXT_sRGB"]
      (.orFormatFeature .ASTC_SRGBA_4X4 completeFeature),
    whenExts ["texture_compression_astc", "EXT_sRGB"]
      (.orFormatFeature .ASTC_SRGBA_5X4 completeFeature),
    whenExts ["texture_compression_astc", "EXT_sRGB"]
      (.orFormatFeature .ASTC_SRGBA_5X5 completeFeature),
    whenExts ["texture_compression_astc", "EXT_sRGB"]
      (.orFormatFeature .ASTC_SRGBA_6X5 completeFeature),
    whenExts ["texture_compression_astc", "EXT_sRGB"]
      (.orFormatFeature .ASTC_SRGBA_6X6 completeFeature),
    whenExts ["texture_compression_astc", "EXT_sRGB"]
      (.orFormatFeature .ASTC_SRGBA_8X5 completeFeature),
    whenExts ["texture_compression_astc", "EXT_sRGB"]
      (.orFormatFeature .ASTC_SRGBA_8X6 completeFeature),
    whenExts ["texture_compression_astc", "EXT_sRGB"]
      (.orFormatFeature .ASTC_SRGBA_8X8 completeFeature),
    whenExts ["texture_compression_astc", "EXT_sRGB"]
      (.orFormatFeature .ASTC_SRGBA_10X5 completeFeature),
    whenExts ["texture_compression_astc", "EXT_sRGB"]
      (.orFormatFeature .ASTC_SRGBA_10X6 completeFeature),
    whenExts ["texture_compression_astc", "EXT_sRGB"]
      (.orFormatFeature .ASTC_SRGBA_10X8 completeFeature),
    whenExts ["texture_compression_astc", "EXT_sRGB"]
      (.orFormatFeature .ASTC_SRGBA_10X10 completeFeature),
    whenExts ["texture_compression_astc", "EXT_sRGB"]
      (.orFormatFeature .ASTC_SRGBA_12X10 completeFeature),
    whenExts ["texture_compression_astc", "EXT_sRGB"]
      (.orFormatFeature .ASTC_SRGBA_12X12 completeFeature),
    whenExts ["texture_compression_astc"] (.appendCompressedFmts "astc ") ]

/-- The extension-gated blocks of lines 142 to 218 and 274 to 321, in source order. -/
def formatProbeBlocksAfterFirst : List (List GStmt) :=
  [ blockSRGB, blockElementIndexUint, blockTextureRg, blockTextureFloat,
    blockTextureHalfFloat, blockColorBufferHalfFloat, blockTextureFloatLinear,
    blockTextureHalfFloatLinear, blockDepthTexture, blockPackedDepthStencil,
    blockETC1, blockPVRTC, blockASTC ]

/-- The extension-gated blocks that follow the builtin format features and lie in the
lines that write format features (132 to 218 and 274 to 321), in source order. -/
def formatProbeBlocks : List (List GStmt) :=
  blockVertexHalfFloat :: formatProbeBlocksAfterFirst

/-- Lines 93 to 321 of `doInit`, in source order. -/
def doInitProgram : List GStmt :=
  builtinFormatFeatures ++ blockVertexHalfFloat ++ depthExclusive ++ blockSRGB ++
  blockElementIndexUint ++ blockTextureRg ++ blockTextureFloat ++ blockTextureHalfFloat ++
  blockColorBufferHalfFloat ++ blockTextureFloatLinear ++ blockTextureHalfFloatLinear ++
  blockDepthTexture ++ blockPackedDepthStencil ++ blockDrawBuffers ++ blockBlendMinmax ++
  registryProbes ++ blockFramebufferFetch ++ blockMSRT ++ blockETC1 ++ blockPVRTC ++ blockASTC

/-- The names `doInit` passes to `checkExtension`. -/
def doInitProbes : List String :=
  [ "OES_vertex_half_float", "EXT_sRGB", "element_index_uint", "texture_rg", "texture_float",
    "texture_half_float", "color_buffer_half_float", "texture_float_linear",
    "OES_texture_half_float_linear", "depth_texture", "packed_depth_stencil", "draw_buffers",
    "blend_minmax", "vertex_array_object", "draw_instanced", "instanced_arrays",
    "discard_framebuffer", "framebuffer_fetch", GL_EXT_shader_framebuffer_fetch,
    "multisampled_render_to_texture", "multisampled_render_to_texture2", "compressed_ETC1",
    "texture_compression_pvrtc", "texture_compression_astc" ]

/-! ## Creation of the default queue, query pool and command buffer -/

structure QueueInfo where
  type : QueueType := .GRAPHICS
  deriving DecidableEq, Repr

/-- Lines 408 to 411: `GLES2Device::createCommandBuffer(info, hasAgent)`; the result is
the class of the object it allocates. -/
def GLES2Device.createCommandBuffer (info : CommandBufferInfo) (hasAgent : Bool) :
    CommandBuffer :=
  if hasAgent || decide (info.type = CommandBufferType.PRIMARY) then
    .GLES2PrimaryCommandBuffer
  else
    .GLES2CommandBuffer

/-- Modelled from the spec: `Device::createQueue(info)` of the base class, whose code is
not part of the sources at hand. A successful creation yields the object of
`GLES2Device::createQueue()` set up from `info`; a failed one is reported as an empty
handle. -/
def Device.createQueue (created : Bool) (info : QueueInfo) : Option GLES2Queue :=
  if created then some { type := info.type } else none

/-- Modelled from the spec: `Device::createQueryPool(info)` of the base class; a failed
creation is reported as an empty handle. -/
def Device.createQueryPool (created : Bool) : Option GLES2QueryPool :=
  if created then some {} else none

/-- Modelled from the spec: `Device::createCommandBuffer(info)` of the base class, which
calls `GLES2Device::createCommandBuffer(info, false)`; a failed creation is reported as
an empty handle. -/
def Device.createCommandBuffer (created : Bool) (info : CommandBufferInfo) :
    Option CommandBuffer :=
  if created then some (GLES2Device.createCommandBuffer info false) else none

/-! ## Teardown -/

/-- Reading through a pointer: an empty handle is a null dereference. -/
def deref {α : Type} : Option α → Except Fault α
  | some a => .ok a
  | none => .error .nullDereference

namespace GLES2Device

/-- Whether the member that holds sub-object `o` is non-null. -/
def holds (d : GLES2Device) : SubObject → Bool
  | .gpuContext => d._gpuContext.isSome
  | .gpuStateCache => d._gpuStateCache.isSome
  | .gpuBlitManager => d._gpuBlitManager.isSome
  | .gpuFramebufferHub => d._gpuFramebufferHub.isSome
  | .gpuConstantRegistry => d._gpuConstantRegistry.isSome
  | .gpuFramebufferCacheMap => d._gpuFramebufferCacheMap.isSome
  | .queue => d._queue.isSome
  | .queryPool => d._queryPool.isSome
  | .cmdBuff => d._cmdBuff.isSome

/-- Set the member that holds sub-object `o` to `nullptr`. -/
def clear (d : GLES2Device) : SubObject → GLES2Device
  | .gpuContext => { d with _gpuContext := none }
  | .gpuStateCache => { d with _gpuStateCache := none }
  | .gpuBlitManager => { d with _gpuBlitManager := none }
  | .gpuFramebufferHub => { d with _gpuFramebufferHub := none }
  | .gpuConstantRegistry => { d with _gpuConstantRegistry := none }
  | .gpuFramebufferCacheMap => { d with _gpuFramebufferCacheMap := none }
  | .queue => { d with _queue := none }
  | .queryPool => { d with _queryPool := none }
  | .cmdBuff => { d with _cmdBuff := none }

/-- Record that sub-object `o` was constructed, when its handle is non-empty. -/
def noteConstructed (d : GLES2Device) (o : SubObject) : GLES2Device :=
  if d.holds o then d.log (.construct o) else d

end GLES2Device

/-- Modelled from the spec: the macro `CC_SAFE_DELETE(p)`, defined in a header that is not
part of the sources at hand: nothing happens on an empty handle, otherwise the object is
deleted and the handle emptied. -/
def CC_SAFE_DELETE (o : SubObject) (d : GLES2Device) : GLES2Device :=
  if d.holds o then (d.log (.delete o)).clear o else d

/-- Modelled from the spec: the macro `CC_SAFE_DESTROY(p)`, defined in a header that is
not part of the sources at hand: nothing happens on an empty handle, otherwise the object
is destroyed, deleted and the handle emptied. -/
def CC_SAFE_DESTROY (o : SubObject) (d : GLES2Device) : GLES2Device :=
  if d.holds o then ((d.log (.destroy o)).log (.delete o)).clear o else d

/-- Modelled from the spec: the macro `CCASSERT(cond, msg)`, defined in a header that is
not part of the sources at hand: a false condition is fatal. -/
def CCASSERT (cond : Bool) (msg : String) : Except Fault Unit :=
  if cond then .ok () else .error (.assertion msg)

namespace GLES2Device

/-- Lines 361 to 377: `GLES2Device::doDestroy`. -/
def doDestroy (d : GLES2Device) : Except Fault GLES2Device := do
  let _ ← deref d._gpuBlitManager
  let d := d.log .blitManagerDestroy
  let d := CC_SAFE_DELETE .gpuFramebufferCacheMap d
  let d := CC_SAFE_DELETE .gpuConstantRegistry d
  let d := CC_SAFE_DELETE .gpuFramebufferHub d
  let d := CC_SAFE_DELETE .gpuBlitManager d
  let d := CC_SAFE_DELETE .gpuStateCache d
  CCASSERT (d._memoryStatus.bufferSize == 0) "Buffer memory leaked"
  CCASSERT (d._memoryStatus.textureSize == 0) "Texture memory leaked"
  let d := CC_SAFE_DESTROY .cmdBuff d
  let d := CC_SAFE_DESTROY .queryPool d
  let d := CC_SAFE_DESTROY .queue d
  let d := CC_SAFE_DESTROY .gpuContext d
  pure d

/-- Modelled from the spec: `Device::destroy()`, the teardown entry point of the base
class, whose code is not part of the sources at hand; it runs `doDestroy`. -/
def destroy (d : GLES2Device) : Except Fault GLES2Device :=
  (d.log .destroyCalled).doDestroy

/-! ## Initialisation -/

/-- Lines 74 to 79: the six GPU helper objects, in order of construction. -/
def doInitConstruct (d : GLES2Device) : GLES2Device :=
  let d := { d with _gpuContext := some {} }.log (.construct .gpuContext)
  let d := { d with _gpuStateCache := some {} }.log (.construct .gpuStateCache)
  let d := { d with _gpuBlitManager := some {} }.log (.construct .gpuBlitManager)
  let d := { d with _gpuFramebufferHub := some {} }.log (.construct .gpuFramebufferHub)
  let d := { d with _gpuConstantRegistry := some {} }.log (.construct .gpuConstantRegistry)
  { d with _gpuFramebufferCacheMap := some {} }.log (.construct .gpuFramebufferCacheMap)

/-- Lines 86 to 91, and the two local strings at their initial values. -/
def doInitBegin (env : Backend) (d : GLES2Device) : InitState :=
  { dev := { d with _textureExclusive := fun _ => true
                    _extensions := env.extensions
                    _multithreadedSubmission := false }
    fbfLevelStr := "NONE"
    compressedFmts := "" }

/-- Lines 323 to 358. -/
def doInitFinish (env : Backend) (st : InitState) : Except Fault GLES2Device := do
  let d := st.dev
  let d := { d with _renderer := env.renderer, _vendor := env.vendor, _version := env.version }
  let d := { d with _caps := { d._caps with
                maxVertexAttributes := env.maxVertexAttribs
                maxVertexUniformVectors := env.maxVertexUniformVectors
                maxFragmentUniformVectors := env.maxFragmentUniformVectors
                maxTextureUnits := env.maxTextureImageUnits
                maxVertexTextureUnits := env.maxVertexTextureImageUnits
                maxTextureSize := env.maxTextureSize
                maxCubeMapTextureSize := env.maxCubeMapTextureSize } }
  let d := { d with _queue := Device.createQueue env.queueCreated { type := .GRAPHICS } }
  let d := d.noteConstructed .queue
  let d := { d with _queryPool := Device.createQueryPool env.queryPoolCreated }
  let d := d.noteConstructed .queryPool
  let d := { d with _cmdBuff := Device.createCommandBuffer env.cmdBuffCreated
                                  { type := .PRIMARY, queue := d._queue } }
  let d := d.noteConstructed .cmdBuff
  let _ ← deref d._gpuStateCache
  let d := d.log (.stateCacheInit d._caps.maxTextureUnits d._caps.maxVertexAttributes)
  let _ ← deref d._gpuBlitManager
  let d := d.log .blitManagerInit
  let d := d.log (.logInfo "GLES2 device initialized.")
  let d := d.log (.logInfo ("RENDERER: " ++ d._renderer))
  let d := d.log (.logInfo ("VENDOR: " ++ d._vendor))
  let d := d.log (.logInfo ("VERSION: " ++ d._version))
  let d := d.log (.logInfo ("COMPRESSED_FORMATS: " ++ st.compressedFmts))
  let registry ← deref d._gpuConstantRegistry
  let d := d.log (.logInfo ("USE_VAO: " ++ if registry.useVAO then "true" else "false"))
  let d := d.log (.logInfo ("FRAMEBUFFER_FETCH: " ++ st.fbfLevelStr))
  pure d

/-- Lines 73 to 359: `GLES2Device::doInit`. The result is the returned flag and the
device as the call leaves it. -/
def doInit (env : Backend) (d : GLES2Device) : Except Fault (Bool × GLES2Device) := do
  let d := doInitConstruct d
  let _ ← deref d._gpuContext
  let d := d.log .contextInit
  if !env.contextInitOk then
    let d ← d.destroy
    pure (false, d)
  else
    let st ← run env doInitProgram (doInitBegin env d)
    let d ← doInitFinish env st
    pure (true, d)

/-! ## Frame presentation -/

/-- Lines 394 to 396: `_gpuContext->present(swapchain)` for every active swapchain. -/
def presentSwapchains : List GLES2GPUSwapchain → GLES2Device → Except Fault GLES2Device
  | [], d => .ok d
  | swapchain :: rest, d =>
    match deref d._gpuContext with
    | .ok _ => presentSwapchains rest (d.log (.contextPresent swapchain))
    | .error e => .error e

/-- Lines 388 to 402: `GLES2Device::present`. -/
def present (d : GLES2Device) : Except Fault GLES2Device := do
  let queue ← deref d._queue
  let d := { d with _numDrawCalls := queue._numDrawCalls
                    _numInstances := queue._numInstances
                    _numTriangles := queue._numTriangles }
  let d ← presentSwapchains d._swapchains d
  pure { d with _queue := some { queue with _numDrawCalls := 0
                                            _numInstances := 0
                                            _numTriangles := 0 } }

end GLES2Device

/-! ## The Vulkan sampler -/

/-- A GPU sampler object, identified by its address. -/
abbrev CCVKGPUSampler := Nat

/-- Calls a sampler makes into the descriptor hub and the recycle bin of the device. -/
inductive VKCall where
  | disengage (gpuSampler : CCVKGPUSampler)
  | collect (gpuSampler : CCVKGPUSampler)
  deriving DecidableEq, Repr

/-- A `CCVKSampler` with the log of its calls into the descriptor hub and recycle bin. -/
structure CCVKSampler where
  _gpuSampler : Option CCVKGPUSampler
  calls : List VKCall
  deriving DecidableEq, Repr

/-- Lines 59 to 65: `CCVKSampler::doDestroy`. -/
def CCVKSampler.doDestroy (s : CCVKSampler) : CCVKSampler :=
  match s._gpuSampler with
  | some gpuSampler =>
    { _gpuSampler := none
      calls := s.calls ++ [.disengage gpuSampler, .collect gpuSampler] }
  | none => s


/-! ## Acquiring swapchains -/

namespace GLES2Device

/-- Lines 383 to 385: the loop of `acquire` from index `i` on, with `n` iterations left.
The input array is a list of pointers; reading past its end is out of bounds and calling
`gpuSwapchain()` through a null entry is a null dereference. -/
def acquireFrom (swapchains : List (Option GLES2Swapchain)) :
    Nat → Nat → GLES2Device → Except Fault GLES2Device
  | _, 0, d => .ok d
  | i, n + 1, d =>
    match swapchains[i]? with
    | none => .error .outOfBounds
    | some none => .error .nullDereference
    | some (some swapchain) =>
      acquireFrom swapchains (i + 1) n
        { d with _swapchains := d._swapchains ++ [swapchain.gpuSwapchain] }

/-- Lines 379 to 386: `GLES2Device::acquire(swapchains, count)`. -/
def acquire (swapchains : List (Option GLES2Swapchain)) (count : Nat) (d : GLES2Device) :
    Except Fault GLES2Device :=
  let d := if d._onAcquire.isSome then d.log .onAcquireExecute else d
  let d := { d with _swapchains := [] }
  acquireFrom swapchains 0 count d

end GLES2Device

/-! ## The capability section seen from one table

The effect of the statements on the format-feature table and on the exclusivity flags
alone, for stating how the tables evolve. -/

/-- The effect of a statement on the format-feature table. -/
def Stmt.tableStep (s : Stmt) (t : Format → FormatFeature) : Format → FormatFeature :=
  match s with
  | .assignFormatFeature f m => Function.update t f m
  | .orFormatFeature f m => Function.update t f (t f ||| m)
  | _ => t

/-- The effect of a statement on the exclusivity flags. -/
def Stmt.exclusiveStep (s : Stmt) (x : Format → Bool) : Format → Bool :=
  match s with
  | .setTextureExclusive f b => Function.update x f b
  | _ => x

/-- The format-feature table after a run of statements that starts from table `t`. -/
def tableRun (windows : Bool) (extensions : List String) :
    List GStmt → (Format → FormatFeature) → (Format → FormatFeature)
  | [], t => t
  | s :: rest, t =>
    tableRun windows extensions rest
      (if s.enabled windows extensions then s.stmt.tableStep t else t)

/-- The exclusivity flags after a run of statements that starts from flags `x`. -/
def exclusiveRun (windows : Bool) (extensions : List String) :
    List GStmt → (Format → Bool) → (Format → Bool)
  | [], x => x
  | s :: rest, x =>
    exclusiveRun windows extensions rest
      (if s.enabled windows extensions then s.stmt.exclusiveStep x else x)

/-- The format whose mask a statement writes, if it writes one. -/
def Stmt.target : Stmt → Option Format
  | .assignFormatFeature f _ => some f
  | .orFormatFeature f _ => some f
  | _ => none

/-- The bits a statement gives to the mask of format `f`. -/
def Stmt.bitsFor (s : Stmt) (f : Format) : FormatFeature :=
  match s with
  | .assignFormatFeature g m => if g = f then m else 0
  | .orFormatFeature g m => if g = f then m else 0
  | _ => 0

/-- Every assignment `_formatFeatures[f] = m` of the list is the first statement of the
list that writes the mask of `f`, and `f` is not among `touched`. -/
def assignsFirst : List Format → List GStmt → Bool
  | _, [] => true
  | touched, s :: rest =>
    (match s.stmt with
     | .assignFormatFeature f _ => decide (f ∉ touched)
     | _ => true) &&
    assignsFirst (match s.stmt.target with
                  | some f => f :: touched
                  | none => touched) rest

/-- The OR of the bits that the statements whose conditions hold give to format `f`. -/
def gathered (windows : Bool) (extensions : List String) : List GStmt → Format → FormatFeature
  | [], _ => 0
  | s :: rest, f =>
    (if s.enabled windows extensions then s.stmt.bitsFor f else 0) |||
      gathered windows extensions rest f

/-- Every `setTextureExclusive` of the list clears the flag. -/
def onlyClears (l : List GStmt) : Bool :=
  l.all fun s =>
    match s.stmt with
    | .setTextureExclusive _ b => !b
    | _ => true

/-- Some `setTextureExclusive(f, ...)` of the list has its conditions hold. -/
def clearedBy (windows : Bool) (extensions : List String) (l : List GStmt) (f : Format) : Bool :=
  l.any fun s =>
    s.enabled windows extensions &&
      (match s.stmt with
       | .setTextureExclusive g _ => decide (g = f)
       | _ => false)

/-- Whether the statement is an OR-in `_formatFeatures[f] |= m`. -/
def Stmt.isOr : Stmt → Bool
  | .orFormatFeature _ _ => true
  | _ => false

/-- Two statements whose order cannot matter for the format-feature table: both OR bits
in, or they do not write the mask of the same format. -/
def Stmt.commutes (s1 s2 : Stmt) : Bool :=
  (s1.isOr && s2.isOr) ||
    (match s1.target, s2.target with
     | some f, some g => decide (f ≠ g)
     | _, _ => true)

/-- Every statement of a block of `bs` commutes with every statement of every other block
of `bs`. -/
def blocksCommute (bs : List (List GStmt)) : Bool :=
  bs.all fun b1 => bs.all fun b2 =>
    decide (b1 = b2) || b1.all fun s1 => b2.all fun s2 => s1.stmt.commutes s2.stmt

/-- The table after running blocks one after the other. -/
def tableRunBlocks (windows : Bool) (extensions : List String) (bs : List (List GStmt))
    (t : Format → FormatFeature) : Format → FormatFeature :=
  bs.foldl (fun t b => tableRun windows extensions b t) t

/-- Whether the statement writes a format mask or an exclusivity flag. -/
def Stmt.writesFormat : Stmt → Bool
  | .assignFormatFeature _ _ => true
  | .orFormatFeature _ _ => true
  | .setTextureExclusive _ _ => true
  | _ => false

/-- Every condition around a statement that writes a format mask or an exclusivity flag is
a `checkExtension` probe of a name in `names`. -/
def formatGuardsAmong (names : List String) (l : List GStmt) : Bool :=
  l.all fun s =>
    !s.stmt.writesFormat ||
      s.guards.all fun g =>
        match g with
        | .ext name => decide (name ∈ names)
        | .notWindows => false

/-! ## Reading the call log -/

/-- The sub-objects constructed, in order of construction. -/
def constructed (calls : List Event) : List SubObject :=
  calls.filterMap fun e =>
    match e with
    | .construct o => some o
    | _ => none

/-- The sub-objects released (deleted), in order of release. -/
def released (calls : List Event) : List SubObject :=
  calls.filterMap fun e =>
    match e with
    | .delete o => some o
    | _ => none

/-- Whether the statement is a `setTextureExclusive`. -/
def Stmt.isSetExclusive : Stmt → Bool
  | .setTextureExclusive _ _ => true
  | _ => false

/-- Each sRGB ASTC format with the linear ASTC format of the same block size. -/
def astcVariants : List (Format × Format) :=
  [ (.ASTC_SRGBA_4X4, .ASTC_RGBA_4X4), (.ASTC_SRGBA_5X4, .ASTC_RGBA_5X4),
    (.ASTC_SRGBA_5X5, .ASTC_RGBA_5X5), (.ASTC_SRGBA_6X5, .ASTC_RGBA_6X5),
    (.ASTC_SRGBA_6X6, .ASTC_RGBA_6X6), (.ASTC_SRGBA_8X5, .ASTC_RGBA_8X5),
    (.ASTC_SRGBA_8X6, .ASTC_RGBA_8X6), (.ASTC_SRGBA_8X8, .ASTC_RGBA_8X8),
    (.ASTC_SRGBA_10X5, .ASTC_RGBA_10X5), (.ASTC_SRGBA_10X6, .ASTC_RGBA_10X6),
    (.ASTC_SRGBA_10X8, .ASTC_RGBA_10X8), (.ASTC_SRGBA_10X10, .ASTC_RGBA_10X10),
    (.ASTC_SRGBA_12X10, .ASTC_RGBA_12X10), (.ASTC_SRGBA_12X12, .ASTC_RGBA_12X12) ]

/-- The one- and two-channel float formats. -/
def narrowFloatFormats : List Format :=
  [.R16F, .RG16F, .R32F, .RG32F]

/-- Whether the statement writes the framebuffer-fetch level or the
`INPUT_ATTACHMENT_BENEFIT` feature. -/
def Stmt.writesFBF : Stmt → Bool
  | .selectFBF => true
  | .setInputAttachmentBenefit => true
  | .setFeature ft _ => decide (ft = Feature.INPUT_ATTACHMENT_BENEFIT)
  | _ => false

/-- The statements of lines 93 to 234, those ahead of the framebuffer-fetch block. -/
def beforeFramebufferFetch : List GStmt :=
  builtinFormatFeatures ++ blockVertexHalfFloat ++ depthExclusive ++ blockSRGB ++
  blockElementIndexUint ++ blockTextureRg ++ blockTextureFloat ++ blockTextureHalfFloat ++
  blockColorBufferHalfFloat ++ blockTextureFloatLinear ++ blockTextureHalfFloatLinear ++
  blockDepthTexture ++ blockPackedDepthStencil ++ blockDrawBuffers ++ blockBlendMinmax ++
  registryProbes

/-- The statements of lines 264 to 321, those after the framebuffer-fetch block. -/
def afterFramebufferFetch : List GStmt :=
  blockMSRT ++ blockETC1 ++ blockPVRTC ++ blockASTC

/-! ## The formats of the unconditional statements -/

/-- The formats whose masks lines 96 to 130 assign, in source order: five colour formats
with the complete mask, sixteen integer formats and four 32-bit float formats with
`VERTEX_ATTRIBUTE`. -/
def builtinFormats : List Format :=
  [.RGB8, .R5G6B5, .RGBA8, .RGBA4, .RGB5A1,
   .R8I, .RG8I, .RGB8I, .RGBA8I, .R8UI, .RG8UI, .RGB8UI, .RGBA8UI,
   .R16I, .RG16I, .RGB16I, .RGBA16I, .R16UI, .RG16UI, .RGB16UI, .RGBA16UI,
   .R32F, .RG32F, .RGB32F, .RGBA32F]

/-- Modelled from the spec: whether a format is an integer format, read off the name of the
enumerator: signed (`I`) or unsigned (`UI`) integer channels of 8, 16 or 32 bits. -/
def Format.isInteger : Format → Bool
  | .R8I | .RG8I | .RGB8I | .RGBA8I | .R8UI | .RG8UI | .RGB8UI | .RGBA8UI => true
  | .R16I | .RG16I | .RGB16I | .RGBA16I | .R16UI | .RG16UI | .RGB16UI | .RGBA16UI => true
  | .R32UI | .R32I | .RG32UI | .RG32I | .RGB32UI | .RGB32I | .RGBA32UI | .RGBA32I => true
  | _ => false

/-- Whether a statement writes no mask other than those of the formats `fs`. -/
def Stmt.writesOnly (fs : List Format) (s : Stmt) : Bool :=
  match s.target with
  | none => true
  | some f => decide (f ∈ fs)

/-! ## Running the capability section -/

theorem Stmt.exec_ok (env : Backend) (s : Stmt) (st : InitState) (r : GLES2GPUConstantRegistry)
    (h : st.dev._gpuConstantRegistry = some r) :
    ∃ st1, s.exec env st = .ok st1 ∧
      st1.dev._extensions = st.dev._extensions ∧
      (∃ r1, st1.dev._gpuConstantRegistry = some r1) ∧
      st1.dev._gpuStateCache = st.dev._gpuStateCache ∧
      st1.dev._gpuBlitManager = st.dev._gpuBlitManager ∧
      st1.dev._formatFeatures = s.tableStep st.dev._formatFeatures ∧
      st1.dev._textureExclusive = s.exclusiveStep st.dev._textureExclusive := by
  cases s <;>
    simp only [Stmt.exec, InitState.withRegistry, h, Stmt.tableStep, Stmt.exclusiveStep,
      InitState.setRegistry, selectFBFLevel, selectMSRTLevel, GLES2Device.log]
  all_goals first
    | exact ⟨_, rfl, rfl, ⟨_, h⟩, rfl, rfl, rfl, rfl⟩
    | exact ⟨_, rfl, rfl, ⟨_, rfl⟩, rfl, rfl, rfl, rfl⟩
    | skip
  · -- selectFBF
    split
    · split
      · exact ⟨_, rfl, rfl, ⟨_, rfl⟩, rfl, rfl, rfl, rfl⟩
      · split
        · exact ⟨_, rfl, rfl, ⟨_, rfl⟩, rfl, rfl, rfl, rfl⟩
        · exact ⟨_, rfl, rfl, ⟨_, h⟩, rfl, rfl, rfl, rfl⟩
    · split
      · exact ⟨_, rfl, rfl, ⟨_, rfl⟩, rfl, rfl, rfl, rfl⟩
      · exact ⟨_, rfl, rfl, ⟨_, h⟩, rfl, rfl, rfl, rfl⟩
  · -- selectMSRT
    split <;> exact ⟨_, rfl, rfl, ⟨_, rfl⟩, rfl, rfl, rfl, rfl⟩

theorem run_ok (env : Backend) (l : List GStmt) :
    ∀ (st : InitState) (r : GLES2GPUConstantRegistry),
      st.dev._gpuConstantRegistry = some r →
      ∃ st1, run env l st = .ok st1 ∧
        st1.dev._extensions = st.dev._extensions ∧
        (∃ r1, st1.dev._gpuConstantRegistry = some r1) ∧
        st1.dev._gpuStateCache = st.dev._gpuStateCache ∧
        st1.dev._gpuBlitManager = st.dev._gpuBlitManager ∧
        st1.dev._formatFeatures =
          tableRun env.windows st.dev._extensions l st.dev._formatFeatures ∧
        st1.dev._textureExclusive =
          exclusiveRun env.windows st.dev._extensions l st.dev._textureExclusive := by
  induction l with
  | nil =>
    intro st r h
    exact ⟨st, rfl, rfl, ⟨r, h⟩, rfl, rfl, rfl, rfl⟩
  | cons s rest ih =>
    intro st r h
    rcases Bool.eq_false_or_eq_true (s.enabled env.windows st.dev._extensions) with hen | hen
    · obtain ⟨st1, h1, hx, ⟨r1, hr1⟩, hc, hb, ht, he⟩ := Stmt.exec_ok env s.stmt st r h
      obtain ⟨st2, h2, hx2, hr2, hc2, hb2, ht2, he2⟩ := ih st1 r1 hr1
      refine ⟨st2, ?_, hx2.trans hx, hr2, hc2.trans hc, hb2.trans hb, ?_, ?_⟩
      · simp only [run, GStmt.exec, hen, if_true, h1, h2]
      · rw [ht2, hx, ht]
        simp only [tableRun, hen, if_true]
      · rw [he2, hx, he]
        simp only [exclusiveRun, hen, if_true]
    · obtain ⟨st2, h2, hx2, hr2, hc2, hb2, ht2, he2⟩ := ih st r h
      refine ⟨st2, ?_, hx2, hr2, hc2, hb2, ?_, ?_⟩
      · simp only [run, GStmt.exec, hen, Bool.false_eq_true, if_false, h2]
      · rw [ht2]
        simp only [tableRun, hen, Bool.false_eq_true, if_false]
      · rw [he2]
        simp only [exclusiveRun, hen, Bool.false_eq_true, if_false]

theorem GLES2Device.noteConstructed_fields (d : GLES2Device) (o : SubObject) :
    (d.noteConstructed o)._formatFeatures = d._formatFeatures ∧
    (d.noteConstructed o)._textureExclusive = d._textureExclusive ∧
    (d.noteConstructed o)._features = d._features ∧
    (d.noteConstructed o)._gpuStateCache = d._gpuStateCache ∧
    (d.noteConstructed o)._gpuBlitManager = d._gpuBlitManager ∧
    (d.noteConstructed o)._gpuConstantRegistry = d._gpuConstantRegistry ∧
    (d.noteConstructed o)._queue = d._queue ∧
    (d.noteConstructed o)._queryPool = d._queryPool ∧
    (d.noteConstructed o)._cmdBuff = d._cmdBuff ∧
    (d.noteConstructed o)._caps = d._caps := by
  unfold GLES2Device.noteConstructed
  split <;> exact ⟨rfl, rfl, rfl, rfl, rfl, rfl, rfl, rfl, rfl, rfl⟩

theorem GLES2Device.doInitFinish_ok (env : Backend) (st : InitState)
    (c : GLES2GPUStateCache) (b : GLES2GPUBlitManager) (r : GLES2GPUConstantRegistry)
    (hc : st.dev._gpuStateCache = some c) (hb : st.dev._gpuBlitManager = some b)
    (hr : st.dev._gpuConstantRegistry = some r) :
    ∃ d1, GLES2Device.doInitFinish env st = .ok d1 ∧
      d1._formatFeatures = st.dev._formatFeatures ∧
      d1._textureExclusive = st.dev._textureExclusive ∧
      d1._features = st.dev._features ∧
      d1._queue = Device.createQueue env.queueCreated { type := .GRAPHICS } ∧
      d1._queryPool = Device.createQueryPool env.queryPoolCreated ∧
      d1._cmdBuff =
        Device.createCommandBuffer env.cmdBuffCreated { type := .PRIMARY, queue := d1._queue } := by
  simp only [GLES2Device.doInitFinish, GLES2Device.noteConstructed_fields, GLES2Device.log,
    hc, hb, hr, deref, bind, Except.bind, pure, Except.pure]
  exact ⟨_, rfl, rfl, rfl, rfl, rfl, rfl, rfl⟩

theorem GLES2Device.doInit_run (env : Backend) (d : GLES2Device)
    (h : env.contextInitOk = true) :
    ∃ st1 d1,
      run env doInitProgram
        (GLES2Device.doInitBegin env ((GLES2Device.doInitConstruct d).log .contextInit)) =
          .ok st1 ∧
      d.doInit env = .ok (true, d1) ∧
      d1._formatFeatures = st1.dev._formatFeatures ∧
      d1._textureExclusive = st1.dev._textureExclusive ∧
      d1._features = st1.dev._features ∧
      d1._queue = Device.createQueue env.queueCreated { type := .GRAPHICS } ∧
      d1._queryPool = Device.createQueryPool env.queryPoolCreated ∧
      d1._cmdBuff =
        Device.createCommandBuffer env.cmdBuffCreated { type := .PRIMARY, queue := d1._queue } := by
  obtain ⟨st1, h1, _, ⟨r1, hr1⟩, hc1, hb1, _, _⟩ :=
    run_ok env doInitProgram
      (GLES2Device.doInitBegin env ((GLES2Device.doInitConstruct d).log .contextInit)) {} rfl
  obtain ⟨d1, h2, ht2, he2, hf2, hq, hp, hcb⟩ :=
    GLES2Device.doInitFinish_ok env st1 {} {} r1 hc1 hb1 hr1
  refine ⟨st1, d1, h1, ?_, ht2, he2, hf2, hq, hp, hcb⟩
  simp only [GLES2Device.doInit, h, deref, bind, Except.bind, pure, Except.pure,
    GLES2Device.doInitConstruct, GLES2Device.log, Bool.not_true, Bool.false_eq_true,
    if_false] at h1 ⊢
  rw [h1]
  simp only [h2]

theorem GLES2Device.doInit_ok (env : Backend) (d : GLES2Device)
    (h : env.contextInitOk = true) :
    ∃ d1, d.doInit env = .ok (true, d1) ∧
      d1._formatFeatures =
        tableRun env.windows env.extensions doInitProgram d._formatFeatures ∧
      d1._textureExclusive =
        exclusiveRun env.windows env.extensions doInitProgram (fun _ => true) ∧
      d1._queue = Device.createQueue env.queueCreated { type := .GRAPHICS } ∧
      d1._queryPool = Device.createQueryPool env.queryPoolCreated ∧
      d1._cmdBuff =
        Device.createCommandBuffer env.cmdBuffCreated { type := .PRIMARY, queue := d1._queue } := by
  obtain ⟨st1, d1, h1, h2, ht, he, _, hq, hp, hcb⟩ := GLES2Device.doInit_run env d h
  obtain ⟨st2, h3, _, _, _, _, ht3, he3⟩ :=
    run_ok env doInitProgram
      (GLES2Device.doInitBegin env ((GLES2Device.doInitConstruct d).log .contextInit)) {} rfl
  rw [h1] at h3
  cases h3
  exact ⟨d1, h2, ht.trans ht3, he.trans he3, hq, hp, hcb⟩

theorem run_filter (env : Backend) (l : List GStmt) :
    ∀ (st : InitState) (r : GLES2GPUConstantRegistry),
      st.dev._gpuConstantRegistry = some r →
      run env l st =
        run env (l.filter fun s => s.enabled env.windows st.dev._extensions) st := by
  induction l with
  | nil => intro st r _; rfl
  | cons s rest ih =>
    intro st r h
    rcases Bool.eq_false_or_eq_true (s.enabled env.windows st.dev._extensions) with hen | hen
    · obtain ⟨st1, h1, hx, ⟨r1, hr1⟩, _⟩ := Stmt.exec_ok env s.stmt st r h
      simp only [List.filter_cons, hen, if_true, run, GStmt.exec, h1]
      rw [ih st1 r1 hr1, hx]
    · simp only [List.filter_cons, hen, Bool.false_eq_true, if_false, run, GStmt.exec]
      exact ih st r h

/-! ## Feature masks -/

theorem FormatFeature.subset_iff (a b : FormatFeature) :
    FormatFeature.subset a b ↔ ∀ i, a.testBit i = true → b.testBit i = true := by
  unfold FormatFeature.subset
  constructor
  · intro h i hi
    have := congrArg (fun n => Nat.testBit n i) h
    simp only [Nat.testBit_and, hi, Bool.true_and] at this
    exact this
  · intro h
    apply Nat.eq_of_testBit_eq
    intro i
    rw [Nat.testBit_and]
    cases hi : a.testBit i
    · rfl
    · rw [h i hi]; rfl

theorem FormatFeature.subset_refl (a : FormatFeature) : FormatFeature.subset a a :=
  Nat.and_self a

theorem FormatFeature.subset_or_right (a m : FormatFeature) :
    FormatFeature.subset a (a ||| m) := by
  rw [FormatFeature.subset_iff]
  intro i hi
  rw [Nat.testBit_or, hi]; rfl

theorem FormatFeature.subset_or_or {a b c d : FormatFeature}
    (h1 : FormatFeature.subset a b) (h2 : FormatFeature.subset c d) :
    FormatFeature.subset (a ||| c) (b ||| d) := by
  rw [FormatFeature.subset_iff] at *
  intro i hi
  rw [Nat.testBit_or] at *
  rcases Bool.or_eq_true _ _ ▸ hi with h | h
  · rw [h1 i h]; rfl
  · rw [h2 i h]; simp

theorem FormatFeature.zero_subset (a : FormatFeature) : FormatFeature.subset 0 a := by
  unfold FormatFeature.subset
  exact Nat.zero_and a

/-! ## The format-feature table along a run -/

theorem tableRun_append (w : Bool) (exts : List String) (l1 l2 : List GStmt) :
    ∀ t, tableRun w exts (l1 ++ l2) t = tableRun w exts l2 (tableRun w exts l1 t) := by
  induction l1 with
  | nil => intro t; rfl
  | cons s rest ih => intro t; exact ih _

theorem Stmt.tableStep_of_ne (s : Stmt) (t : Format → FormatFeature) (f : Format)
    (h : s.target ≠ some f) : s.tableStep t f = t f := by
  cases s <;> simp only [Stmt.tableStep, Stmt.target, ne_eq, Option.some.injEq] at h ⊢
  all_goals exact Function.update_noteq (Ne.symm h) _ _

theorem tableRun_untouched (w : Bool) (exts : List String) (f : Format) (l : List GStmt) :
    ∀ t, (∀ s ∈ l, s.stmt.target ≠ some f) → tableRun w exts l t f = t f := by
  induction l with
  | nil => intro t _; rfl
  | cons s rest ih =>
    intro t h
    simp only [tableRun]
    rw [ih _ (fun s1 hs1 => h s1 (List.mem_cons_of_mem _ hs1))]
    split
    · exact Stmt.tableStep_of_ne _ _ _ (h s (List.mem_cons_self _ _))
    · rfl

theorem Stmt.tableStep_eq_or (s : Stmt) (t : Format → FormatFeature) (f : Format)
    (h : ∀ g m, s = .assignFormatFeature g m → t g = 0) :
    s.tableStep t f = t f ||| s.bitsFor f := by
  cases s with
  | assignFormatFeature g m =>
    simp only [Stmt.tableStep, Stmt.bitsFor]
    by_cases hg : g = f
    · subst hg
      simp [h g m rfl]
    · simp [hg, Function.update_noteq (Ne.symm hg)]
  | orFormatFeature g m =>
    simp only [Stmt.tableStep, Stmt.bitsFor]
    by_cases hg : g = f
    · subst hg
      simp
    · simp [hg, Function.update_noteq (Ne.symm hg)]
  | _ => simp [Stmt.tableStep, Stmt.bitsFor]

theorem tableRun_eq_gathered (w : Bool) (exts : List String) (l : List GStmt) :
    ∀ (touched : List Format) (t : Format → FormatFeature),
      assignsFirst touched l = true → (∀ f, f ∉ touched → t f = 0) →
      ∀ f, tableRun w exts l t f = t f ||| gathered w exts l f := by
  induction l with
  | nil => intro _ t _ _ f; simp [tableRun, gathered]
  | cons s rest ih =>
    intro touched t hwf hz f
    simp only [assignsFirst, Bool.and_eq_true] at hwf
    obtain ⟨hs, hrest⟩ := hwf
    have hassign : ∀ g m, s.stmt = .assignFormatFeature g m → t g = 0 := by
      intro g m hg
      rw [hg] at hs
      exact hz g (of_decide_eq_true hs)
    simp only [tableRun, gathered]
    rw [ih _ _ hrest ?_ f]
    · split
      · rw [Stmt.tableStep_eq_or _ _ _ hassign, Nat.lor_assoc]
      · simp
    · intro g hg
      have hgt : g ∉ touched := by
        intro hmem
        apply hg
        cases s.stmt.target <;> simp [hmem]
      have hne : s.stmt.target ≠ some g := by
        intro heq
        apply hg
        rw [heq]
        exact List.mem_cons_self _ _
      split
      · rw [Stmt.tableStep_of_ne _ _ _ hne]
        exact hz g hgt
      · exact hz g hgt

theorem assignsFirst_split (pre : List GStmt) (s : GStmt) (post : List GStmt) (g : Format)
    (m : FormatFeature) (hs : s.stmt = .assignFormatFeature g m) :
    ∀ touched, assignsFirst touched (pre ++ s :: post) = true →
      g ∉ touched ∧ ∀ p ∈ pre, p.stmt.target ≠ some g := by
  induction pre with
  | nil =>
    intro touched h
    simp only [List.nil_append, assignsFirst, hs, Bool.and_eq_true, decide_eq_true_eq] at h
    exact ⟨h.1, fun p hp => absurd hp (List.not_mem_nil p)⟩
  | cons p rest ih =>
    intro touched h
    simp only [List.cons_append, assignsFirst, Bool.and_eq_true] at h
    obtain ⟨hnot, hall⟩ := ih _ h.2
    refine ⟨?_, ?_⟩
    · intro hmem
      apply hnot
      cases p.stmt.target <;> simp [hmem]
    · intro q hq
      rcases List.mem_cons.mp hq with rfl | hq
      · intro heq
        apply hnot
        rw [heq]
        exact List.mem_cons_self _ _
      · exact hall q hq

/-! ## Static facts about the statements of `doInit` -/

theorem doInitProgram_assignsFirst : assignsFirst [] doInitProgram = true := by decide

set_option maxRecDepth 100000 in
theorem doInitProgram_guards :
    ∀ s ∈ doInitProgram, ∀ g ∈ s.guards,
      g = Guard.notWindows ∨ ∃ name ∈ doInitProbes, g = Guard.ext name := by
  decide

theorem Guard.holds_congr (w : Bool) (e1 e2 : List String)
    (h : ∀ name ∈ doInitProbes, checkExtension e1 name = checkExtension e2 name)
    (g : Guard) (hg : g = Guard.notWindows ∨ ∃ name ∈ doInitProbes, g = Guard.ext name) :
    g.holds w e1 = g.holds w e2 := by
  rcases hg with rfl | ⟨name, hname, rfl⟩
  · rfl
  · exact h name hname

theorem GStmt.enabled_congr (w : Bool) (e1 e2 : List String)
    (h : ∀ name ∈ doInitProbes, checkExtension e1 name = checkExtension e2 name)
    (s : GStmt) (hs : s ∈ doInitProgram) : s.enabled w e1 = s.enabled w e2 := by
  have hall : ∀ gs : List Guard,
      (∀ g ∈ gs, g = Guard.notWindows ∨ ∃ name ∈ doInitProbes, g = Guard.ext name) →
      gs.all (Guard.holds w e1) = gs.all (Guard.holds w e2) := by
    intro gs
    induction gs with
    | nil => intro _; rfl
    | cons g rest ih =>
      intro hk
      simp only [List.all_cons]
      rw [Guard.holds_congr w e1 e2 h g (hk g (List.mem_cons_self _ _)),
        ih (fun g1 hg1 => hk g1 (List.mem_cons_of_mem _ hg1))]
  exact hall s.guards (doInitProgram_guards s hs)

theorem gathered_congr (w : Bool) (e1 e2 : List String) (f : Format) (l : List GStmt)
    (h : ∀ s ∈ l, s.enabled w e1 = s.enabled w e2) :
    gathered w e1 l f = gathered w e2 l f := by
  induction l with
  | nil => rfl
  | cons s rest ih =>
    simp only [gathered]
    rw [h s (List.mem_cons_self _ _), ih (fun s1 hs1 => h s1 (List.mem_cons_of_mem _ hs1))]

theorem doInitProgram_filter_none (w : Bool) :
    (doInitProgram.filter fun s => s.enabled w []) =
      builtinFormatFeatures ++ depthExclusive ++ registryProbes := by
  cases w <;> decide

/-! ## Initialisation against a backend with no optional capability -/

theorem run_unguarded_features (env : Backend) (d : GLES2Device) (r : GLES2GPUConstantRegistry)
    (hr : d._gpuConstantRegistry = some r)
    (hia : checkExtension env.extensions "instanced_arrays" = false) :
    ∃ st1, run env (builtinFormatFeatures ++ depthExclusive ++ registryProbes)
        (GLES2Device.doInitBegin env d) = .ok st1 ∧
      st1.dev._features = Function.update d._features Feature.INSTANCED_ARRAYS false := by
  simp only [builtinFormatFeatures, depthExclusive, registryProbes, List.cons_append,
    List.nil_append, run, GStmt.exec, GStmt.enabled, always, List.all_nil, if_true,
    Stmt.exec, InitState.withRegistry, InitState.setRegistry, GLES2Device.doInitBegin, hr, hia]
  exact ⟨_, rfl, rfl⟩

theorem gathered_none (w : Bool) (exts : List String)
    (hno : ∀ name ∈ doInitProbes, checkExtension exts name = false) (f : Format) :
    gathered w exts doInitProgram f = gathered w [] doInitProgram f := by
  apply gathered_congr
  intro s hs
  exact GStmt.enabled_congr w exts [] (fun name hname => by rw [hno name hname]; rfl) s hs

theorem Stmt.bitsFor_of_writesOnly (fs : List Format) (s : Stmt) (f : Format)
    (h : s.writesOnly fs = true) (hf : f ∉ fs) : s.bitsFor f = 0 := by
  cases s <;> simp only [Stmt.bitsFor, Stmt.writesOnly, Stmt.target, decide_eq_true_eq] at h ⊢
  all_goals
    rw [if_neg]
    intro hg
    exact hf (hg ▸ h)

theorem gathered_outside (w : Bool) (exts : List String) (fs : List Format) (f : Format)
    (hf : f ∉ fs) (l : List GStmt)
    (h : ∀ s ∈ l, s.enabled w exts = true → s.stmt.writesOnly fs = true) :
    gathered w exts l f = 0 := by
  induction l with
  | nil => rfl
  | cons s rest ih =>
    simp only [gathered]
    rw [ih (fun s1 hs1 => h s1 (List.mem_cons_of_mem _ hs1))]
    by_cases hen : s.enabled w exts = true
    · rw [if_pos hen, Stmt.bitsFor_of_writesOnly fs s.stmt f (h s (List.mem_cons_self _ _) hen) hf]
      rfl
    · rw [if_neg hen]
      rfl

set_option maxRecDepth 100000 in
theorem doInitProgram_baseline_writes (w : Bool) :
    ∀ s ∈ doInitProgram, s.enabled w [] = true → s.stmt.writesOnly builtinFormats = true := by
  cases w <;> decide

set_option maxRecDepth 100000 in
/-- C1, as stated, fails: `R32UI` is an integer format, yet on a fresh device and a backend
that lists no extension at all, so that every probe fails, `doInit` returns true and leaves
the mask of `R32UI` empty, not `VERTEX_ATTRIBUTE`. -/
theorem GLES2Device.doInit_baseline_counterexample :
    (∀ name ∈ doInitProbes, checkExtension ([] : List String) name = false) ∧
    Format.R32UI.isInteger = true ∧
    ∃ d1, GLES2Device.fresh.doInit {} = .ok (true, d1) ∧
      d1._formatFeatures Format.R32UI = FormatFeature.NONE ∧
      d1._formatFeatures Format.R32UI ≠ FormatFeature.VERTEX_ATTRIBUTE := by
  refine ⟨by decide, rfl, _, rfl, ?_, ?_⟩ <;> decide

set_option maxRecDepth 100000 in
/-- C1: on a freshly constructed device whose context initialises and whose extension
list satisfies none of the probes of `doInit`, `doInit` returns true and leaves
RGBA8, RGB8, R5G6B5, RGBA4 and RGB5A1 with exactly
`RENDER_TARGET | SAMPLED_TEXTURE | LINEAR_FILTER`, each of the sixteen integer formats of 8
and 16 bits and each of the four 32-bit float formats with exactly `VERTEX_ATTRIBUTE`,
every other format with an empty mask, so that an integer format has `VERTEX_ATTRIBUTE`
exactly when it is not one of 32 bits, and each of the five optional features false. -/
theorem GLES2Device.doInit_baseline (env : Backend) (hctx : env.contextInitOk = true)
    (hno : ∀ name ∈ doInitProbes, checkExtension env.extensions name = false) :
    ∃ d1, GLES2Device.fresh.doInit env = .ok (true, d1) ∧
      (∀ f ∈ [Format.RGBA8, Format.RGB8, Format.R5G6B5, Format.RGBA4, Format.RGB5A1],
        d1._formatFeatures f =
          FormatFeature.RENDER_TARGET ||| FormatFeature.SAMPLED_TEXTURE |||
            FormatFeature.LINEAR_FILTER) ∧
      (∀ f ∈ [Format.R8I, Format.RG8I, Format.RGB8I, Format.RGBA8I,
              Format.R8UI, Format.RG8UI, Format.RGB8UI, Format.RGBA8UI,
              Format.R16I, Format.RG16I, Format.RGB16I, Format.RGBA16I,
              Format.R16UI, Format.RG16UI, Format.RGB16UI, Format.RGBA16UI],
        d1._formatFeatures f = FormatFeature.VERTEX_ATTRIBUTE) ∧
      (∀ f ∈ [Format.R32F, Format.RG32F, Format.RGB32F, Format.RGBA32F],
        d1._formatFeatures f = FormatFeature.VERTEX_ATTRIBUTE) ∧
      (∀ f, f ∉ builtinFormats → d1._formatFeatures f = FormatFeature.NONE) ∧
      (∀ f, f.isInteger = true →
        d1._formatFeatures f =
          if f ∈ [Format.R32UI, Format.R32I, Format.RG32UI, Format.RG32I,
                  Format.RGB32UI, Format.RGB32I, Format.RGBA32UI, Format.RGBA32I]
          then FormatFeature.NONE else FormatFeature.VERTEX_ATTRIBUTE) ∧
      (∀ ft ∈ [Feature.ELEMENT_INDEX_UINT, Feature.MULTIPLE_RENDER_TARGETS,
               Feature.BLEND_MINMAX, Feature.INSTANCED_ARRAYS,
               Feature.INPUT_ATTACHMENT_BENEFIT],
        d1._features ft = false) := by
  obtain ⟨st1, d1, h1, h2, ht, _, hf, _⟩ := GLES2Device.doInit_run env GLES2Device.fresh hctx
  obtain ⟨d2, h3, ht3, _⟩ := GLES2Device.doInit_ok env GLES2Device.fresh hctx
  rw [h2] at h3
  cases h3
  have hmask : ∀ f, d1._formatFeatures f = gathered env.windows [] doInitProgram f := by
    intro f
    rw [ht3, tableRun_eq_gathered env.windows env.extensions doInitProgram []
      GLES2Device.fresh._formatFeatures doInitProgram_assignsFirst (fun _ _ => rfl) f,
      gathered_none env.windows env.extensions hno f]
    exact Nat.zero_or _
  have hfilter : (doInitProgram.filter fun s => s.enabled env.windows env.extensions) =
      builtinFormatFeatures ++ depthExclusive ++ registryProbes := by
    rw [← doInitProgram_filter_none env.windows]
    apply List.filter_congr
    intro s hs
    exact GStmt.enabled_congr env.windows env.extensions []
      (fun name hname => by rw [hno name hname]; rfl) s hs
  have hfeat : d1._features =
      Function.update GLES2Device.fresh._features Feature.INSTANCED_ARRAYS false := by
    rw [run_filter env doInitProgram _ {} rfl] at h1
    have hx : (GLES2Device.doInitBegin env
        ((GLES2Device.doInitConstruct GLES2Device.fresh).log .contextInit)).dev._extensions =
          env.extensions := rfl
    rw [hx, hfilter] at h1
    obtain ⟨st2, h4, hf4⟩ := run_unguarded_features env
      ((GLES2Device.doInitConstruct GLES2Device.fresh).log .contextInit) {} rfl
      (hno "instanced_arrays" (by decide))
    rw [h1] at h4
    cases h4
    rw [hf, hf4]
    rfl
  refine ⟨d1, h2, ?_, ?_, ?_, ?_, ?_, ?_⟩
  · intro f hf
    rw [hmask f]
    generalize env.windows = w
    revert f
    cases w <;> decide
  · intro f hf
    rw [hmask f]
    generalize env.windows = w
    revert f
    cases w <;> decide
  · intro f hf
    rw [hmask f]
    generalize env.windows = w
    revert f
    cases w <;> decide
  · intro f hf
    rw [hmask f]
    exact gathered_outside env.windows [] builtinFormats f hf doInitProgram
      (doInitProgram_baseline_writes env.windows)
  · intro f hf
    rw [hmask f]
    generalize env.windows = w
    cases f <;> first | (cases w <;> decide) | cases hf
  · intro ft hft
    rw [hfeat]
    revert ft
    decide

/-- C1, at a backend that lists only extensions none of the probes matches. -/
theorem GLES2Device.doInit_baseline_witness :
    ∃ d1, GLES2Device.fresh.doInit { extensions := ["GL_OES_rgb8_rgba8", "GL_OES_depth24"] } =
        .ok (true, d1) ∧
      (∀ f ∈ [Format.RGBA8, Format.RGB8, Format.R5G6B5, Format.RGBA4, Format.RGB5A1],
        d1._formatFeatures f =
          FormatFeature.RENDER_TARGET ||| FormatFeature.SAMPLED_TEXTURE |||
            FormatFeature.LINEAR_FILTER) ∧
      (∀ f ∈ [Format.R8I, Format.RG8I, Format.RGB8I, Format.RGBA8I,
              Format.R8UI, Format.RG8UI, Format.RGB8UI, Format.RGBA8UI,
              Format.R16I, Format.RG16I, Format.RGB16I, Format.RGBA16I,
              Format.R16UI, Format.RG16UI, Format.RGB16UI, Format.RGBA16UI],
        d1._formatFeatures f = FormatFeature.VERTEX_ATTRIBUTE) ∧
      (∀ f ∈ [Format.R32F, Format.RG32F, Format.RGB32F, Format.RGBA32F],
        d1._formatFeatures f = FormatFeature.VERTEX_ATTRIBUTE) ∧
      (∀ f, f ∉ builtinFormats → d1._formatFeatures f = FormatFeature.NONE) ∧
      (∀ f, f.isInteger = true →
        d1._formatFeatures f =
          if f ∈ [Format.R32UI, Format.R32I, Format.RG32UI, Format.RG32I,
                  Format.RGB32UI, Format.RGB32I, Format.RGBA32UI, Format.RGBA32I]
          then FormatFeature.NONE else FormatFeature.VERTEX_ATTRIBUTE) ∧
      (∀ ft ∈ [Feature.ELEMENT_INDEX_UINT, Feature.MULTIPLE_RENDER_TARGETS,
               Feature.BLEND_MINMAX, Feature.INSTANCED_ARRAYS,
               Feature.INPUT_ATTACHMENT_BENEFIT],
        d1._features ft = false) :=
  GLES2Device.doInit_baseline { extensions := ["GL_OES_rgb8_rgba8", "GL_OES_depth24"] } rfl
    (by decide)

/-! ## The Vulkan sampler teardown -/

theorem CCVKSampler.doDestroy_idem (s : CCVKSampler) : s.doDestroy.doDestroy = s.doDestroy := by
  cases s with
  | mk g calls => cases g <;> rfl

/-- C2: `CCVKSampler::doDestroy` on a non-empty handle calls `disengage` and then `collect`
on that handle, once each and in that order, and empties the handle; on an empty handle it
calls neither and changes nothing (whatever the calls so far), so any number of further
`doDestroy` calls after the first add no call: the handle is collected at most once, and
only right after its `disengage`. -/
theorem CCVKSampler.doDestroy_disengage_then_collect (s : CCVKSampler) :
    s.doDestroy._gpuSampler = none ∧
    s.doDestroy.calls = s.calls ++
      (match s._gpuSampler with
       | some gpuSampler => [VKCall.disengage gpuSampler, VKCall.collect gpuSampler]
       | none => []) ∧
    CCVKSampler.doDestroy { _gpuSampler := none, calls := s.calls } =
      { _gpuSampler := none, calls := s.calls } ∧
    ∀ n : Nat, (CCVKSampler.doDestroy^[n + 1]) s = s.doDestroy := by
  refine ⟨?_, ?_, ?_, ?_⟩
  · cases s with
    | mk g calls => cases g <;> rfl
  · cases s with
    | mk g calls => cases g <;> simp [CCVKSampler.doDestroy]
  · rfl
  · intro n
    induction n with
    | zero => rfl
    | succ k ih =>
      rw [Function.iterate_succ_apply', ih, CCVKSampler.doDestroy_idem]

/-! ## No statement of `doInit` clears a feature bit -/

theorem take_succ_of_drop {α : Type} (l : List α) :
    ∀ (k : Nat) (s : α) (post : List α),
      l.drop k = s :: post → l.take (k + 1) = l.take k ++ [s] := by
  induction l with
  | nil => intro k s post h; simp at h
  | cons a rest ih =>
    intro k s post h
    cases k with
    | zero =>
      simp only [List.drop_zero, List.cons.injEq] at h
      simp [h.1]
    | succ j =>
      simp only [List.drop_succ_cons] at h
      simp only [List.take_succ_cons, List.cons_append, ih j s post h]

theorem take_of_drop_nil {α : Type} (l : List α) :
    ∀ (k : Nat), l.drop k = [] → l.take (k + 1) = l.take k := by
  induction l with
  | nil => intro k _; simp
  | cons a rest ih =>
    intro k h
    cases k with
    | zero => simp at h
    | succ j =>
      simp only [List.drop_succ_cons] at h
      simp only [List.take_succ_cons, ih j h]

theorem tableRun_step_subset (w : Bool) (exts : List String) (pre post : List GStmt) (s : GStmt)
    (t : Format → FormatFeature) (ht : ∀ f, t f = 0)
    (hwf : assignsFirst [] (pre ++ s :: post) = true) (f : Format) :
    FormatFeature.subset (tableRun w exts pre t f) (tableRun w exts (pre ++ [s]) t f) := by
  rw [tableRun_append]
  simp only [tableRun]
  split
  · rw [Stmt.tableStep_eq_or]
    · exact FormatFeature.subset_or_right _ _
    · intro g m hs
      obtain ⟨_, hpre⟩ := assignsFirst_split pre s post g m hs [] hwf
      rw [tableRun_untouched w exts g pre t hpre]
      exact ht g
  · exact FormatFeature.subset_refl _

/-- C3: during `doInit` on a freshly constructed device, for every extension list, every
format `f` and every `k`, the mask of `f` after the first `k + 1` statements of lines 93 to
321 contains every bit of its mask after the first `k` statements (both prefixes run to
completion); the lines before them leave every mask empty. -/
theorem GLES2Device.doInit_never_clears (env : Backend) (f : Format) (k : Nat) :
    (GLES2Device.doInitBegin env
      ((GLES2Device.doInitConstruct GLES2Device.fresh).log .contextInit)).dev._formatFeatures f
        = FormatFeature.NONE ∧
    ∃ st1 st2,
      run env (doInitProgram.take k)
        (GLES2Device.doInitBegin env
          ((GLES2Device.doInitConstruct GLES2Device.fresh).log .contextInit)) = .ok st1 ∧
      run env (doInitProgram.take (k + 1))
        (GLES2Device.doInitBegin env
          ((GLES2Device.doInitConstruct GLES2Device.fresh).log .contextInit)) = .ok st2 ∧
      FormatFeature.subset (st1.dev._formatFeatures f) (st2.dev._formatFeatures f) := by
  refine ⟨rfl, ?_⟩
  obtain ⟨st1, h1, _, _, _, _, ht1, _⟩ := run_ok env (doInitProgram.take k)
    (GLES2Device.doInitBegin env
      ((GLES2Device.doInitConstruct GLES2Device.fresh).log .contextInit)) {} rfl
  obtain ⟨st2, h2, _, _, _, _, ht2, _⟩ := run_ok env (doInitProgram.take (k + 1))
    (GLES2Device.doInitBegin env
      ((GLES2Device.doInitConstruct GLES2Device.fresh).log .contextInit)) {} rfl
  refine ⟨st1, st2, h1, h2, ?_⟩
  rw [ht1, ht2]
  cases hd : doInitProgram.drop k with
  | nil =>
    rw [take_of_drop_nil doInitProgram k hd]
    exact FormatFeature.subset_refl _
  | cons s post =>
    rw [take_succ_of_drop doInitProgram k s post hd]
    apply tableRun_step_subset _ _ _ post
    · intro g; rfl
    · rw [← hd, List.take_append_drop]
      exact doInitProgram_assignsFirst

/-! ## The order of the extension-gated blocks -/

theorem Stmt.tableStep_of_target_none (s : Stmt) (t : Format → FormatFeature)
    (h : s.target = none) : s.tableStep t = t := by
  cases s <;> first | rfl | simp [Stmt.target] at h

theorem Stmt.tableStep_comm (s1 s2 : Stmt) (h : s1.commutes s2 = true)
    (t : Format → FormatFeature) :
    s1.tableStep (s2.tableStep t) = s2.tableStep (s1.tableStep t) := by
  cases h1 : s1.target with
  | none => rw [Stmt.tableStep_of_target_none s1 _ h1, Stmt.tableStep_of_target_none s1 _ h1]
  | some f =>
    cases h2 : s2.target with
    | none => rw [Stmt.tableStep_of_target_none s2 _ h2, Stmt.tableStep_of_target_none s2 _ h2]
    | some g =>
      funext x
      cases s1 <;> simp only [Stmt.target, Option.some.injEq] at h1 <;> try (cases h1)
      all_goals cases s2 <;> simp only [Stmt.target, Option.some.injEq] at h2 <;> try (cases h2)
      all_goals
        simp only [Stmt.commutes, Stmt.isOr, Stmt.target, Bool.false_and, Bool.and_false,
          Bool.true_and, Bool.false_or, Bool.true_or, decide_eq_true_eq, ne_eq] at h
      all_goals simp only [Stmt.tableStep, Function.update_apply]
      · split_ifs <;> simp_all
      · split_ifs <;> simp_all
      · split_ifs <;> simp_all
      · by_cases hfg : f = g
        · subst hfg
          by_cases hx : x = f
          · simp only [hx, if_true]
            rw [Nat.lor_assoc, Nat.lor_assoc]
            congr 1
            exact Nat.lor_comm _ _
          · simp only [hx, if_false]
        · split_ifs <;> simp_all

theorem tableRun_comm_one (w : Bool) (exts : List String) (s : GStmt) (l : List GStmt) :
    ∀ t, (∀ p ∈ l, s.stmt.commutes p.stmt = true) →
      tableRun w exts l (tableRun w exts [s] t) = tableRun w exts [s] (tableRun w exts l t) := by
  induction l with
  | nil => intro t _; rfl
  | cons p rest ih =>
    intro t h
    have hp := h p (List.mem_cons_self _ _)
    have hrest := fun q hq => h q (List.mem_cons_of_mem _ hq)
    have hswap : tableRun w exts [p] (tableRun w exts [s] t) =
        tableRun w exts [s] (tableRun w exts [p] t) := by
      simp only [tableRun]
      split <;> split <;> first | rfl | exact (Stmt.tableStep_comm _ _ hp _).symm
    calc tableRun w exts (p :: rest) (tableRun w exts [s] t)
        = tableRun w exts rest (tableRun w exts [p] (tableRun w exts [s] t)) := rfl
      _ = tableRun w exts rest (tableRun w exts [s] (tableRun w exts [p] t)) := by rw [hswap]
      _ = tableRun w exts [s] (tableRun w exts rest (tableRun w exts [p] t)) :=
          ih _ hrest
      _ = tableRun w exts [s] (tableRun w exts (p :: rest) t) := rfl

theorem tableRun_comm (w : Bool) (exts : List String) (l1 l2 : List GStmt) :
    ∀ t, (∀ s ∈ l1, ∀ p ∈ l2, s.stmt.commutes p.stmt = true) →
      tableRun w exts l2 (tableRun w exts l1 t) = tableRun w exts l1 (tableRun w exts l2 t) := by
  induction l1 with
  | nil => intro t _; rfl
  | cons s rest ih =>
    intro t h
    have hs := h s (List.mem_cons_self _ _)
    have hrest := fun q hq => h q (List.mem_cons_of_mem _ hq)
    calc tableRun w exts l2 (tableRun w exts (s :: rest) t)
        = tableRun w exts l2 (tableRun w exts rest (tableRun w exts [s] t)) := rfl
      _ = tableRun w exts rest (tableRun w exts l2 (tableRun w exts [s] t)) := ih _ hrest
      _ = tableRun w exts rest (tableRun w exts [s] (tableRun w exts l2 t)) := by
          rw [tableRun_comm_one w exts s l2 t hs]
      _ = tableRun w exts (s :: rest) (tableRun w exts l2 t) := rfl

theorem tableRun_join (w : Bool) (exts : List String) (bs : List (List GStmt)) :
    ∀ t, tableRun w exts bs.flatten t = tableRunBlocks w exts bs t := by
  induction bs with
  | nil => intro t; rfl
  | cons b rest ih =>
    intro t
    rw [List.flatten_cons, tableRun_append, ih]
    rfl

theorem tableRunBlocks_perm (w : Bool) (exts : List String) (bs1 bs2 : List (List GStmt))
    (hp : bs1.Perm bs2) (hc : blocksCommute bs1 = true) (t : Format → FormatFeature) :
    tableRunBlocks w exts bs1 t = tableRunBlocks w exts bs2 t := by
  unfold tableRunBlocks
  apply hp.foldl_eq'
  intro b1 hb1 b2 hb2 t1
  simp only [blocksCommute, List.all_eq_true, Bool.or_eq_true, decide_eq_true_eq] at hc
  rcases hc b1 hb1 b2 hb2 with heq | hc1
  · rw [heq]
  · exact tableRun_comm w exts b1 b2 t1 hc1

theorem tableRun_filter (w : Bool) (exts : List String) (l : List GStmt) :
    ∀ t, tableRun w exts l t =
      tableRun w exts (l.filter fun s => s.stmt.target.isSome) t := by
  induction l with
  | nil => intro t; rfl
  | cons s rest ih =>
    intro t
    cases h : s.stmt.target with
    | none =>
      simp only [List.filter_cons, h, Option.isSome_none, Bool.false_eq_true, if_false,
        tableRun, Stmt.tableStep_of_target_none _ _ h, ite_self]
      exact ih t
    | some f =>
      simp only [List.filter_cons, h, Option.isSome_some, if_true, tableRun]
      exact ih _

theorem doInitProgram_table_statements :
    (doInitProgram.filter fun s => s.stmt.target.isSome) =
      ((builtinFormatFeatures ++ blockVertexHalfFloat ++
        formatProbeBlocksAfterFirst.flatten).filter fun s => s.stmt.target.isSome) := by
  decide

theorem formatProbeBlocksAfterFirst_commute :
    blocksCommute formatProbeBlocksAfterFirst = true := by
  decide

/-- C4, as stated, fails: with the extensions `GL_OES_vertex_half_float` and
`GL_OES_texture_half_float`, running the block of `OES_vertex_half_float` after the other
extension-gated blocks leaves RGB16F with `VERTEX_ATTRIBUTE` alone, while `doInit` leaves it
with `RENDER_TARGET | SAMPLED_TEXTURE | VERTEX_ATTRIBUTE`. -/
theorem GLES2Device.doInit_block_order_counterexample :
    ∃ bs : List (List GStmt), bs.Perm formatProbeBlocks ∧
      ∃ st d1,
        run { extensions := ["GL_OES_vertex_half_float", "GL_OES_texture_half_float"] }
          (builtinFormatFeatures ++ bs.flatten)
          (GLES2Device.doInitBegin
            { extensions := ["GL_OES_vertex_half_float", "GL_OES_texture_half_float"] }
            ((GLES2Device.doInitConstruct GLES2Device.fresh).log .contextInit)) = .ok st ∧
        GLES2Device.fresh.doInit
          { extensions := ["GL_OES_vertex_half_float", "GL_OES_texture_half_float"] } =
            .ok (true, d1) ∧
        st.dev._formatFeatures Format.RGB16F = FormatFeature.VERTEX_ATTRIBUTE ∧
        d1._formatFeatures Format.RGB16F =
          FormatFeature.RENDER_TARGET ||| FormatFeature.SAMPLED_TEXTURE |||
            FormatFeature.VERTEX_ATTRIBUTE := by
  refine ⟨formatProbeBlocksAfterFirst ++ [blockVertexHalfFloat],
    (List.perm_append_comm : (formatProbeBlocksAfterFirst ++ [blockVertexHalfFloat]).Perm
      ([blockVertexHalfFloat] ++ formatProbeBlocksAfterFirst)), ?_⟩
  obtain ⟨st, h1, _, _, _, _, ht1, _⟩ :=
    run_ok { extensions := ["GL_OES_vertex_half_float", "GL_OES_texture_half_float"] }
      (builtinFormatFeatures ++ (formatProbeBlocksAfterFirst ++ [blockVertexHalfFloat]).flatten)
      (GLES2Device.doInitBegin
        { extensions := ["GL_OES_vertex_half_float", "GL_OES_texture_half_float"] }
        ((GLES2Device.doInitConstruct GLES2Device.fresh).log .contextInit)) {} rfl
  obtain ⟨d1, h2, ht2, _⟩ := GLES2Device.doInit_ok
    { extensions := ["GL_OES_vertex_half_float", "GL_OES_texture_half_float"] }
    GLES2Device.fresh rfl
  refine ⟨st, d1, h1, h2, ?_, ?_⟩
  · rw [ht1]
    decide
  · rw [ht2]
    decide

/-- C4, amended: for every extension list and every starting device, running the builtin
format features, then the block of `OES_vertex_half_float`, then the other extension-gated
blocks of lines 142 to 218 and 274 to 321 in any permuted order yields the format-feature
table that `doInit` ends with. -/
theorem GLES2Device.doInit_block_order (env : Backend) (d : GLES2Device)
    (bs : List (List GStmt)) (hctx : env.contextInitOk = true)
    (hp : bs.Perm formatProbeBlocksAfterFirst) :
    ∃ st d1,
      run env (builtinFormatFeatures ++ blockVertexHalfFloat ++ bs.flatten)
        (GLES2Device.doInitBegin env ((GLES2Device.doInitConstruct d).log .contextInit)) =
          .ok st ∧
      d.doInit env = .ok (true, d1) ∧
      st.dev._formatFeatures = d1._formatFeatures := by
  obtain ⟨st, h1, _, _, _, _, ht1, _⟩ :=
    run_ok env (builtinFormatFeatures ++ blockVertexHalfFloat ++ bs.flatten)
      (GLES2Device.doInitBegin env ((GLES2Device.doInitConstruct d).log .contextInit)) {} rfl
  obtain ⟨d1, h2, ht2, _⟩ := GLES2Device.doInit_ok env d hctx
  refine ⟨st, d1, h1, h2, ?_⟩
  rw [ht1, ht2, tableRun_filter _ _ doInitProgram, doInitProgram_table_statements,
    ← tableRun_filter, tableRun_append, tableRun_append _ _ _ formatProbeBlocksAfterFirst.flatten,
    tableRun_join, tableRun_join]
  have hc : blocksCommute bs = true := by
    have h0 := formatProbeBlocksAfterFirst_commute
    simp only [blocksCommute, List.all_eq_true, Bool.or_eq_true, decide_eq_true_eq] at h0 ⊢
    intro b1 hb1 b2 hb2
    exact h0 b1 (hp.subset hb1) b2 (hp.subset hb2)
  exact tableRunBlocks_perm _ _ bs formatProbeBlocksAfterFirst hp hc _

/-- C4, amended, at the reverse order of the blocks and a backend with half-float
extensions. -/
theorem GLES2Device.doInit_block_order_witness :
    ∃ st d1,
      run { extensions := ["GL_OES_vertex_half_float", "GL_OES_texture_half_float"] }
        (builtinFormatFeatures ++ blockVertexHalfFloat ++
          formatProbeBlocksAfterFirst.reverse.flatten)
        (GLES2Device.doInitBegin
          { extensions := ["GL_OES_vertex_half_float", "GL_OES_texture_half_float"] }
          ((GLES2Device.doInitConstruct GLES2Device.fresh).log .contextInit)) = .ok st ∧
      GLES2Device.fresh.doInit
        { extensions := ["GL_OES_vertex_half_float", "GL_OES_texture_half_float"] } =
          .ok (true, d1) ∧
      st.dev._formatFeatures = d1._formatFeatures :=
  GLES2Device.doInit_block_order
    { extensions := ["GL_OES_vertex_half_float", "GL_OES_texture_half_float"] }
    GLES2Device.fresh formatProbeBlocksAfterFirst.reverse rfl
    (List.reverse_perm formatProbeBlocksAfterFirst)

/-! ## More capabilities never narrow the tables -/

theorem exclusiveRun_eq_clearedBy (w : Bool) (exts : List String) (l : List GStmt) :
    ∀ (x : Format → Bool), onlyClears l = true →
      ∀ f, exclusiveRun w exts l x f = (x f && !clearedBy w exts l f) := by
  induction l with
  | nil => intro x _ f; simp [exclusiveRun, clearedBy]
  | cons s rest ih =>
    intro x hoc f
    simp only [onlyClears, List.all_cons, Bool.and_eq_true] at hoc
    have hrest : onlyClears rest = true := hoc.2
    have hs := hoc.1
    simp only [exclusiveRun]
    rw [ih _ hrest f]
    simp only [clearedBy, List.any_cons]
    rcases Bool.eq_false_or_eq_true (s.enabled w exts) with hen | hen
    · simp only [hen, if_true, Bool.true_and]
      cases hst : s.stmt with
      | setTextureExclusive g b =>
        rw [hst] at hs
        simp only [Bool.not_eq_true'] at hs
        subst hs
        simp only [Stmt.exclusiveStep, Function.update_apply]
        by_cases hg : g = f
        · subst hg; simp
        · have hfg : ¬ f = g := fun h => hg h.symm
          simp [hg, hfg]
      | _ => simp [Stmt.exclusiveStep]
    · simp [hen]

theorem doInitProgram_onlyClears : onlyClears doInitProgram = true := by decide

set_option maxRecDepth 100000 in
theorem doInitProgram_formatGuards : formatGuardsAmong doInitProbes doInitProgram = true := by
  decide

theorem GStmt.enabled_mono (w1 w2 : Bool) (e1 e2 : List String)
    (h : ∀ name ∈ doInitProbes, checkExtension e1 name = true → checkExtension e2 name = true)
    (s : GStmt) (hs : s ∈ doInitProgram) (hw : s.stmt.writesFormat = true)
    (hen : s.enabled w1 e1 = true) : s.enabled w2 e2 = true := by
  have hg := doInitProgram_formatGuards
  simp only [formatGuardsAmong, List.all_eq_true, Bool.or_eq_true, Bool.not_eq_true'] at hg
  rcases hg s hs with hnw | hall
  · rw [hw] at hnw; cases hnw
  · simp only [GStmt.enabled, List.all_eq_true] at hen ⊢
    intro g hgm
    have hk := hall g hgm
    cases g with
    | ext name =>
      simp only [decide_eq_true_eq] at hk
      exact h name hk (hen _ hgm)
    | notWindows => cases hk

theorem gathered_mono (w1 w2 : Bool) (e1 e2 : List String) (f : Format) (l : List GStmt)
    (h : ∀ s ∈ l, s.stmt.writesFormat = true →
      s.enabled w1 e1 = true → s.enabled w2 e2 = true) :
    FormatFeature.subset (gathered w1 e1 l f) (gathered w2 e2 l f) := by
  induction l with
  | nil => exact FormatFeature.subset_refl _
  | cons s rest ih =>
    simp only [gathered]
    apply FormatFeature.subset_or_or _ (ih (fun p hp => h p (List.mem_cons_of_mem _ hp)))
    rcases Bool.eq_false_or_eq_true (s.enabled w1 e1) with hen | hen
    · cases hst : s.stmt with
      | assignFormatFeature g m =>
        rw [h s (List.mem_cons_self _ _) (by rw [hst]; rfl) hen, hen]
        exact FormatFeature.subset_refl _
      | orFormatFeature g m =>
        rw [h s (List.mem_cons_self _ _) (by rw [hst]; rfl) hen, hen]
        exact FormatFeature.subset_refl _
      | _ =>
        simp only [Stmt.bitsFor, ite_self]
        exact FormatFeature.subset_refl _
    · simp only [hen, Bool.false_eq_true, if_false]
      exact FormatFeature.zero_subset _

theorem clearedBy_mono (w1 w2 : Bool) (e1 e2 : List String) (f : Format) (l : List GStmt)
    (h : ∀ s ∈ l, s.stmt.writesFormat = true →
      s.enabled w1 e1 = true → s.enabled w2 e2 = true)
    (hc : clearedBy w1 e1 l f = true) : clearedBy w2 e2 l f = true := by
  simp only [clearedBy, List.any_eq_true, Bool.and_eq_true] at hc ⊢
  obtain ⟨s, hs, hen, hm⟩ := hc
  refine ⟨s, hs, ?_, hm⟩
  apply h s hs _ hen
  cases hst : s.stmt <;> rw [hst] at hm <;> first | rfl | cases hm

/-- C5: `doInit` is monotone in the detected capabilities. For two runs on fresh devices
whose contexts initialise, if every probe of `doInit` that succeeds on the first extension
list succeeds on the second, both runs return true, every format's final mask in the first
run is contained in its final mask in the second, and every format whose exclusivity flag
the first run clears has it cleared in the second. -/
theorem GLES2Device.doInit_monotone (env1 env2 : Backend)
    (h1 : env1.contextInitOk = true) (h2 : env2.contextInitOk = true)
    (hsub : ∀ name ∈ doInitProbes,
      checkExtension env1.extensions name = true → checkExtension env2.extensions name = true) :
    ∃ d1 d2,
      GLES2Device.fresh.doInit env1 = .ok (true, d1) ∧
      GLES2Device.fresh.doInit env2 = .ok (true, d2) ∧
      ∀ f, FormatFeature.subset (d1._formatFeatures f) (d2._formatFeatures f) ∧
        (d1._textureExclusive f = false → d2._textureExclusive f = false) := by
  obtain ⟨d1, hd1, ht1, he1, _⟩ := GLES2Device.doInit_ok env1 GLES2Device.fresh h1
  obtain ⟨d2, hd2, ht2, he2, _⟩ := GLES2Device.doInit_ok env2 GLES2Device.fresh h2
  have hmono : ∀ s ∈ doInitProgram, s.stmt.writesFormat = true →
      s.enabled env1.windows env1.extensions = true →
      s.enabled env2.windows env2.extensions = true :=
    fun s hs hw hen => GStmt.enabled_mono _ _ _ _ hsub s hs hw hen
  refine ⟨d1, d2, hd1, hd2, fun f => ⟨?_, ?_⟩⟩
  · rw [ht1, ht2,
      tableRun_eq_gathered _ _ doInitProgram [] GLES2Device.fresh._formatFeatures
        doInitProgram_assignsFirst (fun _ _ => rfl) f,
      tableRun_eq_gathered _ _ doInitProgram [] GLES2Device.fresh._formatFeatures
        doInitProgram_assignsFirst (fun _ _ => rfl) f]
    exact FormatFeature.subset_or_or (FormatFeature.subset_refl _)
      (gathered_mono _ _ _ _ f doInitProgram hmono)
  · rw [he1, he2, exclusiveRun_eq_clearedBy _ _ _ _ doInitProgram_onlyClears,
      exclusiveRun_eq_clearedBy _ _ _ _ doInitProgram_onlyClears]
    simp only [Bool.true_and, Bool.not_eq_false', Bool.not_eq_eq_eq_not, Bool.not_false]
    exact clearedBy_mono _ _ _ _ f doInitProgram hmono

/-- C5, at a backend with one half-float extension and a backend that adds `texture_rg`. -/
theorem GLES2Device.doInit_monotone_witness :
    ∃ d1 d2,
      GLES2Device.fresh.doInit { extensions := ["GL_EXT_color_buffer_half_float"] } =
        .ok (true, d1) ∧
      GLES2Device.fresh.doInit
        { extensions := ["GL_EXT_color_buffer_half_float", "GL_EXT_texture_rg"] } =
          .ok (true, d2) ∧
      ∀ f, FormatFeature.subset (d1._formatFeatures f) (d2._formatFeatures f) ∧
        (d1._textureExclusive f = false → d2._textureExclusive f = false) :=
  GLES2Device.doInit_monotone { extensions := ["GL_EXT_color_buffer_half_float"] }
    { extensions := ["GL_EXT_color_buffer_half_float", "GL_EXT_texture_rg"] } rfl rfl
    (by decide)

/-! ## Failure of the native context -/

/-- C6: when the native context fails to initialise (and the device holds no buffer or
texture memory), `doInit` calls `destroy` and returns false; the format features, the
features, the exclusivity flags and the limits are as before the call, no queue, query pool
or command buffer is constructed, and the three handles are empty afterwards. -/
theorem GLES2Device.doInit_context_failure (env : Backend) (d : GLES2Device)
    (hctx : env.contextInitOk = false)
    (hbuf : d._memoryStatus.bufferSize = 0) (htex : d._memoryStatus.textureSize = 0) :
    ∃ d1 added,
      d.doInit env = .ok (false, d1) ∧
      d1.calls = d.calls ++ added ∧
      Event.destroyCalled ∈ added ∧
      Event.construct SubObject.queue ∉ added ∧
      Event.construct SubObject.queryPool ∉ added ∧
      Event.construct SubObject.cmdBuff ∉ added ∧
      d1._formatFeatures = d._formatFeatures ∧
      d1._features = d._features ∧
      d1._textureExclusive = d._textureExclusive ∧
      d1._caps = d._caps ∧
      d1._queue = none ∧ d1._queryPool = none ∧ d1._cmdBuff = none := by
  cases hq : d._queue <;> cases hp : d._queryPool <;> cases hc : d._cmdBuff <;>
    simp only [GLES2Device.doInit, GLES2Device.doInitConstruct, GLES2Device.destroy,
      GLES2Device.doDestroy, CC_SAFE_DELETE, CC_SAFE_DESTROY, CCASSERT, GLES2Device.holds,
      GLES2Device.clear, GLES2Device.log, deref, hctx, hbuf, htex, hq, hp, hc, bind,
      Except.bind, pure, Except.pure, Option.isSome_some, Option.isSome_none, if_true,
      if_false, Bool.not_false, beq_self_eq_true, Bool.false_eq_true, List.append_assoc,
      List.cons_append, List.nil_append] <;>
    exact ⟨_, _, rfl, rfl, by decide, by decide, by decide, by decide, rfl, rfl, rfl, rfl,
      rfl, rfl, rfl⟩

/-- C6, at a fresh device and a backend whose context fails to initialise. -/
theorem GLES2Device.doInit_context_failure_witness :
    ∃ d1 added,
      GLES2Device.fresh.doInit { contextInitOk := false } = .ok (false, d1) ∧
      d1.calls = GLES2Device.fresh.calls ++ added ∧
      Event.destroyCalled ∈ added ∧
      Event.construct SubObject.queue ∉ added ∧
      Event.construct SubObject.queryPool ∉ added ∧
      Event.construct SubObject.cmdBuff ∉ added ∧
      d1._formatFeatures = GLES2Device.fresh._formatFeatures ∧
      d1._features = GLES2Device.fresh._features ∧
      d1._textureExclusive = GLES2Device.fresh._textureExclusive ∧
      d1._caps = GLES2Device.fresh._caps ∧
      d1._queue = none ∧ d1._queryPool = none ∧ d1._cmdBuff = none :=
  GLES2Device.doInit_context_failure { contextInitOk := false } GLES2Device.fresh rfl rfl rfl

/-! ## Creation of the queue, query pool and command buffer -/

/-- C7, as stated, fails: when creation of the default queue yields an empty handle,
`doInit` on a fresh device still returns true, with the queue handle empty and nothing
released. -/
theorem GLES2Device.doInit_unchecked_creation_counterexample :
    ∃ d1, GLES2Device.fresh.doInit { queueCreated := false } = .ok (true, d1) ∧
      d1._queue = none ∧ released d1.calls = [] := by
  refine ⟨_, rfl, ?_, ?_⟩ <;> decide

theorem GLES2Device.doInitFinish_calls (env : Backend) (st : InitState)
    (c : GLES2GPUStateCache) (b : GLES2GPUBlitManager) (r : GLES2GPUConstantRegistry)
    (hc : st.dev._gpuStateCache = some c) (hb : st.dev._gpuBlitManager = some b)
    (hr : st.dev._gpuConstantRegistry = some r) :
    ∃ d1, GLES2Device.doInitFinish env st = .ok d1 ∧
      released d1.calls = released st.dev.calls := by
  cases hq : env.queueCreated <;> cases hp : env.queryPoolCreated <;>
    cases hcb : env.cmdBuffCreated <;>
    simp [GLES2Device.doInitFinish, GLES2Device.noteConstructed, GLES2Device.holds,
      Device.createQueue, Device.createQueryPool, Device.createCommandBuffer,
      GLES2Device.log, hc, hb, hr, hq, hp, hcb, deref, bind, Except.bind, pure, Except.pure,
      released]

theorem Stmt.exec_released (env : Backend) (s : Stmt) (st st1 : InitState)
    (h : s.exec env st = .ok st1) : released st1.dev.calls = released st.dev.calls := by
  cases hr : st.dev._gpuConstantRegistry with
  | none =>
    cases s <;> simp only [Stmt.exec, InitState.withRegistry, hr, Except.ok.injEq] at h <;>
      first
      | (subst h; rfl)
      | cases h
  | some r =>
    cases s <;> simp only [Stmt.exec, InitState.withRegistry, hr, Except.ok.injEq,
      InitState.setRegistry, selectFBFLevel, selectMSRTLevel] at h
    all_goals first
      | (subst h; rfl)
      | skip
    · split at h
      · split at h
        · subst h; rfl
        · split at h
          · subst h; simp [GLES2Device.log, released]
          · subst h; rfl
      · split at h <;> (subst h; rfl)
    · split at h <;> (subst h; rfl)

theorem run_released (env : Backend) (l : List GStmt) :
    ∀ (st st1 : InitState), run env l st = .ok st1 →
      released st1.dev.calls = released st.dev.calls := by
  induction l with
  | nil =>
    intro st st1 h
    simp only [run, Except.ok.injEq] at h
    rw [h]
  | cons s rest ih =>
    intro st st1 h
    simp only [run, GStmt.exec] at h
    split at h
    · rename_i st2 h2
      rw [ih st2 st1 h]
      split at h2
      · exact Stmt.exec_released env s.stmt st st2 h2
      · simp only [Except.ok.injEq] at h2
        rw [h2]
    · cases h

/-- C7, amended: whenever the native context initialises, `doInit` returns true, whatever
the creation of the default queue, the query pool and the primary command buffer yields;
the three handles hold what the creations returned, empty or not, and nothing is released. -/
theorem GLES2Device.doInit_unchecked_creation (env : Backend) (d : GLES2Device)
    (hctx : env.contextInitOk = true) :
    ∃ d1, d.doInit env = .ok (true, d1) ∧
      d1._queue.isSome = env.queueCreated ∧
      d1._queryPool.isSome = env.queryPoolCreated ∧
      d1._cmdBuff.isSome = env.cmdBuffCreated ∧
      released d1.calls = released d.calls := by
  obtain ⟨st1, h1, _, ⟨r1, hr1⟩, hc1, hb1, _, _⟩ :=
    run_ok env doInitProgram
      (GLES2Device.doInitBegin env ((GLES2Device.doInitConstruct d).log .contextInit)) {} rfl
  obtain ⟨st2, d1, h2, h3, _, _, _, hq, hp, hcb⟩ := GLES2Device.doInit_run env d hctx
  rw [h1] at h2
  cases h2
  obtain ⟨d2, h4, hrel⟩ := GLES2Device.doInitFinish_calls env st1 {} {} r1 hc1 hb1 hr1
  have hd : d2 = d1 := by
    simp only [GLES2Device.doInit, hctx, deref, bind, Except.bind, pure, Except.pure,
      GLES2Device.doInitConstruct, GLES2Device.log, Bool.not_true, Bool.false_eq_true,
      if_false] at h1 h3
    rw [h1] at h3
    simp only [h4, Except.ok.injEq, Prod.mk.injEq, true_and] at h3
    exact h3
  subst hd
  refine ⟨d2, h3, ?_, ?_, ?_, ?_⟩
  · rw [hq]; cases env.queueCreated <;> rfl
  · rw [hp]; cases env.queryPoolCreated <;> rfl
  · rw [hcb]; cases env.cmdBuffCreated <;> rfl
  · rw [hrel, run_released env doInitProgram _ st1 h1]
    simp [GLES2Device.doInitBegin, GLES2Device.doInitConstruct, GLES2Device.log, released]

/-- C7, amended, at a fresh device and a backend where creation of the query pool fails. -/
theorem GLES2Device.doInit_unchecked_creation_witness :
    ∃ d1, GLES2Device.fresh.doInit { queryPoolCreated := false } = .ok (true, d1) ∧
      d1._queue.isSome = true ∧
      d1._queryPool.isSome = false ∧
      d1._cmdBuff.isSome = true ∧
      released d1.calls = released GLES2Device.fresh.calls :=
  GLES2Device.doInit_unchecked_creation { queryPoolCreated := false } GLES2Device.fresh rfl

/-! ## Teardown order -/

/-- C8, as stated, fails: after `doInit` on a fresh device, `doDestroy` does not release the
sub-objects in the reverse of the order of their construction: the state cache is released
before the command buffer, the query pool and the queue. -/
theorem GLES2Device.doDestroy_order_counterexample :
    ∃ d1 d2,
      GLES2Device.fresh.doInit {} = .ok (true, d1) ∧
      d1.doDestroy = .ok d2 ∧
      constructed d1.calls =
        [SubObject.gpuContext, SubObject.gpuStateCache, SubObject.gpuBlitManager,
         SubObject.gpuFramebufferHub, SubObject.gpuConstantRegistry,
         SubObject.gpuFramebufferCacheMap, SubObject.queue, SubObject.queryPool,
         SubObject.cmdBuff] ∧
      released d2.calls =
        [SubObject.gpuFramebufferCacheMap, SubObject.gpuConstantRegistry,
         SubObject.gpuFramebufferHub, SubObject.gpuBlitManager, SubObject.gpuStateCache,
         SubObject.cmdBuff, SubObject.queryPool, SubObject.queue, SubObject.gpuContext] ∧
      released d2.calls ≠ (constructed d1.calls).reverse := by
  refine ⟨_, _, rfl, rfl, ?_, ?_, ?_⟩ <;> decide

/-- C8, amended: on a device that holds all nine sub-objects and no buffer or texture
memory, `doDestroy` first calls `destroy` on the blit manager, then releases the framebuffer
cache map, the constant registry, the framebuffer hub, the blit manager and the state cache,
then the command buffer, the query pool and the queue, and the GPU context last; it leaves
all nine handles empty. -/
theorem GLES2Device.doDestroy_order (d : GLES2Device)
    (hall : ∀ o : SubObject, d.holds o = true)
    (hbuf : d._memoryStatus.bufferSize = 0) (htex : d._memoryStatus.textureSize = 0) :
    ∃ d1, d.doDestroy = .ok d1 ∧
      d1.calls = d.calls ++
        [Event.blitManagerDestroy,
         Event.delete SubObject.gpuFramebufferCacheMap,
         Event.delete SubObject.gpuConstantRegistry,
         Event.delete SubObject.gpuFramebufferHub,
         Event.delete SubObject.gpuBlitManager,
         Event.delete SubObject.gpuStateCache,
         Event.destroy SubObject.cmdBuff, Event.delete SubObject.cmdBuff,
         Event.destroy SubObject.queryPool, Event.delete SubObject.queryPool,
         Event.destroy SubObject.queue, Event.delete SubObject.queue,
         Event.destroy SubObject.gpuContext, Event.delete SubObject.gpuContext] ∧
      ∀ o : SubObject, d1.holds o = false := by
  have h1 := hall .gpuContext
  have h2 := hall .gpuStateCache
  have h3 := hall .gpuBlitManager
  have h4 := hall .gpuFramebufferHub
  have h5 := hall .gpuConstantRegistry
  have h6 := hall .gpuFramebufferCacheMap
  have h7 := hall .queue
  have h8 := hall .queryPool
  have h9 := hall .cmdBuff
  simp only [GLES2Device.holds, Option.isSome_iff_exists] at h1 h2 h3 h4 h5 h6 h7 h8 h9
  obtain ⟨a1, h1⟩ := h1
  obtain ⟨a2, h2⟩ := h2
  obtain ⟨a3, h3⟩ := h3
  obtain ⟨a4, h4⟩ := h4
  obtain ⟨a5, h5⟩ := h5
  obtain ⟨a6, h6⟩ := h6
  obtain ⟨a7, h7⟩ := h7
  obtain ⟨a8, h8⟩ := h8
  obtain ⟨a9, h9⟩ := h9
  simp only [GLES2Device.doDestroy, CC_SAFE_DELETE, CC_SAFE_DESTROY, CCASSERT,
    GLES2Device.holds, GLES2Device.clear, GLES2Device.log, deref, hbuf, htex,
    h1, h2, h3, h4, h5, h6, h7, h8, h9, bind, Except.bind, pure, Except.pure,
    Option.isSome_some, Option.isSome_none, if_true, beq_self_eq_true,
    List.append_assoc, List.cons_append, List.nil_append]
  refine ⟨_, rfl, rfl, ?_⟩
  intro o
  cases o <;> rfl

/-- C8, amended, at a device that holds all nine sub-objects. -/
theorem GLES2Device.doDestroy_order_witness :
    ∃ d1,
      GLES2Device.doDestroy
        { GLES2Device.fresh with
          _gpuContext := some {}, _gpuStateCache := some {}, _gpuBlitManager := some {},
          _gpuFramebufferHub := some {}, _gpuConstantRegistry := some {},
          _gpuFramebufferCacheMap := some {}, _queue := some {}, _queryPool := some {},
          _cmdBuff := some .GLES2PrimaryCommandBuffer } = .ok d1 ∧
      d1.calls = [] ++
        [Event.blitManagerDestroy,
         Event.delete SubObject.gpuFramebufferCacheMap,
         Event.delete SubObject.gpuConstantRegistry,
         Event.delete SubObject.gpuFramebufferHub,
         Event.delete SubObject.gpuBlitManager,
         Event.delete SubObject.gpuStateCache,
         Event.destroy SubObject.cmdBuff, Event.delete SubObject.cmdBuff,
         Event.destroy SubObject.queryPool, Event.delete SubObject.queryPool,
         Event.destroy SubObject.queue, Event.delete SubObject.queue,
         Event.destroy SubObject.gpuContext, Event.delete SubObject.gpuContext] ∧
      ∀ o : SubObject, d1.holds o = false :=
  GLES2Device.doDestroy_order
    { GLES2Device.fresh with
      _gpuContext := some {}, _gpuStateCache := some {}, _gpuBlitManager := some {},
      _gpuFramebufferHub := some {}, _gpuConstantRegistry := some {},
      _gpuFramebufferCacheMap := some {}, _queue := some {}, _queryPool := some {},
      _cmdBuff := some .GLES2PrimaryCommandBuffer }
    (fun o => by cases o <;> rfl) rfl rfl

/-! ## A second teardown -/

/-- C9 fails on the code: after `doInit` on a fresh device and a first `doDestroy`, which
leaves all nine handles empty, a second `doDestroy` dereferences the empty blit-manager
handle at line 362; so does `doDestroy` on a fresh device. -/
theorem GLES2Device.doDestroy_twice_faults :
    (∃ d1 d2,
      GLES2Device.fresh.doInit {} = .ok (true, d1) ∧
      d1.doDestroy = .ok d2 ∧
      (∀ o : SubObject, d2.holds o = false) ∧
      d2._memoryStatus.bufferSize = 0 ∧ d2._memoryStatus.textureSize = 0 ∧
      d2.doDestroy = .error Fault.nullDereference) ∧
    GLES2Device.fresh.doDestroy = .error Fault.nullDereference := by
  refine ⟨⟨_, _, rfl, rfl, ?_, rfl, rfl, rfl⟩, rfl⟩
  intro o
  cases o <;> rfl

/-! ## Frame presentation -/

theorem GLES2Device.presentSwapchains_ok (c : GLES2GPUContext) (l : List GLES2GPUSwapchain) :
    ∀ d : GLES2Device, d._gpuContext = some c →
      ∃ d1, GLES2Device.presentSwapchains l d = .ok d1 ∧
        d1._numDrawCalls = d._numDrawCalls ∧ d1._numInstances = d._numInstances ∧
        d1._numTriangles = d._numTriangles ∧ d1._gpuContext = d._gpuContext ∧
        d1._swapchains = d._swapchains ∧
        d1.calls = d.calls ++ l.map Event.contextPresent := by
  induction l with
  | nil => intro d _; exact ⟨d, rfl, rfl, rfl, rfl, rfl, rfl, by simp⟩
  | cons s rest ih =>
    intro d h
    obtain ⟨d1, h1, hd, hi, ht, hc, hs, hcalls⟩ := ih (d.log (.contextPresent s)) h
    refine ⟨d1, ?_, hd, hi, ht, hc, hs, ?_⟩
    · simp only [GLES2Device.presentSwapchains, h, deref, h1]
    · rw [hcalls]
      simp [GLES2Device.log]

theorem GLES2Device.present_ok (d : GLES2Device) (queue : GLES2Queue) (c : GLES2GPUContext)
    (hq : d._queue = some queue) (hc : d._gpuContext = some c) :
    ∃ d1, d.present = .ok d1 ∧
      d1._numDrawCalls = queue._numDrawCalls ∧
      d1._numInstances = queue._numInstances ∧
      d1._numTriangles = queue._numTriangles ∧
      d1._queue = some { queue with _numDrawCalls := 0, _numInstances := 0, _numTriangles := 0 } ∧
      d1._gpuContext = some c ∧
      d1.calls = d.calls ++ d._swapchains.map Event.contextPresent := by
  obtain ⟨e1, h1, hd1, hi1, ht1, hc1, _, hcalls1⟩ :=
    GLES2Device.presentSwapchains_ok c d._swapchains
      { d with _numDrawCalls := queue._numDrawCalls
               _numInstances := queue._numInstances
               _numTriangles := queue._numTriangles } hc
  refine ⟨{ e1 with _queue := some { queue with _numDrawCalls := 0
                                                _numInstances := 0
                                                _numTriangles := 0 } },
    ?_, hd1, hi1, ht1, rfl, hc1.trans hc, hcalls1⟩
  simp only [hq] at h1
  simp only [GLES2Device.present, hq, deref, bind, Except.bind, pure, Except.pure, h1]

/-- C10: on a device whose default queue and GPU context are live, `present` returns with
the draw-call, instance and triangle statistics of the device equal to the three counters
the queue held before the call, with the three counters of the queue at zero, and with one
backend present call per active swapchain in order; a second `present` right after it
leaves the device reporting zero draw calls, instances and triangles. -/
theorem GLES2Device.present_flushes_counters (d : GLES2Device) (queue : GLES2Queue)
    (c : GLES2GPUContext) (hq : d._queue = some queue) (hc : d._gpuContext = some c) :
    ∃ d1 d2,
      d.present = .ok d1 ∧
      d1._numDrawCalls = queue._numDrawCalls ∧
      d1._numInstances = queue._numInstances ∧
      d1._numTriangles = queue._numTriangles ∧
      d1._queue = some { queue with _numDrawCalls := 0, _numInstances := 0, _numTriangles := 0 } ∧
      d1.calls = d.calls ++ d._swapchains.map Event.contextPresent ∧
      d1.present = .ok d2 ∧
      d2._numDrawCalls = 0 ∧ d2._numInstances = 0 ∧ d2._numTriangles = 0 := by
  obtain ⟨d1, h1, hd1, hi1, ht1, hq1, hc1, hcalls1⟩ := GLES2Device.present_ok d queue c hq hc
  obtain ⟨d2, h2, hd2, hi2, ht2, _, _, _⟩ := GLES2Device.present_ok d1 _ c hq1 hc1
  exact ⟨d1, d2, h1, hd1, hi1, ht1, hq1, hcalls1, h2, hd2, hi2, ht2⟩

/-- C10, at a device whose queue has counted 5 draw calls, 7 instances and 11 triangles,
with two active swapchains. -/
theorem GLES2Device.present_flushes_counters_witness :
    ∃ d1 d2,
      GLES2Device.present
        { GLES2Device.fresh with
          _gpuContext := some {}
          _queue := some { _numDrawCalls := 5, _numInstances := 7, _numTriangles := 11 }
          _swapchains := [1, 2] } = .ok d1 ∧
      d1._numDrawCalls = 5 ∧
      d1._numInstances = 7 ∧
      d1._numTriangles = 11 ∧
      d1._queue = some { _numDrawCalls := 0, _numInstances := 0, _numTriangles := 0 } ∧
      d1.calls = [] ++ [1, 2].map Event.contextPresent ∧
      d1.present = .ok d2 ∧
      d2._numDrawCalls = 0 ∧ d2._numInstances = 0 ∧ d2._numTriangles = 0 :=
  GLES2Device.present_flushes_counters
    { GLES2Device.fresh with
      _gpuContext := some {}
      _queue := some { _numDrawCalls := 5, _numInstances := 7, _numTriangles := 11 }
      _swapchains := [1, 2] }
    { _numDrawCalls := 5, _numInstances := 7, _numTriangles := 11 } {} rfl rfl

/-! ## Acquiring swapchains -/

theorem GLES2Device.acquireFrom_ok (scs : List GLES2Swapchain) :
    ∀ (before : List (Option GLES2Swapchain)) (after : List (Option GLES2Swapchain))
      (d : GLES2Device),
      GLES2Device.acquireFrom (before ++ scs.map some ++ after) before.length scs.length d =
        .ok { d with _swapchains := d._swapchains ++ scs.map GLES2Swapchain.gpuSwapchain } := by
  induction scs with
  | nil =>
    intro before after d
    simp [GLES2Device.acquireFrom]
  | cons sc rest ih =>
    intro before after d
    have hget : (before ++ (sc :: rest).map some ++ after)[before.length]? = some (some sc) := by
      rw [List.append_assoc, List.getElem?_append_right (Nat.le_refl _)]
      simp
    have hshift : before ++ (sc :: rest).map some ++ after =
        (before ++ [some sc]) ++ rest.map some ++ after := by
      simp
    simp only [List.length_cons, GLES2Device.acquireFrom, hget]
    rw [hshift]
    have hlen : before.length + 1 = (before ++ [some sc]).length := by simp
    rw [hlen, ih (before ++ [some sc]) after]
    simp

/-- C11: for every previous list of active swapchains and every input array whose first
`count` entries are the swapchains `scs`, `acquire` returns with the active swapchain list
equal to the GPU swapchains of `scs` in input order (empty when `count` is 0, nothing of
the previous list remains), and the call log grows by exactly one execution of the
pre-acquire hook when a hook is installed and by nothing otherwise. -/
theorem GLES2Device.acquire_replaces_swapchains (d : GLES2Device)
    (scs : List GLES2Swapchain) (after : List (Option GLES2Swapchain)) :
    ∃ d1, d.acquire (scs.map some ++ after) scs.length = .ok d1 ∧
      d1._swapchains = scs.map GLES2Swapchain.gpuSwapchain ∧
      d1.calls = d.calls ++ (if d._onAcquire.isSome then [Event.onAcquireExecute] else []) ∧
      (GLES2Device.acquire after 0 d).toOption.map (fun r => r._swapchains) = some [] := by
  have h := GLES2Device.acquireFrom_ok scs [] after
    { (if d._onAcquire.isSome then d.log .onAcquireExecute else d) with _swapchains := [] }
  simp only [List.nil_append, List.length_nil] at h
  have h1 : d.acquire (scs.map some ++ after) scs.length = .ok _ := h
  refine ⟨_, h1, rfl, ?_, ?_⟩
  · cases d._onAcquire <;> simp [GLES2Device.log]
  · simp [GLES2Device.acquire, GLES2Device.acquireFrom, Except.toOption]

/-! ## Command-buffer creation -/

/-- C12: for every `CommandBufferInfo` and every `hasAgent` flag, `createCommandBuffer`
returns a primary command buffer exactly when `hasAgent` is true or `info.type` is
`PRIMARY`, and a secondary command buffer in every other case. -/
theorem GLES2Device.createCommandBuffer_policy (info : CommandBufferInfo) (hasAgent : Bool) :
    (GLES2Device.createCommandBuffer info hasAgent = CommandBuffer.GLES2PrimaryCommandBuffer ↔
      (hasAgent = true ∨ info.type = CommandBufferType.PRIMARY)) ∧
    (GLES2Device.createCommandBuffer info hasAgent = CommandBuffer.GLES2CommandBuffer ↔
      ¬ (hasAgent = true ∨ info.type = CommandBufferType.PRIMARY)) := by
  unfold GLES2Device.createCommandBuffer
  by_cases h : hasAgent = true ∨ info.type = CommandBufferType.PRIMARY
  · have hc : (hasAgent || decide (info.type = CommandBufferType.PRIMARY)) = true := by
      simpa using h
    simp [hc, h]
  · have hc : (hasAgent || decide (info.type = CommandBufferType.PRIMARY)) = false := by
      simpa using h
    simp [hc, h]

/-! ## The exclusivity flags after initialisation -/

theorem clearedBy_filter (w : Bool) (exts : List String) (f : Format) (l : List GStmt) :
    clearedBy w exts l f = clearedBy w exts (l.filter fun s => s.stmt.isSetExclusive) f := by
  induction l with
  | nil => rfl
  | cons s rest ih =>
    simp only [clearedBy] at ih
    by_cases his : s.stmt.isSetExclusive = true
    · have hf : ((s :: rest).filter fun s => s.stmt.isSetExclusive) =
          s :: rest.filter fun s => s.stmt.isSetExclusive := by
        simp only [List.filter_cons, his, if_true]
      rw [hf]
      simp only [clearedBy, List.any_cons]
      rw [ih]
    · have hf : ((s :: rest).filter fun s => s.stmt.isSetExclusive) =
          rest.filter fun s => s.stmt.isSetExclusive := by
        simp only [List.filter_cons, his, Bool.false_eq_true, if_false]
      rw [hf]
      simp only [clearedBy, List.any_cons]
      rw [← ih]
      cases hst : s.stmt <;> simp [hst, Stmt.isSetExclusive] at his ⊢

theorem doInitProgram_exclusive_statements :
    (doInitProgram.filter fun s => s.stmt.isSetExclusive) =
      [ always (.setTextureExclusive .R5G6B5 false),
        always (.setTextureExclusive .RGBA4 false),
        always (.setTextureExclusive .RGB5A1 false),
        always (.setTextureExclusive .DEPTH false),
        always (.setTextureExclusive .DEPTH_STENCIL false),
        whenExts ["EXT_sRGB"] (.setTextureExclusive .SRGB8_A8 false),
        whenExts ["color_buffer_half_float"] (.setTextureExclusive .RGB16F false),
        whenExts ["color_buffer_half_float"] (.setTextureExclusive .RGBA16F false),
        whenExts ["color_buffer_half_float", "texture_rg"] (.setTextureExclusive .R16F false),
        whenExts ["color_buffer_half_float", "texture_rg"]
          (.setTextureExclusive .RG16F false) ] := by
  decide

/-- C13: after a successful `doInit` (from any device state, for every extension list), the
exclusivity flag of a format is false exactly when the format is R5G6B5, RGBA4, RGB5A1,
DEPTH or DEPTH_STENCIL, or is SRGB8_A8 and the `EXT_sRGB` probe succeeded, or is RGB16F or
RGBA16F and the `color_buffer_half_float` probe succeeded, or is R16F or RG16F and both the
`color_buffer_half_float` and `texture_rg` probes succeeded; for every other format, RGBA8
and RGB8 among them, the flag is true. -/
theorem GLES2Device.doInit_exclusive_flags (env : Backend) (d : GLES2Device)
    (hctx : env.contextInitOk = true) :
    ∃ d1, d.doInit env = .ok (true, d1) ∧
      (∀ f, d1._textureExclusive f = false ↔
        (f = Format.R5G6B5 ∨ f = Format.RGBA4 ∨ f = Format.RGB5A1 ∨ f = Format.DEPTH ∨
          f = Format.DEPTH_STENCIL ∨
          (f = Format.SRGB8_A8 ∧ checkExtension env.extensions "EXT_sRGB" = true) ∨
          ((f = Format.RGB16F ∨ f = Format.RGBA16F) ∧
            checkExtension env.extensions "color_buffer_half_float" = true) ∨
          ((f = Format.R16F ∨ f = Format.RG16F) ∧
            checkExtension env.extensions "color_buffer_half_float" = true ∧
            checkExtension env.extensions "texture_rg" = true))) ∧
      d1._textureExclusive Format.RGBA8 = true ∧ d1._textureExclusive Format.RGB8 = true := by
  obtain ⟨d1, hd1, _, he1, _⟩ := GLES2Device.doInit_ok env d hctx
  have hflag : ∀ f, d1._textureExclusive f =
      !clearedBy env.windows env.extensions
        (doInitProgram.filter fun s => s.stmt.isSetExclusive) f := by
    intro f
    rw [he1, exclusiveRun_eq_clearedBy _ _ _ _ doInitProgram_onlyClears, clearedBy_filter]
    rfl
  refine ⟨d1, hd1, ?_, ?_, ?_⟩
  · intro f
    rw [hflag f, doInitProgram_exclusive_statements]
    simp only [clearedBy, List.any_cons, List.any_nil, GStmt.enabled, always, whenExts,
      List.map_cons, List.map_nil, List.all_cons, List.all_nil, Guard.holds, Bool.and_true,
      Bool.true_and, Bool.or_false, Bool.not_eq_false', Bool.or_eq_true, Bool.and_eq_true,
      decide_eq_true_eq]
    constructor
    · rintro (h | h | h | h | h | ⟨h1, h⟩ | ⟨h1, h⟩ | ⟨h1, h⟩ | ⟨⟨h1, h2⟩, h⟩ | ⟨⟨h1, h2⟩, h⟩) <;>
        subst h <;> simp [*]
    · rintro (h | h | h | h | h | ⟨h, h1⟩ | ⟨h | h, h1⟩ | ⟨h | h, h1, h2⟩) <;>
        subst h <;> simp [*]
  · rw [hflag, doInitProgram_exclusive_statements]
    simp [clearedBy, always, whenExts]
  · rw [hflag, doInitProgram_exclusive_statements]
    simp [clearedBy, always, whenExts]

/-- C13, at a backend with `color_buffer_half_float` but without `texture_rg`. -/
theorem GLES2Device.doInit_exclusive_flags_witness :
    ∃ d1, GLES2Device.fresh.doInit { extensions := ["GL_EXT_color_buffer_half_float"] } =
        .ok (true, d1) ∧
      (∀ f, d1._textureExclusive f = false ↔
        (f = Format.R5G6B5 ∨ f = Format.RGBA4 ∨ f = Format.RGB5A1 ∨ f = Format.DEPTH ∨
          f = Format.DEPTH_STENCIL ∨
          (f = Format.SRGB8_A8 ∧
            checkExtension ["GL_EXT_color_buffer_half_float"] "EXT_sRGB" = true) ∨
          ((f = Format.RGB16F ∨ f = Format.RGBA16F) ∧
            checkExtension ["GL_EXT_color_buffer_half_float"] "color_buffer_half_float" =
              true) ∨
          ((f = Format.R16F ∨ f = Format.RG16F) ∧
            checkExtension ["GL_EXT_color_buffer_half_float"] "color_buffer_half_float" =
              true ∧
            checkExtension ["GL_EXT_color_buffer_half_float"] "texture_rg" = true))) ∧
      d1._textureExclusive Format.RGBA8 = true ∧ d1._textureExclusive Format.RGB8 = true :=
  GLES2Device.doInit_exclusive_flags { extensions := ["GL_EXT_color_buffer_half_float"] }
    GLES2Device.fresh rfl

/-! ## Dependent formats and their prerequisites -/

theorem FormatFeature.lor_eq_zero {a b : FormatFeature} (h : a ||| b = 0) : a = 0 ∧ b = 0 := by
  constructor
  · apply Nat.eq_of_testBit_eq
    intro i
    have := congrArg (fun n => Nat.testBit n i) h
    simp only [Nat.testBit_or, Nat.zero_testBit, Bool.or_eq_false_iff] at this
    rw [this.1, Nat.zero_testBit]
  · apply Nat.eq_of_testBit_eq
    intro i
    have := congrArg (fun n => Nat.testBit n i) h
    simp only [Nat.testBit_or, Nat.zero_testBit, Bool.or_eq_false_iff] at this
    rw [this.2, Nat.zero_testBit]

theorem FormatFeature.subset_antisymm {a b : FormatFeature}
    (h1 : FormatFeature.subset a b) (h2 : FormatFeature.subset b a) : a = b := by
  unfold FormatFeature.subset at h1 h2
  rw [← h1, Nat.and_comm]
  exact h2

theorem FormatFeature.or_subset {a b c : FormatFeature}
    (h1 : FormatFeature.subset a c) (h2 : FormatFeature.subset b c) :
    FormatFeature.subset (a ||| b) c := by
  have h := FormatFeature.subset_or_or h1 h2
  rwa [Nat.or_self] at h

theorem gathered_bit_source (w : Bool) (exts : List String) (f : Format) (m : FormatFeature)
    (l : List GStmt) (h : gathered w exts l f &&& m ≠ 0) :
    ∃ s ∈ l, s.enabled w exts = true ∧ s.stmt.bitsFor f &&& m ≠ 0 := by
  induction l with
  | nil => simp [gathered] at h
  | cons s rest ih =>
    simp only [gathered] at h
    rw [Nat.and_comm, Nat.and_or_distrib_left] at h
    by_cases hs : m &&& (if s.enabled w exts = true then s.stmt.bitsFor f else 0) = 0
    · have hrest : gathered w exts rest f &&& m ≠ 0 := by
        intro h0
        apply h
        rw [hs, Nat.and_comm, h0]
        rfl
      obtain ⟨p, hp, hen, hb⟩ := ih hrest
      exact ⟨p, List.mem_cons_of_mem _ hp, hen, hb⟩
    · rcases Bool.eq_false_or_eq_true (s.enabled w exts) with hen | hen
      · rw [hen, if_pos rfl, Nat.and_comm] at hs
        exact ⟨s, List.mem_cons_self _ _, hen, hs⟩
      · rw [hen] at hs
        simp at hs

theorem gathered_subset (w : Bool) (exts : List String) (f : Format) (c : FormatFeature)
    (l : List GStmt) (h : ∀ s ∈ l, FormatFeature.subset (s.stmt.bitsFor f) c) :
    FormatFeature.subset (gathered w exts l f) c := by
  induction l with
  | nil => exact FormatFeature.zero_subset c
  | cons s rest ih =>
    simp only [gathered]
    apply FormatFeature.or_subset
    · split
      · exact h s (List.mem_cons_self _ _)
      · exact FormatFeature.zero_subset c
    · exact ih (fun p hp => h p (List.mem_cons_of_mem _ hp))

theorem subset_gathered (w : Bool) (exts : List String) (f : Format) (l : List GStmt)
    (s : GStmt) (hs : s ∈ l) (hen : s.enabled w exts = true) :
    FormatFeature.subset (s.stmt.bitsFor f) (gathered w exts l f) := by
  induction l with
  | nil => cases hs
  | cons p rest ih =>
    simp only [gathered]
    rcases List.mem_cons.mp hs with rfl | hmem
    · rw [hen, if_pos rfl]
      exact FormatFeature.subset_or_right _ _
    · have h := ih hmem
      rw [Nat.lor_comm]
      rw [FormatFeature.subset_iff] at h ⊢
      intro i hi
      rw [Nat.testBit_or, h i hi]
      rfl

theorem GStmt.probe_of_enabled (w : Bool) (exts : List String) (s : GStmt) (name : String)
    (hg : Guard.ext name ∈ s.guards) (hen : s.enabled w exts = true) :
    checkExtension exts name = true := by
  simp only [GStmt.enabled, List.all_eq_true] at hen
  exact hen _ hg

set_option maxRecDepth 100000 in
theorem doInitProgram_astc_srgba_guards :
    ∀ p ∈ astcVariants, ∀ s ∈ doInitProgram, s.stmt.bitsFor p.1 ≠ 0 →
      Guard.ext "texture_compression_astc" ∈ s.guards ∧ Guard.ext "EXT_sRGB" ∈ s.guards := by
  decide

set_option maxRecDepth 100000 in
theorem doInitProgram_astc_rgba_bits :
    ∀ p ∈ astcVariants,
      whenExts ["texture_compression_astc"] (.orFormatFeature p.2 completeFeature) ∈
        doInitProgram ∧
      ∀ s ∈ doInitProgram, FormatFeature.subset (s.stmt.bitsFor p.2) completeFeature := by
  decide

set_option maxRecDepth 100000 in
theorem doInitProgram_narrow_float_guards :
    ∀ f ∈ narrowFloatFormats, ∀ s ∈ doInitProgram,
      s.stmt.bitsFor f &&& completeFeature ≠ 0 → Guard.ext "texture_rg" ∈ s.guards := by
  decide

set_option maxRecDepth 100000 in
theorem doInitProgram_rg_bits :
    ∀ f ∈ [Format.R8, Format.RG8],
      whenExts ["texture_rg"] (.orFormatFeature f completeFeature) ∈ doInitProgram ∧
      ∀ s ∈ doInitProgram, FormatFeature.subset (s.stmt.bitsFor f) completeFeature := by
  decide

theorem gathered_complete (w : Bool) (exts : List String) (f : Format) (name : String)
    (hmem : whenExts [name] (.orFormatFeature f completeFeature) ∈ doInitProgram)
    (hall : ∀ s ∈ doInitProgram, FormatFeature.subset (s.stmt.bitsFor f) completeFeature)
    (hprobe : checkExtension exts name = true) :
    gathered w exts doInitProgram f = completeFeature := by
  apply FormatFeature.subset_antisymm (gathered_subset w exts f _ _ hall)
  have hen : (whenExts [name] (.orFormatFeature f completeFeature)).enabled w exts = true := by
    simp [GStmt.enabled, whenExts, Guard.holds, hprobe]
  have h := subset_gathered w exts f doInitProgram _ hmem hen
  simpa [whenExts, Stmt.bitsFor] using h

/-- C14: after `doInit` on a fresh device, for every extension list, each `ASTC_SRGBA_*`
format has a non-empty mask only if the `texture_compression_astc` and `EXT_sRGB` probes
both succeeded, and then the `ASTC_RGBA_*` format of the same block size has the complete
mask; each of R16F, RG16F, R32F and RG32F has `RENDER_TARGET`, `SAMPLED_TEXTURE` or
`LINEAR_FILTER` only if the `texture_rg` probe succeeded, and then R8 and RG8 have the
complete mask. -/
theorem GLES2Device.doInit_dependent_formats (env : Backend)
    (hctx : env.contextInitOk = true) :
    ∃ d1, GLES2Device.fresh.doInit env = .ok (true, d1) ∧
      (∀ p ∈ astcVariants, d1._formatFeatures p.1 ≠ FormatFeature.NONE →
        checkExtension env.extensions "texture_compression_astc" = true ∧
        checkExtension env.extensions "EXT_sRGB" = true ∧
        d1._formatFeatures p.2 =
          FormatFeature.RENDER_TARGET ||| FormatFeature.SAMPLED_TEXTURE |||
            FormatFeature.LINEAR_FILTER) ∧
      (∀ f ∈ narrowFloatFormats,
        d1._formatFeatures f &&&
          (FormatFeature.RENDER_TARGET ||| FormatFeature.SAMPLED_TEXTURE |||
            FormatFeature.LINEAR_FILTER) ≠ 0 →
        checkExtension env.extensions "texture_rg" = true ∧
        d1._formatFeatures Format.R8 =
          FormatFeature.RENDER_TARGET ||| FormatFeature.SAMPLED_TEXTURE |||
            FormatFeature.LINEAR_FILTER ∧
        d1._formatFeatures Format.RG8 =
          FormatFeature.RENDER_TARGET ||| FormatFeature.SAMPLED_TEXTURE |||
            FormatFeature.LINEAR_FILTER) := by
  obtain ⟨d1, hd1, ht1, _⟩ := GLES2Device.doInit_ok env GLES2Device.fresh hctx
  have hmask : ∀ f, d1._formatFeatures f =
      gathered env.windows env.extensions doInitProgram f := by
    intro f
    rw [ht1, tableRun_eq_gathered _ _ doInitProgram [] GLES2Device.fresh._formatFeatures
      doInitProgram_assignsFirst (fun _ _ => rfl) f]
    exact Nat.zero_or _
  refine ⟨d1, hd1, ?_, ?_⟩
  · intro p hp hne
    rw [hmask p.1] at hne
    have hne1 : gathered env.windows env.extensions doInitProgram p.1 &&&
        gathered env.windows env.extensions doInitProgram p.1 ≠ 0 := by
      rw [Nat.and_self]; exact hne
    obtain ⟨s, hs, hen, hb⟩ := gathered_bit_source _ _ _ _ _ hne1
    have hb0 : s.stmt.bitsFor p.1 ≠ 0 := by
      intro h0
      apply hb
      rw [h0, Nat.zero_and]
    obtain ⟨hg1, hg2⟩ := doInitProgram_astc_srgba_guards p hp s hs hb0
    have hastc := GStmt.probe_of_enabled _ _ s _ hg1 hen
    refine ⟨hastc, GStmt.probe_of_enabled _ _ s _ hg2 hen, ?_⟩
    rw [hmask p.2]
    exact gathered_complete _ _ _ _ (doInitProgram_astc_rgba_bits p hp).1
      (doInitProgram_astc_rgba_bits p hp).2 hastc
  · intro f hf hne
    rw [hmask f] at hne
    obtain ⟨s, hs, hen, hb⟩ := gathered_bit_source _ _ _ _ _ hne
    have hrg := GStmt.probe_of_enabled _ _ s _
      (doInitProgram_narrow_float_guards f hf s hs hb) hen
    refine ⟨hrg, ?_, ?_⟩
    · rw [hmask]
      exact gathered_complete _ _ _ _
        (doInitProgram_rg_bits Format.R8 (by decide)).1
        (doInitProgram_rg_bits Format.R8 (by decide)).2 hrg
    · rw [hmask]
      exact gathered_complete _ _ _ _
        (doInitProgram_rg_bits Format.RG8 (by decide)).1
        (doInitProgram_rg_bits Format.RG8 (by decide)).2 hrg

/-- C14, at a backend with ASTC, sRGB, float textures and `texture_rg`. -/
theorem GLES2Device.doInit_dependent_formats_witness :
    ∃ d1, GLES2Device.fresh.doInit
        { extensions := ["GL_KHR_texture_compression_astc_ldr", "GL_EXT_sRGB",
                         "GL_OES_texture_float", "GL_EXT_texture_rg"] } = .ok (true, d1) ∧
      (∀ p ∈ astcVariants, d1._formatFeatures p.1 ≠ FormatFeature.NONE →
        checkExtension ["GL_KHR_texture_compression_astc_ldr", "GL_EXT_sRGB",
          "GL_OES_texture_float", "GL_EXT_texture_rg"] "texture_compression_astc" = true ∧
        checkExtension ["GL_KHR_texture_compression_astc_ldr", "GL_EXT_sRGB",
          "GL_OES_texture_float", "GL_EXT_texture_rg"] "EXT_sRGB" = true ∧
        d1._formatFeatures p.2 =
          FormatFeature.RENDER_TARGET ||| FormatFeature.SAMPLED_TEXTURE |||
            FormatFeature.LINEAR_FILTER) ∧
      (∀ f ∈ narrowFloatFormats,
        d1._formatFeatures f &&&
          (FormatFeature.RENDER_TARGET ||| FormatFeature.SAMPLED_TEXTURE |||
            FormatFeature.LINEAR_FILTER) ≠ 0 →
        checkExtension ["GL_KHR_texture_compression_astc_ldr", "GL_EXT_sRGB",
          "GL_OES_texture_float", "GL_EXT_texture_rg"] "texture_rg" = true ∧
        d1._formatFeatures Format.R8 =
          FormatFeature.RENDER_TARGET ||| FormatFeature.SAMPLED_TEXTURE |||
            FormatFeature.LINEAR_FILTER ∧
        d1._formatFeatures Format.RG8 =
          FormatFeature.RENDER_TARGET ||| FormatFeature.SAMPLED_TEXTURE |||
            FormatFeature.LINEAR_FILTER) :=
  GLES2Device.doInit_dependent_formats
    { extensions := ["GL_KHR_texture_compression_astc_ldr", "GL_EXT_sRGB",
                     "GL_OES_texture_float", "GL_EXT_texture_rg"] } rfl

/-! ## The framebuffer-fetch level -/

theorem run_append (env : Backend) (l1 l2 : List GStmt) :
    ∀ st, run env (l1 ++ l2) st =
      match run env l1 st with
      | .ok st1 => run env l2 st1
      | .error e => .error e := by
  induction l1 with
  | nil => intro st; rfl
  | cons s rest ih =>
    intro st
    simp only [List.cons_append, run]
    cases s.exec env st with
    | ok st1 => exact ih st1
    | error e => rfl

theorem Stmt.exec_keeps_fbf (env : Backend) (s : Stmt) (st st1 : InitState)
    (hs : s.writesFBF = false) (h : s.exec env st = .ok st1) :
    st1.dev._gpuConstantRegistry.map (fun r => r.mFBF) =
        st.dev._gpuConstantRegistry.map (fun r => r.mFBF) ∧
      st1.dev._features Feature.INPUT_ATTACHMENT_BENEFIT =
        st.dev._features Feature.INPUT_ATTACHMENT_BENEFIT ∧
      st1.dev._extensions = st.dev._extensions := by
  cases s with
  | assignFormatFeature f m =>
    simp only [Stmt.exec, Except.ok.injEq] at h
    subst h
    exact ⟨rfl, rfl, rfl⟩
  | orFormatFeature f m =>
    simp only [Stmt.exec, Except.ok.injEq] at h
    subst h
    exact ⟨rfl, rfl, rfl⟩
  | setTextureExclusive f b =>
    simp only [Stmt.exec, Except.ok.injEq] at h
    subst h
    exact ⟨rfl, rfl, rfl⟩
  | setFeature ft b =>
    simp only [Stmt.writesFBF, decide_eq_false_iff_not] at hs
    simp only [Stmt.exec, Except.ok.injEq] at h
    subst h
    exact ⟨rfl, Function.update_noteq (Ne.symm hs) _ _, rfl⟩
  | getMaxColorRenderTargets =>
    simp only [Stmt.exec, Except.ok.injEq] at h
    subst h
    exact ⟨rfl, rfl, rfl⟩
  | appendCompressedFmts c =>
    simp only [Stmt.exec, Except.ok.injEq] at h
    subst h
    exact ⟨rfl, rfl, rfl⟩
  | selectFBF => cases hs
  | setInputAttachmentBenefit => cases hs
  | probeUseVAO =>
    simp only [Stmt.exec, InitState.withRegistry] at h
    split at h
    · cases h
    · rename_i r hr
      simp only [Except.ok.injEq] at h
      subst h
      exact ⟨by simp [InitState.setRegistry, hr], rfl, rfl⟩
  | probeUseDrawInstanced =>
    simp only [Stmt.exec, InitState.withRegistry] at h
    split at h
    · cases h
    · rename_i r hr
      simp only [Except.ok.injEq] at h
      subst h
      exact ⟨by simp [InitState.setRegistry, hr], rfl, rfl⟩
  | probeUseInstancedArrays =>
    simp only [Stmt.exec, InitState.withRegistry] at h
    split at h
    · cases h
    · rename_i r hr
      simp only [Except.ok.injEq] at h
      subst h
      exact ⟨by simp [InitState.setRegistry, hr], rfl, rfl⟩
  | probeUseDiscardFramebuffer =>
    simp only [Stmt.exec, InitState.withRegistry] at h
    split at h
    · cases h
    · rename_i r hr
      simp only [Except.ok.injEq] at h
      subst h
      exact ⟨by simp [InitState.setRegistry, hr], rfl, rfl⟩
  | copyInstancedArrays =>
    simp only [Stmt.exec, InitState.withRegistry] at h
    split at h
    · cases h
    · rename_i r hr
      simp only [Except.ok.injEq] at h
      subst h
      exact ⟨rfl, by simp [Function.update_apply], rfl⟩
  | selectMSRT =>
    simp only [Stmt.exec, InitState.withRegistry] at h
    split at h
    · cases h
    · rename_i r hr
      simp only [Except.ok.injEq, selectMSRTLevel] at h
      split at h <;> subst h <;> exact ⟨by simp [InitState.setRegistry, hr], rfl, rfl⟩

theorem run_keeps_fbf (env : Backend) (l : List GStmt) :
    ∀ (st st1 : InitState), (∀ s ∈ l, s.stmt.writesFBF = false) → run env l st = .ok st1 →
      st1.dev._gpuConstantRegistry.map (fun r => r.mFBF) =
          st.dev._gpuConstantRegistry.map (fun r => r.mFBF) ∧
        st1.dev._features Feature.INPUT_ATTACHMENT_BENEFIT =
          st.dev._features Feature.INPUT_ATTACHMENT_BENEFIT ∧
        st1.dev._extensions = st.dev._extensions := by
  induction l with
  | nil =>
    intro st st1 _ h
    simp only [run, Except.ok.injEq] at h
    subst h
    exact ⟨rfl, rfl, rfl⟩
  | cons s rest ih =>
    intro st st1 hall h
    simp only [run, GStmt.exec] at h
    split at h
    · rename_i st2 h2
      obtain ⟨a, b, c⟩ := ih st2 st1 (fun p hp => hall p (List.mem_cons_of_mem _ hp)) h
      split at h2
      · obtain ⟨a2, b2, c2⟩ :=
          Stmt.exec_keeps_fbf env s.stmt st st2 (hall s (List.mem_cons_self _ _)) h2
        exact ⟨a.trans a2, b.trans b2, c.trans c2⟩
      · simp only [Except.ok.injEq] at h2
        subst h2
        exact ⟨a, b, c⟩
    · cases h

theorem doInitProgram_split :
    doInitProgram = beforeFramebufferFetch ++ (blockFramebufferFetch ++ afterFramebufferFetch) := by
  simp only [doInitProgram, beforeFramebufferFetch, afterFramebufferFetch, List.append_assoc]

set_option maxRecDepth 100000 in
theorem beforeFramebufferFetch_keeps :
    ∀ s ∈ beforeFramebufferFetch, s.stmt.writesFBF = false := by
  decide

set_option maxRecDepth 100000 in
theorem afterFramebufferFetch_keeps :
    ∀ s ∈ afterFramebufferFetch, s.stmt.writesFBF = false := by
  decide

theorem containsChars_of_append (a b : List Char) :
    ∀ hay : List Char, containsChars hay (a ++ b) = true → containsChars hay a = true := by
  intro hay
  induction hay with
  | nil =>
    intro h
    simp only [containsChars, List.isEmpty_iff, List.append_eq_nil] at h ⊢
    exact h.1
  | cons c cs ih =>
    intro h
    simp only [containsChars, Bool.or_eq_true] at h ⊢
    rcases h with h | h
    · left
      rw [List.isPrefixOf_iff_prefix] at h ⊢
      exact (List.prefix_append a b).trans h
    · right
      exact ih h

theorem checkExtension_of_find (exts : List String) (it : String)
    (h : exts.find? (fun ext => hasSubstring ext "framebuffer_fetch_non") = some it) :
    checkExtension exts "framebuffer_fetch" = true := by
  have hp := List.find?_some h
  have hm := List.mem_of_find?_eq_some h
  simp only [checkExtension, List.any_eq_true]
  refine ⟨it, hm, ?_⟩
  have hp1 : containsChars it.data ("framebuffer_fetch".data ++ "_non".data) = true := hp
  exact containsChars_of_append "framebuffer_fetch".data "_non".data it.data hp1

theorem GLES2Device.doInitFinish_registry (env : Backend) (st : InitState)
    (c : GLES2GPUStateCache) (b : GLES2GPUBlitManager) (r : GLES2GPUConstantRegistry)
    (hc : st.dev._gpuStateCache = some c) (hb : st.dev._gpuBlitManager = some b)
    (hr : st.dev._gpuConstantRegistry = some r) :
    ∃ d1, GLES2Device.doInitFinish env st = .ok d1 ∧
      d1._gpuConstantRegistry = some r ∧ d1._features = st.dev._features := by
  simp only [GLES2Device.doInitFinish, GLES2Device.noteConstructed_fields, GLES2Device.log,
    hc, hb, hr, deref, bind, Except.bind, pure, Except.pure]
  exact ⟨_, rfl, rfl, rfl⟩

theorem run_blockFramebufferFetch (env : Backend) (st : InitState)
    (r : GLES2GPUConstantRegistry) (hnw : env.windows = false)
    (hr : st.dev._gpuConstantRegistry = some r) (hnone : r.mFBF = FBFSupportLevel.NONE)
    (hiab : st.dev._features Feature.INPUT_ATTACHMENT_BENEFIT = false) :
    ∃ st1 r1, run env blockFramebufferFetch st = .ok st1 ∧
      st1.dev._gpuConstantRegistry = some r1 ∧
      st1.dev._extensions = st.dev._extensions ∧
      r1.mFBF =
        (if checkExtension st.dev._extensions "framebuffer_fetch" = true then
          match st.dev._extensions.find?
              (fun ext => hasSubstring ext "framebuffer_fetch_non") with
          | some it =>
            if it = GL_EXT_shader_framebuffer_fetch_non_coherent then
              FBFSupportLevel.NON_COHERENT_EXT
            else if it = GL_QCOM_shader_framebuffer_fetch_noncoherent then
              FBFSupportLevel.NON_COHERENT_QCOM
            else FBFSupportLevel.NONE
          | none =>
            if checkExtension st.dev._extensions GL_EXT_shader_framebuffer_fetch = true then
              FBFSupportLevel.COHERENT
            else FBFSupportLevel.NONE
        else FBFSupportLevel.NONE) ∧
      st1.dev._features Feature.INPUT_ATTACHMENT_BENEFIT =
        decide (r1.mFBF ≠ FBFSupportLevel.NONE) := by
  rcases Bool.eq_false_or_eq_true (checkExtension st.dev._extensions "framebuffer_fetch")
    with hp | hp
  · cases hfind : st.dev._extensions.find?
        (fun ext => hasSubstring ext "framebuffer_fetch_non") with
    | some it =>
      by_cases h1 : it = GL_EXT_shader_framebuffer_fetch_non_coherent
      · subst h1
        simp only [blockFramebufferFetch, run, GStmt.exec, GStmt.enabled, List.all_cons,
          List.all_nil, Guard.holds, hnw, hp, Bool.not_false, Bool.and_true, Bool.true_and,
          if_true, Stmt.exec, InitState.withRegistry, hr, selectFBFLevel, hfind,
          InitState.setRegistry, eq_self_iff_true]
        exact ⟨_, _, rfl, rfl, rfl, rfl, by simp [Function.update_apply]⟩
      · by_cases h2 : it = GL_QCOM_shader_framebuffer_fetch_noncoherent
        · subst h2
          have hne : ¬ GL_QCOM_shader_framebuffer_fetch_noncoherent =
              GL_EXT_shader_framebuffer_fetch_non_coherent := by decide
          simp only [blockFramebufferFetch, run, GStmt.exec, GStmt.enabled, List.all_cons,
            List.all_nil, Guard.holds, hnw, hp, Bool.not_false, Bool.and_true, Bool.true_and,
            if_true, Stmt.exec, InitState.withRegistry, hr, selectFBFLevel, hfind,
            InitState.setRegistry, hne, if_false, eq_self_iff_true, GLES2Device.log]
          exact ⟨_, _, rfl, rfl, rfl, rfl, by simp [Function.update_apply]⟩
        ·
          simp only [blockFramebufferFetch, run, GStmt.exec, GStmt.enabled, List.all_cons,
            List.all_nil, Guard.holds, hnw, hp, Bool.not_false, Bool.and_true, Bool.true_and,
            if_true, Stmt.exec, InitState.withRegistry, hr, selectFBFLevel, hfind,
            InitState.setRegistry, h1, h2, if_false]
          exact ⟨_, _, rfl, rfl, rfl, hnone, by simp [Function.update_apply, hnone]⟩
    | none =>
      rcases Bool.eq_false_or_eq_true
          (checkExtension st.dev._extensions GL_EXT_shader_framebuffer_fetch) with hco | hco
      ·
        simp only [blockFramebufferFetch, run, GStmt.exec, GStmt.enabled, List.all_cons,
          List.all_nil, Guard.holds, hnw, hp, Bool.not_false, Bool.and_true, Bool.true_and,
          if_true, Stmt.exec, InitState.withRegistry, hr, selectFBFLevel, hfind,
          InitState.setRegistry, hco]
        exact ⟨_, _, rfl, rfl, rfl, rfl, by simp [Function.update_apply]⟩
      ·
        simp only [blockFramebufferFetch, run, GStmt.exec, GStmt.enabled, List.all_cons,
          List.all_nil, Guard.holds, hnw, hp, Bool.not_false, Bool.and_true, Bool.true_and,
          if_true, Stmt.exec, InitState.withRegistry, hr, selectFBFLevel, hfind,
          InitState.setRegistry, hco, Bool.false_eq_true, if_false]
        exact ⟨_, _, rfl, rfl, rfl, hnone, by simp [Function.update_apply, hnone]⟩
  · simp only [blockFramebufferFetch, run, GStmt.exec, GStmt.enabled, List.all_cons,
      List.all_nil, Guard.holds, hnw, hp, Bool.not_false, Bool.and_true, Bool.and_false,
      Bool.false_eq_true, if_false]
    exact ⟨st, r, rfl, hr, rfl, hnone, by simp [hiab, hnone]⟩

theorem GLES2Device.doInit_finish_eq (env : Backend) (d d1 : GLES2Device) (st1 : InitState)
    (hctx : env.contextInitOk = true)
    (h1 : run env doInitProgram
      (GLES2Device.doInitBegin env ((GLES2Device.doInitConstruct d).log .contextInit)) =
        .ok st1)
    (h : d.doInit env = .ok (true, d1)) :
    GLES2Device.doInitFinish env st1 = .ok d1 := by
  simp only [GLES2Device.doInit, hctx, deref, bind, Except.bind, pure, Except.pure,
    GLES2Device.doInitConstruct, GLES2Device.log, Bool.not_true, Bool.false_eq_true,
    if_false] at h1 h
  rw [h1] at h
  cases hfin : GLES2Device.doInitFinish env st1 with
  | error e => simp [hfin] at h
  | ok d2 =>
    simp only [hfin, Except.ok.injEq, Prod.mk.injEq, true_and] at h
    rw [h]

/-- C16: on a platform other than Windows, `doInit` on a fresh device whose context
initialises leaves the framebuffer-fetch level of the constant registry as follows. When the
`framebuffer_fetch` probe fails the level is NONE and `INPUT_ATTACHMENT_BENEFIT` is false.
When some extension string contains `framebuffer_fetch_non`, the first such string decides
alone: NON_COHERENT_EXT if it is the EXT non-coherent name, NON_COHERENT_QCOM if it is the
QCOM name, NONE otherwise. When no string contains `framebuffer_fetch_non` and the probe
succeeds, the level is COHERENT if the coherent EXT extension is present and NONE otherwise.
In every case `INPUT_ATTACHMENT_BENEFIT` is true exactly when the level is not NONE. -/
theorem GLES2Device.doInit_framebuffer_fetch (env : Backend)
    (hctx : env.contextInitOk = true) (hnw : env.windows = false) :
    ∃ d1 r, GLES2Device.fresh.doInit env = .ok (true, d1) ∧
      d1._gpuConstantRegistry = some r ∧
      (checkExtension env.extensions "framebuffer_fetch" = false →
        r.mFBF = FBFSupportLevel.NONE ∧
        d1._features Feature.INPUT_ATTACHMENT_BENEFIT = false) ∧
      (∀ it, env.extensions.find? (fun ext => hasSubstring ext "framebuffer_fetch_non") =
          some it →
        r.mFBF =
          if it = GL_EXT_shader_framebuffer_fetch_non_coherent then
            FBFSupportLevel.NON_COHERENT_EXT
          else if it = GL_QCOM_shader_framebuffer_fetch_noncoherent then
            FBFSupportLevel.NON_COHERENT_QCOM
          else FBFSupportLevel.NONE) ∧
      (env.extensions.find? (fun ext => hasSubstring ext "framebuffer_fetch_non") = none →
        checkExtension env.extensions "framebuffer_fetch" = true →
        r.mFBF =
          if checkExtension env.extensions GL_EXT_shader_framebuffer_fetch = true then
            FBFSupportLevel.COHERENT
          else FBFSupportLevel.NONE) ∧
      (d1._features Feature.INPUT_ATTACHMENT_BENEFIT = true ↔
        r.mFBF ≠ FBFSupportLevel.NONE) := by
  obtain ⟨st1, d1, h1, hd1, _, _, hfeat, _⟩ :=
    GLES2Device.doInit_run env GLES2Device.fresh hctx
  -- the statements ahead of the block
  obtain ⟨sa, ha, hxa, ⟨ra, hra⟩, _, _, _, _⟩ :=
    run_ok env beforeFramebufferFetch
      (GLES2Device.doInitBegin env
        ((GLES2Device.doInitConstruct GLES2Device.fresh).log .contextInit)) {} rfl
  obtain ⟨hma, hia, _⟩ := run_keeps_fbf env beforeFramebufferFetch _ sa
    beforeFramebufferFetch_keeps ha
  have hnone : ra.mFBF = FBFSupportLevel.NONE := by
    rw [hra] at hma
    simpa [GLES2Device.doInitBegin, GLES2Device.doInitConstruct, GLES2Device.log] using hma
  have hiab : sa.dev._features Feature.INPUT_ATTACHMENT_BENEFIT = false := by
    rw [hia]; rfl
  have hxa1 : sa.dev._extensions = env.extensions := hxa
  -- the block
  obtain ⟨sb, rb, hb, hrb, hxb, hlevel, hben⟩ :=
    run_blockFramebufferFetch env sa ra hnw hra hnone hiab
  rw [hxa1] at hlevel
  -- the statements after the block
  obtain ⟨sc, hc, _, ⟨rc, hrc⟩, _, _, _, _⟩ := run_ok env afterFramebufferFetch sb rb hrb
  obtain ⟨hmc, hic, _⟩ := run_keeps_fbf env afterFramebufferFetch sb sc
    afterFramebufferFetch_keeps hc
  have hwhole : run env doInitProgram
      (GLES2Device.doInitBegin env
        ((GLES2Device.doInitConstruct GLES2Device.fresh).log .contextInit)) = .ok sc := by
    rw [doInitProgram_split, run_append, ha]
    simp only []
    rw [run_append, hb]
    exact hc
  have hsc1 : st1 = sc := by
    rw [h1] at hwhole
    exact Except.ok.inj hwhole
  subst hsc1
  have hrcb : rc.mFBF = rb.mFBF := by
    rw [hrc, hrb] at hmc
    simpa using hmc
  -- the lines after the capability section
  obtain ⟨st2, hrun2, _, _, hsc2, hbm2, _, _⟩ := run_ok env doInitProgram
    (GLES2Device.doInitBegin env
      ((GLES2Device.doInitConstruct GLES2Device.fresh).log .contextInit)) {} rfl
  have hst2 : st1 = st2 := by
    rw [h1] at hrun2
    exact Except.ok.inj hrun2
  subst hst2
  have hsc : st1.dev._gpuStateCache = some {} := hsc2
  have hbm : st1.dev._gpuBlitManager = some {} := hbm2
  obtain ⟨d2, hfin, hreg, _⟩ := GLES2Device.doInitFinish_registry env st1 {} {} rc hsc hbm hrc
  have hfin1 := GLES2Device.doInit_finish_eq env GLES2Device.fresh d1 st1 hctx h1 hd1
  have hd21 : d2 = d1 := by
    rw [hfin] at hfin1
    exact Except.ok.inj hfin1
  subst hd21
  have hbenefit : d2._features Feature.INPUT_ATTACHMENT_BENEFIT =
      decide (rc.mFBF ≠ FBFSupportLevel.NONE) := by
    rw [hfeat, hic, hben, hrcb]
  refine ⟨d2, rc, hd1, hreg, ?_, ?_, ?_, ?_⟩
  · intro hp
    rw [hp] at hlevel
    have hl : rc.mFBF = FBFSupportLevel.NONE := by rw [hrcb, hlevel]; rfl
    refine ⟨hl, ?_⟩
    rw [hbenefit, hl]
    rfl
  · intro it hfind
    rw [hrcb, hlevel, checkExtension_of_find env.extensions it hfind, hfind]
    rfl
  · intro hfind hp
    rw [hrcb, hlevel, hp, hfind]
    rfl
  · rw [hbenefit]
    simp

/-- C16, at a backend that lists the QCOM non-coherent extension ahead of the coherent EXT
extension. -/
theorem GLES2Device.doInit_framebuffer_fetch_witness :
    ∃ d1 r, GLES2Device.fresh.doInit
        { extensions := ["GL_QCOM_shader_framebuffer_fetch_noncoherent",
                         "GL_EXT_shader_framebuffer_fetch"] } = .ok (true, d1) ∧
      d1._gpuConstantRegistry = some r ∧
      (checkExtension ["GL_QCOM_shader_framebuffer_fetch_noncoherent",
          "GL_EXT_shader_framebuffer_fetch"] "framebuffer_fetch" = false →
        r.mFBF = FBFSupportLevel.NONE ∧
        d1._features Feature.INPUT_ATTACHMENT_BENEFIT = false) ∧
      (∀ it, ["GL_QCOM_shader_framebuffer_fetch_noncoherent",
            "GL_EXT_shader_framebuffer_fetch"].find?
            (fun ext => hasSubstring ext "framebuffer_fetch_non") = some it →
        r.mFBF =
          if it = GL_EXT_shader_framebuffer_fetch_non_coherent then
            FBFSupportLevel.NON_COHERENT_EXT
          else if it = GL_QCOM_shader_framebuffer_fetch_noncoherent then
            FBFSupportLevel.NON_COHERENT_QCOM
          else FBFSupportLevel.NONE) ∧
      (["GL_QCOM_shader_framebuffer_fetch_noncoherent",
            "GL_EXT_shader_framebuffer_fetch"].find?
            (fun ext => hasSubstring ext "framebuffer_fetch_non") = none →
        checkExtension ["GL_QCOM_shader_framebuffer_fetch_noncoherent",
          "GL_EXT_shader_framebuffer_fetch"] "framebuffer_fetch" = true →
        r.mFBF =
          if checkExtension ["GL_QCOM_shader_framebuffer_fetch_noncoherent",
              "GL_EXT_shader_framebuffer_fetch"] GL_EXT_shader_framebuffer_fetch = true then
            FBFSupportLevel.COHERENT
          else FBFSupportLevel.NONE) ∧
      (d1._features Feature.INPUT_ATTACHMENT_BENEFIT = true ↔
        r.mFBF ≠ FBFSupportLevel.NONE) :=
  GLES2Device.doInit_framebuffer_fetch
    { extensions := ["GL_QCOM_shader_framebuffer_fetch_noncoherent",
                     "GL_EXT_shader_framebuffer_fetch"] } rfl rfl

end gfx

/-! ## The log line stays inside its buffer -/

namespace Log

theorem format02d_spec (n : Int) (h0 : 0 ≤ n) (h1 : n < 100) :
    (format02d n).length = 2 ∧ NUL ∉ format02d n := by
  obtain ⟨m, rfl⟩ := Int.eq_ofNat_of_zero_le h0
  have hm : m < 100 := by omega
  interval_cases m <;> decide

theorem formatTime_spec (t : Tm) (hh : 0 ≤ t.tm_hour ∧ t.tm_hour ≤ 23)
    (hm : 0 ≤ t.tm_min ∧ t.tm_min ≤ 59) (hs : 0 ≤ t.tm_sec ∧ t.tm_sec ≤ 60) :
    (formatTime t).length = 9 ∧ NUL ∉ formatTime t := by
  obtain ⟨l1, n1⟩ := format02d_spec t.tm_hour hh.1 (by omega)
  obtain ⟨l2, n2⟩ := format02d_spec t.tm_min hm.1 (by omega)
  obtain ⟨l3, n3⟩ := format02d_spec t.tm_sec hs.1 (by omega)
  constructor
  · simp [formatTime, l1, l2, l3]
  · simp only [formatTime, List.mem_append, List.mem_singleton, not_or]
    refine ⟨⟨⟨⟨⟨n1, ?_⟩, n2⟩, ?_⟩, n3⟩, ?_⟩ <;> decide

theorem formatLevel_spec (level : LogLevel) :
    ((formatLevel level).length = 8 ∨ (formatLevel level).length = 9) ∧
      NUL ∉ formatLevel level := by
  cases level <;> decide

end Log

namespace Log

theorem store_ok (buff : Nat → Char) (P : Nat) (cs : List Char)
    (h : P + cs.length ≤ 4096) : store buff (P : Int) cs = some (blit buff P cs) := by
  unfold store
  rw [if_pos]
  · simp
  · refine ⟨Int.natCast_nonneg _, ?_⟩
    have : ((P + cs.length : Nat) : Int) ≤ ((4096 : Nat) : Int) := Int.ofNat_le.mpr h
    simpa [buffSize] using this

theorem content_succ (buff : Nat → Char) (n : Nat) :
    content buff (n + 1) = content buff n ++ [buff n] := by
  simp [content, List.range_succ]

theorem content_congr (b1 b2 : Nat → Char) (n : Nat) (h : ∀ i, i < n → b1 i = b2 i) :
    content b1 n = content b2 n := by
  unfold content
  apply List.map_congr_left
  intro i hi
  exact h i (List.mem_range.mp hi)

theorem blit_below (buff : Nat → Char) (q : Nat) (cs : List Char) (i : Nat) (h : i < q) :
    blit buff q cs i = buff i := by
  unfold blit
  rw [if_neg]
  omega

theorem blit_at (buff : Nat → Char) (q : Nat) (cs : List Char) (j : Nat)
    (h : j < cs.length) : blit buff q cs (q + j) = cs.getD j NUL := by
  unfold blit
  rw [if_pos (by omega)]
  congr 1
  omega

theorem content_blit (buff : Nat → Char) (q : Nat) :
    ∀ (cs ex : List Char),
      content (blit buff q (cs ++ ex)) (q + cs.length) = content buff q ++ cs := by
  intro cs
  induction cs using List.reverseRecOn with
  | nil =>
    intro ex
    simp only [List.length_nil, Nat.add_zero, List.append_nil]
    exact content_congr _ _ _ (fun i hi => blit_below _ _ _ _ hi)
  | append_singleton cs c ih =>
    intro ex
    have h1 := ih ([c] ++ ex)
    rw [List.length_append, List.length_singleton, ← Nat.add_assoc, content_succ,
      List.append_assoc cs [c] ex, h1, blit_at _ _ _ _ (by simp), List.append_assoc]
    congr 2
    simp [List.getD_eq_getElem?_getD, List.getElem_append_right]

end Log

namespace Log

theorem toSizeT_count (P : Nat) (hP : P ≤ 4092) : toSizeT (4093 - (P : Int)) = 4093 - P := by
  unfold toSizeT
  omega

theorem kept_length (f : Formatted) (P : Nat) (hP : P ≤ 4092) :
    ((kept f (4093 - (P : Int))).length : Int) =
      if 0 ≤ returned f then min (returned f) (4093 - (P : Int) - 1) else 0 := by
  cases f with
  | failure code =>
    have : ¬ (0 ≤ returned (.failure code)) := by
      simp only [returned]
      omega
    simp [kept, this]
  | text cs =>
    by_cases h : 0 ≤ returned (.text cs)
    · simp only [kept, h, if_true, List.length_take]
      simp only [returned] at h ⊢
      split
      · omega
      · omega
    · simp [kept, h]

theorem cursor_spec (f : Formatted) (P : Nat) (hP : P ≤ 4092) :
    (if returned f ≥ 4093 - (P : Int) - 1 then (P : Int) + (4093 - (P : Int) - 1)
      else if returned f ≥ 0 then (P : Int) + returned f else (P : Int)) =
      ((P + (kept f (4093 - (P : Int))).length : Nat) : Int) := by
  rw [Nat.cast_add, kept_length f P hP]
  split_ifs <;> omega

theorem vsnprintf_spec (buff : Nat → Char) (P : Nat) (hP : P ≤ 4092) (f : Formatted) :
    ∃ b, vsnprintf buff (P : Int) (toSizeT (4093 - (P : Int))) f = some (b, returned f) ∧
      content b (P + (kept f (4093 - (P : Int))).length) =
        content buff P ++ kept f (4093 - (P : Int)) := by
  rw [toSizeT_count P hP]
  cases f with
  | failure code => exact ⟨buff, rfl, by simp [kept]⟩
  | text cs =>
    have hsize : ¬ (4093 - P = 0) := by omega
    have hlen : P + (cs.take (4093 - P - 1) ++ [NUL]).length ≤ 4096 := by
      simp only [List.length_append, List.length_take, List.length_singleton]
      omega
    refine ⟨blit buff P (cs.take (4093 - P - 1) ++ [NUL]), ?_, ?_⟩
    · simp only [vsnprintf, hsize, if_false, store_ok buff P _ hlen, Option.map_some']
    · have hn : (4093 - (P : Int) - 1).toNat = 4093 - P - 1 := by omega
      by_cases h : 0 ≤ returned (.text cs)
      · simp only [kept, h, if_true, hn]
        exact content_blit buff P _ _
      · simp only [kept, h, if_false, List.length_nil, Nat.add_zero, List.append_nil]
        have := content_blit buff P [] (cs.take (4093 - P - 1) ++ [NUL])
        simpa using this

theorem writeMessage_spec (buff : Nat → Char) (P : Nat) (hP : P ≤ 4092) (f : Formatted) :
    ∃ r, writeMessage buff (P : Int) f = some r ∧
      r.prefixEnd = (P : Int) ∧
      r.count = 4093 - (P : Int) ∧
      r.advance = ((kept f r.count).length : Int) ∧
      r.newlineAt = r.prefixEnd + r.advance ∧
      r.nulAt = r.newlineAt + 1 ∧
      content r.buff (P + (kept f r.count).length + 1) =
        content buff P ++ kept f r.count ++ ['\n'] ∧
      r.buff (P + (kept f r.count).length + 1) = NUL := by
  obtain ⟨b, hb, hcontent⟩ := vsnprintf_spec buff P hP f
  have hK : (kept f (4093 - (P : Int))).length ≤ 4092 - P := by
    have := kept_length f P hP
    split_ifs at this <;> omega
  have hcount : (buffSize : Int) - 3 - (P : Int) = 4093 - (P : Int) := by
    simp only [buffSize]
    omega
  have hq1 : ((P + (kept f (4093 - (P : Int))).length : Nat) : Int) + 1 =
      ((P + (kept f (4093 - (P : Int))).length + 1 : Nat) : Int) := by
    push_cast
    rfl
  have hw : writeMessage buff (P : Int) f = some
      { buff := blit (blit b (P + (kept f (4093 - (P : Int))).length) ['\n'])
          (P + (kept f (4093 - (P : Int))).length + 1) [NUL],
        prefixEnd := (P : Int),
        count := 4093 - (P : Int),
        advance := ((P + (kept f (4093 - (P : Int))).length : Nat) : Int) - (P : Int),
        newlineAt := ((P + (kept f (4093 - (P : Int))).length : Nat) : Int),
        nulAt := ((P + (kept f (4093 - (P : Int))).length + 1 : Nat) : Int) } := by
    simp only [writeMessage, hcount, hb, Option.bind_eq_bind, Option.some_bind,
      cursor_spec f P hP, hq1]
    rw [store_ok _ _ _ (by simp only [List.length_singleton]; omega)]
    simp only [Option.some_bind]
    rw [store_ok _ _ _ (by simp only [List.length_singleton]; omega)]
    simp only [Option.some_bind]
    rfl
  refine ⟨_, hw, rfl, rfl, ?_, ?_, ?_, ?_, ?_⟩
  · simp
  · simp
  · exact hq1.symm
  · show content (blit (blit b _ ['\n']) _ [NUL]) _ = _
    rw [content_congr _ _ _ (fun i hi => blit_below _ _ _ i hi)]
    have := content_blit b (P + (kept f (4093 - (P : Int))).length) ['\n'] []
    simp only [List.append_nil, List.length_singleton] at this
    rw [this, hcontent]
  · show blit (blit b _ ['\n']) _ [NUL] _ = _
    have := blit_at (blit b (P + (kept f (4093 - (P : Int))).length) ['\n'])
      (P + (kept f (4093 - (P : Int))).length + 1) [NUL] 0 (by simp)
    simpa using this

end Log

namespace Log

theorem cStringFrom_initial (buff : Nat → Char) (n : Nat) (hnul : buff n = NUL) :
    ∀ (k i fuel : Nat), i + k = n → k < fuel →
      cStringFrom buff i fuel <+: (List.range k).map (fun j => buff (i + j)) := by
  intro k
  induction k with
  | zero =>
    intro i fuel hi hf
    obtain ⟨fuel, rfl⟩ := Nat.exists_eq_succ_of_ne_zero (Nat.pos_iff_ne_zero.mp hf)
    have : buff i = NUL := by
      rw [← hnul]
      congr 1
    simp [cStringFrom, this]
  | succ k ih =>
    intro i fuel hi hf
    obtain ⟨fuel, rfl⟩ :=
      Nat.exists_eq_succ_of_ne_zero (Nat.pos_iff_ne_zero.mp (show 0 < fuel by omega))
    by_cases h : buff i = NUL
    · simp [cStringFrom, h]
    · have h1 := ih (i + 1) fuel (by omega) (by omega)
      simp only [cStringFrom, h, if_false, List.range_succ_eq_map, List.map_cons,
        List.map_map, Nat.add_zero]
      rw [List.prefix_cons_inj]
      have he : ((fun j => buff (i + j)) ∘ Nat.succ) = (fun j => buff (i + 1 + j)) := by
        funext j
        simp only [Function.comp_apply]
        congr 1
        omega
      rw [he]
      exact h1

theorem cStringFrom_exact (buff : Nat → Char) (n : Nat) (hnul : buff n = NUL)
    (hno : ∀ j, j < n → buff j ≠ NUL) :
    ∀ (k i fuel : Nat), i + k = n → k < fuel →
      cStringFrom buff i fuel = (List.range k).map (fun j => buff (i + j)) := by
  intro k
  induction k with
  | zero =>
    intro i fuel hi hf
    obtain ⟨fuel, rfl⟩ := Nat.exists_eq_succ_of_ne_zero (Nat.pos_iff_ne_zero.mp hf)
    have : buff i = NUL := by
      rw [← hnul]
      congr 1
    simp [cStringFrom, this]
  | succ k ih =>
    intro i fuel hi hf
    obtain ⟨fuel, rfl⟩ :=
      Nat.exists_eq_succ_of_ne_zero (Nat.pos_iff_ne_zero.mp (show 0 < fuel by omega))
    have h : buff i ≠ NUL := hno i (by omega)
    have h1 := ih (i + 1) fuel (by omega) (by omega)
    simp only [cStringFrom, h, if_false, List.range_succ_eq_map, List.map_cons,
      List.map_map, Nat.add_zero]
    have he : ((fun j => buff (i + j)) ∘ Nat.succ) = (fun j => buff (i + 1 + j)) := by
      funext j
      simp only [Function.comp_apply]
      congr 1
      omega
    rw [he, h1]

theorem cStringFrom_takeWhile (buff : Nat → Char) (n : Nat) (hnul : buff n = NUL) :
    ∀ (k i fuel : Nat), i + k = n → k < fuel →
      cStringFrom buff i fuel =
        ((List.range k).map (fun j => buff (i + j))).takeWhile (fun c => c != NUL) := by
  intro k
  induction k with
  | zero =>
    intro i fuel hi hf
    obtain ⟨fuel, rfl⟩ := Nat.exists_eq_succ_of_ne_zero (Nat.pos_iff_ne_zero.mp hf)
    have : buff i = NUL := by
      rw [← hnul]
      congr 1
    simp [cStringFrom, this]
  | succ k ih =>
    intro i fuel hi hf
    obtain ⟨fuel, rfl⟩ :=
      Nat.exists_eq_succ_of_ne_zero (Nat.pos_iff_ne_zero.mp (show 0 < fuel by omega))
    have h1 := ih (i + 1) fuel (by omega) (by omega)
    have he : ((fun j => buff (i + j)) ∘ Nat.succ) = (fun j => buff (i + 1 + j)) := by
      funext j
      simp only [Function.comp_apply]
      congr 1
      omega
    rw [List.range_succ_eq_map, List.map_cons, List.map_map, he, Nat.add_zero]
    by_cases h : buff i = NUL
    · simp [cStringFrom, h]
    · have hb : (buff i != NUL) = true := by simpa using h
      rw [List.takeWhile_cons, hb, if_pos rfl, ← h1]
      simp [cStringFrom, h]

theorem cString_takeWhile (buff : Nat → Char) (n : Nat) (hnul : buff n = NUL)
    (hn : n < 4096) :
    cString buff = (content buff n).takeWhile (fun c => c != NUL) := by
  have h := cStringFrom_takeWhile buff n hnul n 0 buffSize (by omega) hn
  simpa [cString, content] using h

theorem cString_initial (buff : Nat → Char) (n : Nat) (hnul : buff n = NUL) (hn : n < 4096) :
    cString buff <+: content buff n := by
  have := cStringFrom_initial buff n hnul n 0 buffSize (by omega) hn
  simpa [cString, content] using this

theorem cString_exact (buff : Nat → Char) (n : Nat) (hnul : buff n = NUL) (hn : n < 4096)
    (hno : NUL ∉ content buff n) : cString buff = content buff n := by
  have hno1 : ∀ j, j < n → buff j ≠ NUL := by
    intro j hj h
    apply hno
    simp only [content, List.mem_map, List.mem_range]
    exact ⟨j, hj, h⟩
  have := cStringFrom_exact buff n hnul hno1 n 0 buffSize (by omega) hn
  simpa [cString, content] using this

theorem sprintf_ok (buff : Nat → Char) (P : Nat) (out : List Char)
    (h : P + out.length + 1 ≤ 4096) :
    sprintf buff (P : Int) out = some (blit buff P (out ++ [NUL]), (out.length : Int)) := by
  unfold sprintf
  rw [store_ok buff P _ (by simpa [Nat.add_assoc] using h)]
  rfl

theorem logMessage_head (buff0 : Nat → Char) (t : Tm) (level : LogLevel) (f : Formatted)
    (h : (formatTime t).length + (formatLevel level).length + 1 ≤ 4096) :
    logMessage buff0 t level f =
      writeMessage
        (blit (blit buff0 0 (formatTime t ++ [NUL])) (formatTime t).length
          (formatLevel level ++ [NUL]))
        (((formatTime t).length + (formatLevel level).length : Nat) : Int) f ∧
    content
        (blit (blit buff0 0 (formatTime t ++ [NUL])) (formatTime t).length
          (formatLevel level ++ [NUL]))
        ((formatTime t).length + (formatLevel level).length) =
      formatTime t ++ formatLevel level := by
  constructor
  · have h1 := sprintf_ok buff0 0 (formatTime t) (by omega)
    have h2 := sprintf_ok (blit buff0 0 (formatTime t ++ [NUL])) (formatTime t).length
      (formatLevel level) (by omega)
    simp only [Nat.cast_zero] at h1
    simp only [logMessage, h1, Option.bind_eq_bind, Option.some_bind, Int.zero_add, h2]
    simp
  · rw [content_blit]
    have := content_blit buff0 0 (formatTime t) [NUL]
    simp only [Nat.zero_add] at this
    rw [this]
    simp [content]

end Log

namespace Log

/-- C15, as stated, fails in its newline clause: for a message whose text holds a NUL byte
(as `"ab%ccd"` with argument 0 gives), logged at 00:00:00 with level ERROR, every store is
inside the buffer and the newline is stored, but behind the NUL of the message: the C string
handed to `fputs` is `00:00:00 [ERROR]: ab`, which does not end in a newline. -/
theorem logMessage_newline_counterexample :
    ∃ r, logMessage (fun _ => ' ') { tm_hour := 0, tm_min := 0, tm_sec := 0 } LogLevel.ERR
          (Formatted.text ['a', 'b', NUL, 'c', 'd']) = some r ∧
      returned (Formatted.text ['a', 'b', NUL, 'c', 'd']) = 5 ∧
      r.advance = 5 ∧
      r.newlineAt = 23 ∧
      r.buff 23 = '\n' ∧
      cString r.buff = "00:00:00 [ERROR]: ab".data ∧
      (cString r.buff).getLast? ≠ some '\n' := by
  refine ⟨_, rfl, ?_, ?_, ?_, ?_, ?_, ?_⟩ <;> decide

/-- C15: for every level, every in-range clock time, every starting buffer and every outcome
of the formatting, `logMessage` completes with every store inside the 4096-byte buffer.
The prefix is 17 or 18 bytes long, `count` is 4093 minus the prefix length, the cursor
advances by `min ret (count - 1)` when `ret` is non-negative and by 0 otherwise, the
newline is stored at an index of at most 4092 and the final NUL right after it, at an
index of at most 4093. The bytes before the final NUL are the prefix, the message cut to
`count - 1` bytes and one newline. The C string handed to `fputs` is the prefix followed by
those bytes of the kept message and the newline that precede the first NUL byte; it is the
whole line, ending in the appended newline, exactly when the kept message holds no NUL
byte. -/
theorem logMessage_in_bounds (buff0 : Nat → Char) (t : Tm) (level : LogLevel)
    (f : Formatted)
    (hh : 0 ≤ t.tm_hour ∧ t.tm_hour ≤ 23)
    (hm : 0 ≤ t.tm_min ∧ t.tm_min ≤ 59)
    (hs : 0 ≤ t.tm_sec ∧ t.tm_sec ≤ 60) :
    ∃ r, logMessage buff0 t level f = some r ∧
      r.prefixEnd = ((formatTime t ++ formatLevel level).length : Int) ∧
      (r.prefixEnd = 17 ∨ r.prefixEnd = 18) ∧
      r.count = 4093 - r.prefixEnd ∧
      r.advance = (if 0 ≤ returned f then min (returned f) (r.count - 1) else 0) ∧
      r.advance = ((kept f r.count).length : Int) ∧
      r.newlineAt = r.prefixEnd + r.advance ∧
      0 ≤ r.newlineAt ∧ r.newlineAt ≤ 4092 ∧
      r.nulAt = r.newlineAt + 1 ∧ r.nulAt ≤ 4093 ∧
      r.buff r.nulAt.toNat = NUL ∧
      content r.buff r.nulAt.toNat =
        formatTime t ++ formatLevel level ++ kept f r.count ++ ['\n'] ∧
      cString r.buff <+: formatTime t ++ formatLevel level ++ kept f r.count ++ ['\n'] ∧
      cString r.buff =
        formatTime t ++ formatLevel level ++
          (kept f r.count ++ ['\n']).takeWhile (fun c => c != NUL) ∧
      (cString r.buff = formatTime t ++ formatLevel level ++ kept f r.count ++ ['\n'] ↔
        NUL ∉ kept f r.count) := by
  obtain ⟨hT, hTn⟩ := formatTime_spec t hh hm hs
  obtain ⟨hL, hLn⟩ := formatLevel_spec level
  have hP : (formatTime t).length + (formatLevel level).length ≤ 4092 := by omega
  obtain ⟨hlog, hpre⟩ := logMessage_head buff0 t level f (by omega)
  obtain ⟨r, hr, hpe, hcount, hadv, hnl, hnul, hcontent, hbuffnul⟩ :=
    writeMessage_spec _ _ hP f
  have hk := kept_length f _ hP
  rw [← hcount] at hk
  have hK : ((kept f r.count).length : Int) ≤ r.count - 1 ∧
      0 ≤ ((kept f r.count).length : Int) := by
    constructor
    · rw [hk]
      split_ifs <;> omega
    · exact Int.natCast_nonneg _
  have htoNat : r.nulAt.toNat =
      (formatTime t).length + (formatLevel level).length + (kept f r.count).length + 1 := by
    rw [hnul, hnl, hpe, hadv]
    omega
  rw [hpre] at hcontent
  rw [← htoNat] at hcontent hbuffnul
  have hlt : r.nulAt.toNat < 4096 := by
    rw [htoNat]
    omega
  have htw : cString r.buff =
      formatTime t ++ formatLevel level ++
        (kept f r.count ++ ['\n']).takeWhile (fun c => c != NUL) := by
    rw [cString_takeWhile r.buff _ hbuffnul hlt, hcontent, List.append_assoc,
      List.takeWhile_append_of_pos]
    intro c hc
    have hne : c ≠ NUL := by
      rintro rfl
      rcases List.mem_append.mp hc with h | h
      · exact hTn h
      · exact hLn h
    simpa using hne
  refine ⟨r, hlog.trans hr, ?_, ?_, ?_, ?_, hadv, hnl, ?_, ?_, hnul, ?_, hbuffnul,
    hcontent, ?_, htw, ?_⟩
  · rw [hpe, List.length_append]
  · rw [hpe]
    omega
  · rw [hcount, hpe]
  · rw [hadv, hk]
  · rw [hnl, hpe, hadv]
    omega
  · rw [hnl, hpe, hadv]
    omega
  · rw [hnul, hnl, hpe, hadv]
    omega
  · rw [← hcontent]
    exact cString_initial r.buff _ hbuffnul hlt
  · constructor
    · intro heq hmem
      rw [htw, List.append_assoc (formatTime t ++ formatLevel level)] at heq
      have h1 := List.append_cancel_left heq
      have h2 : NUL ∈ (kept f r.count ++ ['\n']).takeWhile (fun c => c != NUL) := by
        rw [h1]
        exact List.mem_append_left _ hmem
      have h3 := List.mem_takeWhile_imp h2
      simp at h3
    · intro hkn
      rw [← hcontent]
      apply cString_exact r.buff _ hbuffnul hlt
      rw [hcontent]
      simp only [List.mem_append, List.mem_singleton, not_or]
      exact ⟨⟨⟨hTn, hLn⟩, hkn⟩, by decide⟩

/-- C15, at 09:05:60, level INFO, for the message "hello" written into a buffer of
blanks. -/
theorem logMessage_in_bounds_witness :
    ∃ r, logMessage (fun _ => ' ') { tm_hour := 9, tm_min := 5, tm_sec := 60 } LogLevel.INFO
          (Formatted.text "hello".data) = some r ∧
      r.prefixEnd =
        ((formatTime { tm_hour := 9, tm_min := 5, tm_sec := 60 } ++
          formatLevel LogLevel.INFO).length : Int) ∧
      (r.prefixEnd = 17 ∨ r.prefixEnd = 18) ∧
      r.count = 4093 - r.prefixEnd ∧
      r.advance = (if 0 ≤ returned (Formatted.text "hello".data)
        then min (returned (Formatted.text "hello".data)) (r.count - 1) else 0) ∧
      r.advance = ((kept (Formatted.text "hello".data) r.count).length : Int) ∧
      r.newlineAt = r.prefixEnd + r.advance ∧
      0 ≤ r.newlineAt ∧ r.newlineAt ≤ 4092 ∧
      r.nulAt = r.newlineAt + 1 ∧ r.nulAt ≤ 4093 ∧
      r.buff r.nulAt.toNat = NUL ∧
      content r.buff r.nulAt.toNat =
        formatTime { tm_hour := 9, tm_min := 5, tm_sec := 60 } ++ formatLevel LogLevel.INFO ++
          kept (Formatted.text "hello".data) r.count ++ ['\n'] ∧
      cString r.buff <+:
        formatTime { tm_hour := 9, tm_min := 5, tm_sec := 60 } ++ formatLevel LogLevel.INFO ++
          kept (Formatted.text "hello".data) r.count ++ ['\n'] ∧
      cString r.buff =
        formatTime { tm_hour := 9, tm_min := 5, tm_sec := 60 } ++ formatLevel LogLevel.INFO ++
          (kept (Formatted.text "hello".data) r.count ++ ['\n']).takeWhile
            (fun c => c != NUL) ∧
      (cString r.buff =
          formatTime { tm_hour := 9, tm_min := 5, tm_sec := 60 } ++
            formatLevel LogLevel.INFO ++
            kept (Formatted.text "hello".data) r.count ++ ['\n'] ↔
        NUL ∉ kept (Formatted.text "hello".data) r.count) :=
  logMessage_in_bounds (fun _ => ' ') { tm_hour := 9, tm_min := 5, tm_sec := 60 }
    LogLevel.INFO (Formatted.text "hello".data) (by decide) (by decide) (by decide)

end Log

end cc
